import Mathlib

/-!
# Wave5 decoder interface: a shallow embedding of `wave5-vpu-dec.c`

The driver code is embedded function by function.  Calls into the firmware
abstraction (`wave5_vpu_dec_*`, `wave5_vdi_*`) are calls to an arbitrary
hardware model `Hw σ`; every such call, every buffer completion and every
client event is appended to the trace of the `World`, so that statements of
the form "no DMA write is issued" are statements about that trace.
-/

namespace Wave5

/-! ## Machine arithmetic -/

/-- Modulus of `u32` / `unsigned int`. -/
def U32 : Nat := 2 ^ 32

/-- Modulus of `size_t`, `unsigned long` and `dma_addr_t` on the 64-bit target. -/
def U64 : Nat := 2 ^ 64

/-- Unsigned 64-bit addition. -/
def add64 (a b : Nat) : Nat := (a + b) % U64

/-- Unsigned 64-bit subtraction (wraps below zero). -/
def sub64 (a b : Nat) : Nat := (a % U64 + (U64 - b % U64)) % U64

/-- Unsigned 32-bit addition. -/
def add32 (a b : Nat) : Nat := (a + b) % U32

/-- Unsigned 32-bit subtraction (wraps below zero). -/
def sub32 (a b : Nat) : Nat := (a % U32 + (U32 - b % U32)) % U32

/-- Unsigned 32-bit multiplication. -/
def mul32 (a b : Nat) : Nat := (a * b) % U32

/-- Wrap an integer to the range of a signed 32-bit `int`. -/
def toS32 (x : Int) : Int :=
  let r := x % (2 ^ 32 : Int)
  if r < 2 ^ 31 then r else r - 2 ^ 32

/-- Conversion of an `int` argument to an `unsigned long` parameter. -/
def intToU64 (x : Int) : Nat := (x % (2 ^ 64 : Int)).toNat

/-- Modelled from the spec: `EINVAL` of `errno-base.h` is not among the sources;
the number of the input-validation error, returned negated. -/
def EINVAL : Int := 22

/-! ## Constants declared in headers that are not part of the sources at hand -/

/-- Values of the macros used by `wave5-vpu-dec.c` and declared in the wave5
headers (`wave5-vpuapi.h`, `wave5-helper.h`).  They are parameters of the
embedding. -/
structure Defs where
  /-- Second dimension of `dec_fmt_list`. -/
  MAX_FMTS : Nat
  WAVE5_SYSERR_QUEUEING_FAIL : Nat
  DECODED_IDX_FLAG_NO_FB : Int
  DISPLAY_IDX_FLAG_NO_FB : Int
  DISPLAY_IDX_FLAG_SEQ_END : Int
  WAVE5_MAX_FBS : Nat
  VPU_DEC_TIMEOUT : Nat
  /-- Whether `vb2_set_plane_payload` of the kernel at hand clamps the size to the
  length of the plane. -/
  VB2_PAYLOAD_CLAMPED : Bool

/-! ## Data model -/

/-- The enum `vpu_instance_state`. -/
inductive VpuInstState where
  | NONE | OPEN | INIT_SEQ | PIC_RUN | STOP
  deriving DecidableEq, Repr

/-- The enum `vb2_buffer_state`, the values passed to `v4l2_m2m_buf_done`. -/
inductive Vb2State where
  | QUEUED | DONE | ERROR
  deriving DecidableEq, Repr

/-- The two queue directions (`q->type`). -/
inductive QueueType where
  | OUTPUT_MPLANE | CAPTURE_MPLANE
  deriving DecidableEq, Repr

/-- One OUTPUT (bitstream) buffer: the `vb2_v4l2_buffer` together with its
`vpu_buffer.consumed` flag. -/
structure SrcBuf where
  index : Nat
  /-- Value of `vb2_get_plane_payload(vb, 0)`. -/
  payload : Nat
  /-- Value of `vb2_plane_size(vb, 0)`. -/
  plane_size : Nat
  /-- Whether `vb2_plane_vaddr(vb, 0)` is non-NULL. -/
  vaddr : Bool
  consumed : Bool
  timestamp : Nat
  sequence : Nat
  deriving DecidableEq, Repr

/-- One plane of a CAPTURE buffer (`struct vb2_plane`). -/
structure Plane where
  length : Nat
  bytesused : Nat
  dma_addr : Nat
  deriving DecidableEq, Repr

/-- One CAPTURE (picture) buffer. -/
structure DstBuf where
  index : Nat
  planes : List Plane
  timestamp : Nat
  /-- Bit `V4L2_BUF_FLAG_LAST` of `flags`. -/
  flag_last : Bool
  /-- Whether `field` has been set to `V4L2_FIELD_NONE`. -/
  field_none : Bool
  sequence : Nat
  deriving DecidableEq, Repr

/-- The struct `vpu_buf`: a DMA region. -/
structure VpuBuf where
  daddr : Nat
  size : Nat
  deriving DecidableEq, Repr

/-- Client events queued with `v4l2_event_queue_fh`. -/
inductive V4l2Event where
  | EOS | SOURCE_CHANGE
  deriving DecidableEq, Repr

/-- Commands of `wave5_vpu_dec_give_command`. -/
inductive DecCmd where
  | DEC_GET_QUEUE_STATUS | DEC_RESET_FRAMEBUF_INFO | DEC_GET_SEQ_INFO
  | ENABLE_DEC_THUMBNAIL_MODE
  deriving DecidableEq, Repr

/-- The entry points of the driver that the frameworks call. -/
inductive EntryPoint where
  | s_fmt_cap
  | buf_queue (q : QueueType)
  | start_streaming (q : QueueType)
  | stop_streaming (q : QueueType)
  | device_run
  | job_abort
  | finish_process
  | decoder_cmd
  | irq
  | s_fmt_out
  | s_ctrl
  | queue_setup (q : QueueType)
  deriving DecidableEq, Repr

/-- Everything the driver does to its collaborators, in the order it does it,
and the calls by which the frameworks enter the driver. -/
inductive Event where
  /-- A framework calls an entry point of the driver. -/
  | enter (ep : EntryPoint)
  | get_bitstream_buffer
  /-- The call `wave5_vdi_write_memory(dev, &bitstream_vbuf, offset, src_buf + src_off, len, ...)`. -/
  | write_memory (offset src_off len : Nat)
  | update_bitstream_buffer (size : Nat)
  | register_frame_buffer_ex (non_linear_num linear_num stride height : Nat)
  | start_one_frame
  | clr_disp_flag (index : Nat)
  | set_disp_flag (index : Nat)
  | clear_interrupt_ex (status : Nat)
  | get_output_info
  | give_command (cmd : DecCmd)
  | wait_interrupt (timeout : Nat)
  | issue_seq_init
  | complete_seq_init
  | set_rd_ptr (addr : Nat) (update_wr_ptr : Bool)
  /-- The call `wave5_vdi_allocate_dma_memory` for a region of the given size. -/
  | allocate_dma_memory (size : Nat)
  | free_dma_memory (vb : VpuBuf)
  /-- The call `wave5_vpu_dec_open` with the ring address and size of `open_param`. -/
  | dec_open (bitstream_buffer bitstream_buffer_size : Nat)
  /-- The call `v4l2_m2m_buf_done` on an OUTPUT buffer. -/
  | src_buf_done (buf : SrcBuf) (st : Vb2State)
  /-- The call `v4l2_m2m_buf_done` on a CAPTURE buffer. -/
  | dst_buf_done (buf : DstBuf) (st : Vb2State)
  | event_queue_fh (ev : V4l2Event)
  | ctrl_s_ctrl (val : Nat)
  | job_finish
  deriving DecidableEq, Repr

/-! ## The hardware as a collaborator -/

/-- Result of `wave5_vpu_dec_get_bitstream_buffer`. -/
structure BsInfo where
  ret : Int
  rd_ptr : Nat
  wr_ptr : Nat
  remain_size : Nat
  deriving DecidableEq, Repr

/-- The struct `queue_status_info`, two `u32` counters. -/
structure QueueStatus where
  instance_queue_count : Nat
  report_queue_count : Nat
  deriving DecidableEq, Repr

/-- The fields of `dec_output_info` read by the driver. -/
structure DecOutputInfo where
  index_frame_decoded : Int
  index_frame_display : Int
  /-- The field `disp_frame.stride`. -/
  stride : Nat
  disp_pic_height : Nat
  /-- The field `rc_display.bottom`. -/
  rc_display_bottom : Nat
  sequence_changed : Bool
  frame_cycle : Nat
  deriving DecidableEq, Repr

/-- The fields of `dec_initial_info` read by the driver. -/
structure DecInitialInfo where
  pic_width : Nat
  pic_height : Nat
  min_frame_buffer_count : Nat
  pic_crop_right : Nat
  pic_crop_bottom : Nat
  seq_init_err_reason : Nat
  deriving DecidableEq, Repr

/-- An arbitrary behaviour of the firmware abstraction: every call takes the
hardware state and its arguments and gives the next state and what is
returned to the driver. -/
structure Hw (σ : Type) where
  get_bitstream_buffer : σ → σ × BsInfo
  /-- Arguments: offset in the ring, offset in the source buffer, length. -/
  write_memory : σ → Nat → Nat → Nat → σ × Int
  update_bitstream_buffer : σ → Nat → σ × Int
  register_frame_buffer_ex : σ → Nat → Nat → Nat → Nat → σ × Int
  /-- Returns `ret` and the value left in `fail_res` (initialised to 0 by the caller). -/
  start_one_frame : σ → σ × Int × Nat
  clr_disp_flag : σ → Nat → σ × Int
  set_disp_flag : σ → Nat → σ × Int
  clear_interrupt_ex : σ → Nat → σ
  get_output_info : σ → σ × Int × DecOutputInfo
  get_queue_status : σ → σ × QueueStatus
  reset_framebuf_info : σ → σ
  get_seq_info : σ → σ × DecInitialInfo
  wait_interrupt : σ → Nat → σ × Int
  issue_seq_init : σ → σ × Int
  complete_seq_init : σ → σ × Int × DecInitialInfo
  set_rd_ptr : σ → Nat → Bool → σ × Int
  /-- Returns `ret` and the descriptor as the call leaves it. -/
  allocate_dma_memory : σ → VpuBuf → σ × Int × VpuBuf
  /-- Returns the descriptor as the call leaves it. -/
  free_dma_memory : σ → VpuBuf → σ × VpuBuf
  /-- Arguments: `open_param.bitstream_buffer` and `open_param.bitstream_buffer_size`. -/
  dec_open : σ → Nat → Nat → σ × Int
  enable_thumbnail_mode : σ → σ

/-- The struct `v4l2_plane_pix_format`. -/
structure PlaneFmt where
  sizeimage : Nat
  bytesperline : Nat
  deriving DecidableEq, Repr

/-- The struct `v4l2_pix_format_mplane` (fields used by the driver). -/
structure PixFmt where
  width : Nat
  height : Nat
  pixelformat : Nat
  field : Nat
  flags : Nat
  num_planes : Nat
  colorspace : Nat
  /-- The byte shared by the union members `ycbcr_enc` and `hsv_enc`. -/
  ycbcr_enc : Nat
  quantization : Nat
  xfer_func : Nat
  /-- The array `plane_fmt[]`, by index. -/
  plane_fmt : Nat → PlaneFmt

/-- The enum `tiled_map_type` values used by the decoder. -/
inductive MapType where
  | LINEAR_FRAME_MAP | COMPRESSED_FRAME_MAP
  deriving DecidableEq, Repr

/-- The struct `frame_buffer`. -/
structure FrameBuffer where
  buf_y : Nat
  buf_cb : Nat
  buf_cr : Nat
  size : Nat
  width : Nat
  stride : Nat
  map_type : MapType
  update_fb_info : Bool
  deriving DecidableEq, Repr

/-- The values of the enum `wave_std` used by the decoder. -/
inductive WaveStd where
  | W_HEVC_DEC | W_AVC_DEC | STD_UNKNOWN
  deriving DecidableEq, Repr

/-- The struct `vpu_instance` together with the two ready queues of its
mem2mem context. -/
structure VpuInstance where
  state : VpuInstState
  std : WaveStd
  src_fmt : PixFmt
  dst_fmt : PixFmt
  display_fmt : PixFmt
  colorspace : Nat
  ycbcr_enc : Nat
  hsv_enc : Nat
  quantization : Nat
  xfer_func : Nat
  cbcr_interleave : Bool
  nv21 : Bool
  eos : Bool
  timestamp : Nat
  min_dst_buf_count : Nat
  dst_buf_count : Nat
  queued_src_buf_num : Nat
  queued_dst_buf_num : Nat
  conf_win_width : Nat
  conf_win_height : Nat
  thumbnail_mode : Bool
  bitstream_vbuf : VpuBuf
  /-- The array `frame_buf[]`, by index. -/
  frame_buf : Nat → FrameBuffer
  /-- The array `frame_vbuf[]`, by index. -/
  frame_vbuf : Nat → VpuBuf
  /-- The kfifo `irq_status`, oldest entry first. -/
  irq_status : List Nat
  /-- Whether `v4l2_ctrl_find` finds `V4L2_CID_MIN_BUFFERS_FOR_CAPTURE`. -/
  has_min_buffers_ctrl : Bool
  /-- OUTPUT ready queue of the mem2mem context, front first. -/
  src_queue : List SrcBuf
  /-- CAPTURE ready queue of the mem2mem context, front first. -/
  dst_queue : List DstBuf

/-- How far an execution got. -/
inductive Status where
  /-- The driver code is still running normally. -/
  | running
  /-- A NULL pointer was dereferenced or a division by zero executed. -/
  | oops
  /-- A loop was still spinning when the observation ended. -/
  | hung
  deriving DecidableEq, Repr

/-- The instance, the hardware state and everything done so far. -/
structure World (σ : Type) where
  inst : VpuInstance
  hw : σ
  trace : List Event
  status : Status

variable {σ : Type}

/-- Append events to the trace. -/
def World.emit (w : World σ) (es : List Event) : World σ :=
  { w with trace := w.trace ++ es }

/-- Run the rest of a function only when nothing has stopped the execution. -/
def World.andThen (w : World σ) (f : World σ → World σ) : World σ :=
  match w.status with
  | Status.running => f w
  | _ => w

/-! ## Bitstream ring feeder -/

/-- How one iteration of a loop ends: `continue`, `break` or `return`. -/
inductive Ctl where
  | next | brk | ret
  deriving DecidableEq, Repr

/-- The value of `src_size` after lines 97-105: the payload of plane 0, replaced
by 0 when it equals the size of the plane. -/
def src_size (buf : SrcBuf) : Nat :=
  if buf.payload = buf.plane_size then 0 else buf.payload

/-- Outcome of the loop body of `wave5_handle_bitstream_buffer` for one buffer. -/
structure FeedStep (σ : Type) where
  buf : SrcBuf
  hw : σ
  events : List Event
  ctl : Ctl

/-- Body of the loop of `wave5_handle_bitstream_buffer` (lines 95-176) for the
buffer `buf`, with the ring `ring = inst->bitstream_vbuf`. -/
def feed_one (hw : Hw σ) (ring : VpuBuf) (s : σ) (buf : SrcBuf) : FeedStep σ :=
  let n := src_size buf
  if buf.consumed then ⟨buf, s, [], Ctl.next⟩
  else if !buf.vaddr then ⟨buf, s, [], Ctl.brk⟩
  else
    let q := hw.get_bitstream_buffer s
    let s1 := q.1
    let wr_ptr := q.2.wr_ptr
    if q.2.ret ≠ 0 then ⟨buf, s1, [Event.get_bitstream_buffer], Ctl.ret⟩
    else if q.2.remain_size < n then ⟨buf, s1, [Event.get_bitstream_buffer], Ctl.brk⟩
    else
      let offset := sub64 wr_ptr ring.daddr
      if add64 wr_ptr n > add64 ring.daddr ring.size then
        let size := sub64 (add64 ring.daddr ring.size) wr_ptr
        let r1 := hw.write_memory s1 offset 0 size
        if r1.2 < 0 then
          ⟨buf, r1.1, [Event.get_bitstream_buffer, Event.write_memory offset 0 size], Ctl.brk⟩
        else
          let r2 := hw.write_memory r1.1 0 size (sub64 n size)
          if r2.2 < 0 then
            ⟨buf, r2.1, [Event.get_bitstream_buffer, Event.write_memory offset 0 size,
              Event.write_memory 0 size (sub64 n size)], Ctl.brk⟩
          else
            let r3 := hw.update_bitstream_buffer r2.1 n
            if r3.2 ≠ 0 then
              ⟨buf, r3.1, [Event.get_bitstream_buffer, Event.write_memory offset 0 size,
                Event.write_memory 0 size (sub64 n size), Event.update_bitstream_buffer n],
                Ctl.brk⟩
            else
              ⟨{ buf with consumed := true }, r3.1,
                [Event.get_bitstream_buffer, Event.write_memory offset 0 size,
                  Event.write_memory 0 size (sub64 n size), Event.update_bitstream_buffer n],
                Ctl.next⟩
      else
        let r1 := hw.write_memory s1 offset 0 n
        if r1.2 < 0 then
          ⟨buf, r1.1, [Event.get_bitstream_buffer, Event.write_memory offset 0 n], Ctl.brk⟩
        else
          let r3 := hw.update_bitstream_buffer r1.1 n
          if r3.2 ≠ 0 then
            ⟨buf, r3.1, [Event.get_bitstream_buffer, Event.write_memory offset 0 n,
              Event.update_bitstream_buffer n], Ctl.brk⟩
          else
            ⟨{ buf with consumed := true }, r3.1,
              [Event.get_bitstream_buffer, Event.write_memory offset 0 n,
                Event.update_bitstream_buffer n], Ctl.next⟩

/-- Outcome of the whole loop over the OUTPUT queue. -/
structure FeedResult (σ : Type) where
  queue : List SrcBuf
  hw : σ
  events : List Event
  ctl : Ctl

/-- The loop `v4l2_m2m_for_each_src_buf_safe` of `wave5_handle_bitstream_buffer`:
the buffers are visited front to back until one iteration breaks or returns. -/
def feed_loop (hw : Hw σ) (ring : VpuBuf) : σ → List SrcBuf → FeedResult σ
  | s, [] => ⟨[], s, [], Ctl.next⟩
  | s, b :: rest =>
    let r := feed_one hw ring s b
    match r.ctl with
    | Ctl.next =>
      let t := feed_loop hw ring r.hw rest
      ⟨r.buf :: t.queue, t.hw, r.events ++ t.events, t.ctl⟩
    | c => ⟨r.buf :: rest, r.hw, r.events, c⟩

/-- The function `wave5_handle_bitstream_buffer` (lines 89-178). -/
def wave5_handle_bitstream_buffer (hw : Hw σ) (w : World σ) : World σ :=
  let r := feed_loop hw w.inst.bitstream_vbuf w.hw w.inst.src_queue
  { w with inst := { w.inst with src_queue := r.queue }, hw := r.hw,
           trace := w.trace ++ r.events }

/-- Whether an event is a DMA write into the ring. -/
def Event.is_write : Event → Bool
  | Event.write_memory _ _ _ => true
  | _ => false

/-- Whether an event is an update-bitstream command. -/
def Event.is_update : Event → Bool
  | Event.update_bitstream_buffer _ => true
  | _ => false

/-- Total of the lengths of the DMA writes in a trace. -/
def written_bytes : List Event → Nat
  | [] => 0
  | Event.write_memory _ _ len :: es => len + written_bytes es
  | _ :: es => written_bytes es

/-- Whether every consumed buffer of an OUTPUT queue precedes every unconsumed
one, computed front to back. -/
def consumed_leading : List SrcBuf → Bool
  | [] => true
  | b :: rest => if b.consumed then consumed_leading rest else rest.all (fun x => !x.consumed)

/-- The consumed buffers of the OUTPUT queue form a prefix: the queue is a run
of consumed buffers followed by a run of unconsumed ones. -/
def ConsumedPrefix (q : List SrcBuf) : Prop :=
  ∃ done todo, q = done ++ todo ∧ (∀ b ∈ done, b.consumed = true) ∧
    (∀ b ∈ todo, b.consumed = false)

/-- Whether an event is one of the three hardware commands of the feeder: the
pointer query, a DMA write or the update-bitstream command. -/
def Event.is_feed_command : Event → Bool
  | Event.get_bitstream_buffer => true
  | Event.write_memory _ _ _ => true
  | Event.update_bitstream_buffer _ => true
  | _ => false

/-- Line 133 of `wave5_handle_bitstream_buffer`: the offset of the write pointer
in the ring. -/
def ring_offset (ring : VpuBuf) (wr_ptr : Nat) : Nat := sub64 wr_ptr ring.daddr

/-- Line 134 of `wave5_handle_bitstream_buffer`: whether a chunk of `n` bytes
written at `wr_ptr` passes the end of the ring. -/
def passes_ring_end (ring : VpuBuf) (wr_ptr n : Nat) : Bool :=
  decide (add64 wr_ptr n > add64 ring.daddr ring.size)

/-- Line 137 of `wave5_handle_bitstream_buffer`: the bytes from `wr_ptr` to the
end of the ring. -/
def bytes_to_ring_end (ring : VpuBuf) (wr_ptr : Nat) : Nat :=
  sub64 (add64 ring.daddr ring.size) wr_ptr

/-! ## Formats -/

/-- Modelled from the spec: the macro `v4l2_fourcc` of `videodev2.h` is not among
the sources; the four characters of a pixel format code, lowest byte first. -/
def v4l2_fourcc (a b c d : Char) : Nat :=
  a.toNat + b.toNat * 2 ^ 8 + c.toNat * 2 ^ 16 + d.toNat * 2 ^ 24

/-- Modelled from the spec: pixel format code of `videodev2.h`, planar YUV 4:2:0
in one plane. -/
def V4L2_PIX_FMT_YUV420 : Nat := v4l2_fourcc 'Y' 'U' '1' '2'

/-- Modelled from the spec: pixel format code of `videodev2.h`, Y/CbCr 4:2:0 in
one plane. -/
def V4L2_PIX_FMT_NV12 : Nat := v4l2_fourcc 'N' 'V' '1' '2'

/-- Modelled from the spec: pixel format code of `videodev2.h`, Y/CrCb 4:2:0 in
one plane. -/
def V4L2_PIX_FMT_NV21 : Nat := v4l2_fourcc 'N' 'V' '2' '1'

/-- Modelled from the spec: pixel format code of `videodev2.h`, planar YUV 4:2:0
in three planes. -/
def V4L2_PIX_FMT_YUV420M : Nat := v4l2_fourcc 'Y' 'M' '1' '2'

/-- Modelled from the spec: pixel format code of `videodev2.h`, Y/CbCr 4:2:0 in
two planes. -/
def V4L2_PIX_FMT_NV12M : Nat := v4l2_fourcc 'N' 'M' '1' '2'

/-- Modelled from the spec: pixel format code of `videodev2.h`, Y/CrCb 4:2:0 in
two planes. -/
def V4L2_PIX_FMT_NV21M : Nat := v4l2_fourcc 'N' 'M' '2' '1'

/-- Modelled from the spec: pixel format code of `videodev2.h`, the HEVC codec. -/
def V4L2_PIX_FMT_HEVC : Nat := v4l2_fourcc 'H' 'E' 'V' 'C'

/-- Modelled from the spec: pixel format code of `videodev2.h`, the H264 codec. -/
def V4L2_PIX_FMT_H264 : Nat := v4l2_fourcc 'H' '2' '6' '4'

/-- Modelled from the spec: value of `V4L2_BUF_TYPE_VIDEO_CAPTURE_MPLANE` in the
enum `v4l2_buf_type` of `videodev2.h`, the type of the CAPTURE queue. -/
def V4L2_BUF_TYPE_VIDEO_CAPTURE_MPLANE : Nat := 9

/-- Modelled from the spec: value of `V4L2_BUF_TYPE_VIDEO_OUTPUT_MPLANE` in the
enum `v4l2_buf_type` of `videodev2.h`, the type of the OUTPUT queue. -/
def V4L2_BUF_TYPE_VIDEO_OUTPUT_MPLANE : Nat := 10

/-- Modelled from the spec: value of `V4L2_FIELD_NONE` in the enum `v4l2_field`
of `videodev2.h`, the field-none mark. -/
def V4L2_FIELD_NONE : Nat := 1

/-- The struct `vpu_format`. -/
structure VpuFormat where
  v4l2_pix_fmt : Nat
  max_width : Nat
  min_width : Nat
  max_height : Nat
  min_height : Nat
  deriving DecidableEq, Repr

/-- The row `dec_fmt_list[VPU_FMT_TYPE_RAW]` (lines 31-74): the six initialised
entries followed by the zero-filled rest of the `MAX_FMTS` slots. -/
def dec_fmt_list_raw (K : Defs) : List VpuFormat :=
  [ ⟨V4L2_PIX_FMT_YUV420, 8192, 8, 4320, 8⟩,
    ⟨V4L2_PIX_FMT_NV12, 8192, 8, 4320, 8⟩,
    ⟨V4L2_PIX_FMT_NV21, 8192, 8, 4320, 8⟩,
    ⟨V4L2_PIX_FMT_YUV420M, 8192, 8, 4320, 8⟩,
    ⟨V4L2_PIX_FMT_NV12M, 8192, 8, 4320, 8⟩,
    ⟨V4L2_PIX_FMT_NV21M, 8192, 8, 4320, 8⟩ ] ++
  List.replicate (K.MAX_FMTS - 6) ⟨0, 0, 0, 0, 0⟩

/-- The row `dec_fmt_list[VPU_FMT_TYPE_CODEC]` (lines 15-30). -/
def dec_fmt_list_codec (K : Defs) : List VpuFormat :=
  [ ⟨V4L2_PIX_FMT_HEVC, 8192, 8, 4320, 8⟩,
    ⟨V4L2_PIX_FMT_H264, 8192, 32, 4320, 32⟩ ] ++
  List.replicate (K.MAX_FMTS - 2) ⟨0, 0, 0, 0, 0⟩

/-- Modelled from the spec: the helper `wave5_find_vpu_fmt` of `wave5-helper.c`
(called at lines 407, 452 and 587) is not among the sources; it looks a pixel
format up in a row of the table: the first entry of the row with the given
pixel format, `none` for NULL. -/
def wave5_find_vpu_fmt (v4l2_pix_fmt : Nat) (fmt_list : List VpuFormat) :
    Option VpuFormat :=
  fmt_list.find? (fun e => e.v4l2_pix_fmt = v4l2_pix_fmt)

/-- Modelled from the spec: the V4L2 core function `v4l2_format_info` (called at
lines 460 and 1309) is not among the sources; this is the field `mem_planes`
of its result for the raw formats of the table, the plane count of the
negotiated layout (1, 2 or 3); `none` is the NULL returned for a format the
V4L2 core does not describe (in particular format 0 of a zero-filled slot). -/
def v4l2_format_info_mem_planes (format : Nat) : Option Nat :=
  if format = V4L2_PIX_FMT_YUV420 then some 1
  else if format = V4L2_PIX_FMT_NV12 then some 1
  else if format = V4L2_PIX_FMT_NV21 then some 1
  else if format = V4L2_PIX_FMT_YUV420M then some 3
  else if format = V4L2_PIX_FMT_NV12M then some 2
  else if format = V4L2_PIX_FMT_NV21M then some 2
  else none

/-- Modelled from the spec: the kernel macro `round_up(x, y)` is not among the
sources; for an `unsigned int` x and a power of two y it is the next multiple
of y, in 32-bit arithmetic. -/
def round_up (x y : Nat) : Nat := ((x + (y - 1)) / y * y) % U32

/-- Modelled from the spec: the kernel macro `clamp(val, lo, hi)` is not among
the sources; the value brought into `[lo, hi]`. -/
def clamp (val lo hi : Nat) : Nat := min (max val lo) hi

/-- Assign `plane_fmt[i].bytesperline` and `plane_fmt[i].sizeimage`. -/
def set_plane (pf : Nat → PlaneFmt) (i : Nat) (bytesperline sizeimage : Nat) :
    Nat → PlaneFmt :=
  fun j => if j = i then ⟨sizeimage, bytesperline⟩ else pf j

/-- The function `wave5_update_pix_fmt` (lines 197-235). -/
def wave5_update_pix_fmt (pix_mp : PixFmt) (width height : Nat) : PixFmt :=
  if pix_mp.pixelformat = V4L2_PIX_FMT_YUV420 ∨ pix_mp.pixelformat = V4L2_PIX_FMT_NV12 ∨
      pix_mp.pixelformat = V4L2_PIX_FMT_NV21 then
    { pix_mp with
      width := round_up width 32, height := round_up height 8,
      plane_fmt := set_plane pix_mp.plane_fmt 0 (round_up width 32)
        (mul32 (mul32 width height) 3 / 2) }
  else if pix_mp.pixelformat = V4L2_PIX_FMT_YUV420M then
    { pix_mp with
      width := round_up width 32, height := round_up height 8,
      plane_fmt :=
        set_plane
          (set_plane
            (set_plane pix_mp.plane_fmt 0 (round_up width 32) (mul32 width height))
            1 (round_up width 32 / 2) (mul32 width height / 4))
          2 (round_up width 32 / 2) (mul32 width height / 4) }
  else if pix_mp.pixelformat = V4L2_PIX_FMT_NV12M ∨
      pix_mp.pixelformat = V4L2_PIX_FMT_NV21M then
    { pix_mp with
      width := round_up width 32, height := round_up height 8,
      plane_fmt :=
        set_plane
          (set_plane pix_mp.plane_fmt 0 (round_up width 32) (mul32 width height))
          1 (round_up width 32) (mul32 width height / 2) }
  else
    { pix_mp with
      width := width, height := height,
      plane_fmt := set_plane pix_mp.plane_fmt 0 0 (mul32 width height) }

/-- The six raw pixel formats of `dec_fmt_list[VPU_FMT_TYPE_RAW]`. -/
def supported_raw (pixelformat : Nat) : Prop :=
  pixelformat = V4L2_PIX_FMT_YUV420 ∨ pixelformat = V4L2_PIX_FMT_NV12 ∨
  pixelformat = V4L2_PIX_FMT_NV21 ∨ pixelformat = V4L2_PIX_FMT_YUV420M ∨
  pixelformat = V4L2_PIX_FMT_NV12M ∨ pixelformat = V4L2_PIX_FMT_NV21M

/-- The struct `v4l2_format` of a multi-planar request. -/
structure V4l2Format where
  type : Nat
  pix_mp : PixFmt

/-- The function `wave5_vpu_dec_try_fmt_cap` (lines 439-477): the return value
and the request as it is left; `none` when `info` is NULL at line 463.  Lines
470-471 write the two members of one union, so the second value stays. -/
def wave5_vpu_dec_try_fmt_cap (K : Defs) (inst : VpuInstance) (f : V4l2Format) :
    Option (Int × V4l2Format) :=
  if f.type ≠ V4L2_BUF_TYPE_VIDEO_CAPTURE_MPLANE then some (-EINVAL, f)
  else
    let adjusted : Option PixFmt :=
      match wave5_find_vpu_fmt f.pix_mp.pixelformat (dec_fmt_list_raw K) with
      | none =>
        some (wave5_update_pix_fmt
          { f.pix_mp with pixelformat := inst.dst_fmt.pixelformat,
                          num_planes := inst.dst_fmt.num_planes }
          inst.dst_fmt.width inst.dst_fmt.height)
      | some vpu_fmt =>
        let width := clamp f.pix_mp.width vpu_fmt.min_width vpu_fmt.max_width
        let height := clamp f.pix_mp.height vpu_fmt.min_height vpu_fmt.max_height
        match v4l2_format_info_mem_planes vpu_fmt.v4l2_pix_fmt with
        | none => none
        | some mem_planes =>
          some (wave5_update_pix_fmt
            { f.pix_mp with pixelformat := vpu_fmt.v4l2_pix_fmt, num_planes := mem_planes }
            width height)
    match adjusted with
    | none => none
    | some p =>
      some (0, { f with pix_mp :=
        { p with flags := 0, field := V4L2_FIELD_NONE, colorspace := inst.colorspace,
                 ycbcr_enc := inst.hsv_enc,
                 quantization := inst.quantization, xfer_func := inst.xfer_func } })

/-- Whether a scale factor pair fails the test of line 498. -/
def scale_out_of_range (scalew scaleh : Nat) : Bool :=
  decide (scalew > 8 ∨ scaleh > 8 ∨ scalew < 1 ∨ scaleh < 1)

/-- Lines 503-527 of `wave5_vpu_dec_s_fmt_cap`: the accepted request `f1` is
stored in `dst_fmt`, the chroma layout flags are derived from it and `dst_fmt`
is copied to `display_fmt`. -/
def s_fmt_cap_store (inst : VpuInstance) (f1 : V4l2Format) : VpuInstance :=
  let dst_fmt : PixFmt :=
    { inst.dst_fmt with
      width := f1.pix_mp.width, height := f1.pix_mp.height,
      pixelformat := f1.pix_mp.pixelformat, field := f1.pix_mp.field,
      flags := f1.pix_mp.flags, num_planes := f1.pix_mp.num_planes,
      plane_fmt := fun i =>
        if i < f1.pix_mp.num_planes then f1.pix_mp.plane_fmt i
        else inst.dst_fmt.plane_fmt i }
  let interleave : Bool × Bool :=
    if dst_fmt.pixelformat = V4L2_PIX_FMT_NV12 ∨
        dst_fmt.pixelformat = V4L2_PIX_FMT_NV12M then (true, false)
    else if dst_fmt.pixelformat = V4L2_PIX_FMT_NV21 ∨
        dst_fmt.pixelformat = V4L2_PIX_FMT_NV21M then (true, true)
    else (false, false)
  { inst with dst_fmt := dst_fmt, cbcr_interleave := interleave.1,
              nv21 := interleave.2, display_fmt := dst_fmt }

/-- The function `wave5_vpu_dec_s_fmt_cap` (lines 479-530): the return value,
the instance and the request as they are left; `none` when the NULL `info` is
dereferenced in `try_fmt_cap` or a division of lines 495-496 is by zero. -/
def wave5_vpu_dec_s_fmt_cap (K : Defs) (inst : VpuInstance) (f : V4l2Format) :
    Option (Int × VpuInstance × V4l2Format) :=
  match wave5_vpu_dec_try_fmt_cap K inst f with
  | none => none
  | some (ret, f1) =>
    if ret ≠ 0 then some (ret, inst, f1)
    else if f1.pix_mp.width = 0 ∨ f1.pix_mp.height = 0 then none
    else
      let scalew := inst.src_fmt.width / f1.pix_mp.width
      let scaleh := inst.src_fmt.height / f1.pix_mp.height
      if scale_out_of_range scalew scaleh then some (-EINVAL, inst, f1)
      else some (0, s_fmt_cap_store inst f1, f1)

/-! ## Decode job driver and completion dispatcher -/

/-- The function `wave5_handle_src_buffer` (lines 180-195). -/
def wave5_handle_src_buffer (w : World σ) : World σ :=
  match w.inst.src_queue with
  | [] => w
  | b :: rest =>
    if b.consumed then
      { w with inst := { w.inst with src_queue := rest, timestamp := b.timestamp },
               trace := w.trace ++ [Event.src_buf_done b Vb2State.DONE] }
    else w

/-- Lines 245-256 of `wave5_vpu_dec_start_decode`: in state `INIT_SEQ` the
frame buffers are registered; the return value is only logged. -/
def start_decode_register (hw : Hw σ) (w : World σ) : World σ :=
  if w.inst.state = VpuInstState.INIT_SEQ then
    let non_linear_num := w.inst.dst_buf_count
    let linear_num := w.inst.dst_buf_count
    let stride := w.inst.dst_fmt.width
    let r := hw.register_frame_buffer_ex w.hw non_linear_num linear_num stride
      w.inst.dst_fmt.height
    { w with hw := r.1,
             trace := w.trace ++ [Event.register_frame_buffer_ex non_linear_num
               linear_num stride w.inst.dst_fmt.height] }
  else w

/-- The test of line 259 on what `wave5_vpu_dec_start_one_frame` returned:
an error whose reason is not "queue full". -/
def start_failed (K : Defs) (r : Int × Nat) : Bool :=
  decide (r.1 ≠ 0 ∧ r.2 ≠ K.WAVE5_SYSERR_QUEUEING_FAIL)

/-- The function `wave5_vpu_dec_start_decode` (lines 237-266).  When the OUTPUT
queue is empty at line 262, `v4l2_m2m_buf_done` dereferences NULL. -/
def wave5_vpu_dec_start_decode (K : Defs) (hw : Hw σ) (w : World σ) : World σ :=
  let w1 := start_decode_register hw w
  let r := hw.start_one_frame w1.hw
  let w2 : World σ := { w1 with hw := r.1, trace := w1.trace ++ [Event.start_one_frame] }
  if start_failed K r.2 then
    match w2.inst.src_queue with
    | [] =>
      { w2 with inst := { w2.inst with state := VpuInstState.STOP }, status := Status.oops }
    | src_buf :: rest =>
      { w2 with inst := { w2.inst with src_queue := rest, state := VpuInstState.STOP },
                trace := w2.trace ++ [Event.src_buf_done src_buf Vb2State.ERROR] }
  else w2

/-- A loop `for (i = 0; i < n; i++) call(inst, i);` whose results are only logged. -/
def flag_loop (call : σ → Nat → σ × Int) (mk : Nat → Event) :
    List Nat → σ → σ × List Event
  | [], s => (s, [])
  | i :: rest, s =>
    let t := flag_loop call mk rest (call s i).1
    (t.1, mk i :: t.2)

/-- The function `wave5_vpu_dec_stop_decode` (lines 268-291). -/
def wave5_vpu_dec_stop_decode (hw : Hw σ) (w : World σ) : World σ :=
  let r := hw.update_bitstream_buffer w.hw 0
  let l := flag_loop hw.clr_disp_flag Event.clr_disp_flag (List.range w.inst.dst_buf_count) r.1
  { w with inst := { w.inst with state := VpuInstState.STOP }, hw := l.1,
           trace := w.trace ++ ([Event.update_bitstream_buffer 0] ++ l.2 ++
             [Event.job_finish]) }

/-- Modelled from the spec: the videobuf2 inline `vb2_plane_size` is not among
the sources; the full capacity of a plane, 0 for a plane the buffer does not
have. -/
def vb2_plane_size (buf : DstBuf) (plane_no : Nat) : Nat :=
  match buf.planes.get? plane_no with
  | some pl => pl.length
  | none => 0

/-- Modelled from the spec: the videobuf2 inline `vb2_set_plane_payload` is not
among the sources; it sets the payload size of a plane, nothing is written for
a plane the buffer does not have, and whether the size is clamped to the
length of the plane is the parameter `VB2_PAYLOAD_CLAMPED`. -/
def vb2_set_plane_payload (K : Defs) (buf : DstBuf) (plane_no size : Nat) : DstBuf :=
  match buf.planes.get? plane_no with
  | none => buf
  | some pl =>
    let bytesused :=
      if K.VB2_PAYLOAD_CLAMPED = true ∧ size > pl.length then pl.length else size
    { buf with planes := buf.planes.set plane_no ({ pl with bytesused := bytesused }) }

/-- Modelled from the spec: the mem2mem helper `v4l2_m2m_dst_buf_remove_by_idx`
is not among the sources; it removes the CAPTURE buffer by index: the first
queued buffer with the given index and the queue without it; `none` for NULL. -/
def v4l2_m2m_dst_buf_remove_by_idx : List DstBuf → Nat → Option DstBuf × List DstBuf
  | [], _ => (none, [])
  | b :: rest, idx =>
    if b.index = idx then (some b, rest)
    else
      let r := v4l2_m2m_dst_buf_remove_by_idx rest idx
      (r.1, b :: r.2)

/-- Lines 317-344 of `wave5_vpu_dec_finish_decode`: payloads, timestamp and
field of a displayed frame.  `stride` and `height` are `int`. -/
def fill_displayed (K : Defs) (inst : VpuInstance) (out : DecOutputInfo) (dst_buf : DstBuf) :
    DstBuf :=
  let stride : Int := toS32 out.stride
  let height0 : Int := toS32 (sub32 out.disp_pic_height out.rc_display_bottom)
  let height : Int :=
    if out.disp_pic_height ≠ inst.display_fmt.height then toS32 inst.display_fmt.height
    else height0
  let b1 : DstBuf :=
    if inst.dst_fmt.num_planes = 1 then
      vb2_set_plane_payload K dst_buf 0
        (intToU64 (Int.tdiv (toS32 (toS32 (stride * height) * 3)) 2))
    else if inst.dst_fmt.num_planes = 2 then
      vb2_set_plane_payload K
        (vb2_set_plane_payload K dst_buf 0 (intToU64 (toS32 (stride * height))))
        1 (intToU64 (toS32 (Int.tdiv stride 2 * height)))
    else if inst.dst_fmt.num_planes = 3 then
      vb2_set_plane_payload K
        (vb2_set_plane_payload K
          (vb2_set_plane_payload K dst_buf 0 (intToU64 (toS32 (stride * height))))
          1 (intToU64 (toS32 (Int.tdiv stride 2 * Int.tdiv height 2))))
        2 (intToU64 (toS32 (Int.tdiv stride 2 * Int.tdiv height 2)))
    else dst_buf
  { b1 with timestamp := inst.timestamp, field_none := true }

/-- Lines 360-379 of `wave5_vpu_dec_finish_decode`: payloads, timestamp, flags
and field of the buffer that carries the end of the stream. -/
def fill_last (K : Defs) (inst : VpuInstance) (dst_buf : DstBuf) : DstBuf :=
  let b1 : DstBuf :=
    if inst.dst_fmt.num_planes = 1 then
      vb2_set_plane_payload K dst_buf 0 (vb2_plane_size dst_buf 0)
    else if inst.dst_fmt.num_planes = 2 then
      vb2_set_plane_payload K
        (vb2_set_plane_payload K dst_buf 0 (vb2_plane_size dst_buf 0))
        1 (vb2_plane_size dst_buf 1)
    else if inst.dst_fmt.num_planes = 3 then
      vb2_set_plane_payload K
        (vb2_set_plane_payload K
          (vb2_set_plane_payload K dst_buf 0 (vb2_plane_size dst_buf 0))
          1 (vb2_plane_size dst_buf 1))
        2 (vb2_plane_size dst_buf 2)
    else dst_buf
  { b1 with timestamp := inst.timestamp, flag_last := true, field_none := true }

/-- Lines 299-300 of `wave5_vpu_dec_finish_decode`: one entry, if there is one,
is taken from the interrupt status fifo and acknowledged. -/
def finish_decode_ack (hw : Hw σ) (w : World σ) : World σ :=
  match w.inst.irq_status with
  | [] => w
  | irq_status :: rest =>
    { w with inst := { w.inst with irq_status := rest },
             hw := hw.clear_interrupt_ex w.hw irq_status,
             trace := w.trace ++ [Event.clear_interrupt_ex irq_status] }

/-- Whether the record reports neither a decoded nor a displayable frame
(lines 307-308). -/
def no_frame_reported (K : Defs) (out : DecOutputInfo) : Bool :=
  decide (out.index_frame_decoded = K.DECODED_IDX_FLAG_NO_FB ∧
    out.index_frame_display = K.DISPLAY_IDX_FLAG_NO_FB)

/-- Lines 313-387 of `wave5_vpu_dec_finish_decode`: a displayed frame completes
the CAPTURE buffer of that index; the end of the sequence, when `eos` is not
set, completes the front CAPTURE buffer as the last one.  When no queued
CAPTURE buffer has the displayed index, line 327 (or 343) dereferences NULL. -/
def finish_decode_deliver (K : Defs) (dec_output_info : DecOutputInfo) (w : World σ) :
    World σ :=
  if dec_output_info.index_frame_display ≥ 0 then
    match v4l2_m2m_dst_buf_remove_by_idx w.inst.dst_queue
        dec_output_info.index_frame_display.toNat with
    | (none, _) => { w with status := Status.oops }
    | (some dst_buf, rest) =>
      { w with inst := { w.inst with dst_queue := rest },
               trace := w.trace ++
                 [Event.dst_buf_done (fill_displayed K w.inst dec_output_info dst_buf)
                   Vb2State.DONE] }
  else if dec_output_info.index_frame_display = K.DISPLAY_IDX_FLAG_SEQ_END ∧
      w.inst.eos = false then
    match w.inst.dst_queue with
    | [] => w
    | dst_buf :: rest =>
      { w with inst := { w.inst with dst_queue := rest, eos := true },
               trace := w.trace ++
                 [Event.dst_buf_done (fill_last K w.inst dst_buf) Vb2State.DONE,
                  Event.event_queue_fh V4l2Event.EOS, Event.job_finish] }
  else w

/-- The function `wave5_vpu_dec_finish_decode` (lines 293-389). -/
def wave5_vpu_dec_finish_decode (K : Defs) (hw : Hw σ) (w : World σ) : World σ :=
  let w1 := finish_decode_ack hw w
  let r := hw.get_output_info w1.hw
  let w2 : World σ := { w1 with hw := r.1, trace := w1.trace ++ [Event.get_output_info] }
  let dec_output_info := r.2.2
  if r.2.1 ≠ 0 then w2.emit [Event.job_finish]
  else if no_frame_reported K dec_output_info then w2
  else finish_decode_deliver K dec_output_info (wave5_handle_src_buffer w2)

/-- The function `wave5_vpu_dec_device_run` (lines 1335-1342); `start_process`
is `wave5_vpu_dec_start_decode` (line 1330). -/
def wave5_vpu_dec_device_run (K : Defs) (hw : Hw σ) (w : World σ) : World σ :=
  (wave5_vpu_dec_start_decode K hw w).andThen fun w1 =>
    { w1 with inst := { w1.inst with state := VpuInstState.PIC_RUN } }

/-- The function `wave5_vpu_dec_job_abort` (lines 1344-1349); `stop_process` is
`wave5_vpu_dec_stop_decode` (line 1331). -/
def wave5_vpu_dec_job_abort (hw : Hw σ) (w : World σ) : World σ :=
  wave5_vpu_dec_stop_decode hw w

/-! ## Stream stop -/

/-- Outcome of one iteration of the drain loop. -/
structure DrainStep (σ : Type) where
  hw : σ
  events : List Event
  ctl : Ctl

/-- Body of the loop `while (check_cmd)` of `wave5_vpu_dec_stop_streaming`
(lines 1223-1240).  The counter `try_cnt` is declared, and set to 0, inside the
body (line 1225). -/
def drain_iter (hw : Hw σ) (s : σ) : DrainStep σ :=
  let try_cnt : Int := 0
  let q := hw.get_queue_status s
  if add32 q.2.instance_queue_count q.2.report_queue_count = 0 then
    ⟨q.1, [Event.give_command DecCmd.DEC_GET_QUEUE_STATUS], Ctl.brk⟩
  else
    let r := hw.wait_interrupt q.1 600
    if r.2 < 0 then
      let try_cnt := try_cnt + 1
      if try_cnt ≥ 100 then
        ⟨r.1, [Event.give_command DecCmd.DEC_GET_QUEUE_STATUS, Event.wait_interrupt 600],
          Ctl.brk⟩
      else
        ⟨r.1, [Event.give_command DecCmd.DEC_GET_QUEUE_STATUS, Event.wait_interrupt 600],
          Ctl.next⟩
    else
      let o := hw.get_output_info r.1
      ⟨o.1, [Event.give_command DecCmd.DEC_GET_QUEUE_STATUS, Event.wait_interrupt 600,
        Event.get_output_info], Ctl.next⟩

/-- Outcome of the drain loop observed for a number of iterations. -/
structure DrainResult (σ : Type) where
  hw : σ
  events : List Event
  /-- Whether the loop was left within the observed iterations. -/
  exited : Bool

/-- The loop `while (check_cmd)` of lines 1222-1241, observed for at most `fuel`
iterations (`check_cmd` is never written, so the loop only ends by `break`). -/
def drain_loop (hw : Hw σ) : Nat → σ → DrainResult σ
  | 0, s => ⟨s, [], false⟩
  | fuel + 1, s =>
    let r := drain_iter hw s
    match r.ctl with
    | Ctl.next =>
      let t := drain_loop hw fuel r.hw
      ⟨t.hw, r.events ++ t.events, t.exited⟩
    | _ => ⟨r.hw, r.events, true⟩

/-- Lines 1255-1265: every queued CAPTURE buffer is given zero payloads and an
error completion. -/
def return_dst_bufs (K : Defs) (num_planes : Nat) : List DstBuf → List Event
  | [] => []
  | buf :: rest =>
    Event.dst_buf_done
      ((List.range num_planes).foldl (fun b plane => vb2_set_plane_payload K b plane 0) buf)
      Vb2State.ERROR :: return_dst_bufs K num_planes rest

/-- The function `wave5_vpu_dec_stop_streaming` (lines 1214-1294), with the
drain loop observed for at most `fuel` iterations: when the loop has not been
left by then the execution is reported as still spinning. -/
def wave5_vpu_dec_stop_streaming (K : Defs) (hw : Hw σ) (fuel : Nat) (q : QueueType)
    (w : World σ) : World σ :=
  let d := drain_loop hw fuel w.hw
  let w1 : World σ := { w with hw := d.hw, trace := w.trace ++ d.events }
  if d.exited = false then { w1 with status := Status.hung }
  else
    match q with
    | QueueType.OUTPUT_MPLANE =>
      { w1 with inst := { w1.inst with src_queue := [], queued_src_buf_num := 0 },
                trace := w1.trace ++
                  w1.inst.src_queue.map (fun buf => Event.src_buf_done buf Vb2State.ERROR) }
    | QueueType.CAPTURE_MPLANE =>
      let l := flag_loop hw.set_disp_flag Event.set_disp_flag
        (List.range w1.inst.dst_buf_count) w1.hw
      let g := hw.get_bitstream_buffer l.1
      let w2 : World σ :=
        { w1 with inst := { w1.inst with dst_queue := [] }, hw := g.1,
                  trace := w1.trace ++
                    (return_dst_bufs K w1.inst.dst_fmt.num_planes w1.inst.dst_queue ++ l.2 ++
                      [Event.get_bitstream_buffer]) }
      if g.2.ret ≠ 0 then w2
      else
        let r := hw.set_rd_ptr w2.hw g.2.wr_ptr true
        let w3 : World σ :=
          { w2 with hw := r.1, trace := w2.trace ++ [Event.set_rd_ptr g.2.wr_ptr true] }
        if r.2 ≠ 0 then w3
        else
          let inst1 : VpuInstance :=
            if w3.inst.eos then
              { w3.inst with eos := false, state := VpuInstState.INIT_SEQ }
            else w3.inst
          { w3 with inst := { inst1 with queued_dst_buf_num := 0 } }

/-! ## Stream start and buffer queueing -/

/-- Lines 978-982 (1060-1064): buffer counts and cropping window from the
sequence information. -/
def seq_info_counts (initial_info : DecInitialInfo) (inst : VpuInstance) : VpuInstance :=
  { inst with
    min_dst_buf_count := add32 initial_info.min_frame_buffer_count 1,
    dst_buf_count := add32 initial_info.min_frame_buffer_count 1,
    conf_win_width := sub32 initial_info.pic_width initial_info.pic_crop_right,
    conf_win_height := sub32 initial_info.pic_height initial_info.pic_crop_bottom }

/-- Lines 989-995 (1071-1077): source and destination format follow a picture
size that differs from the source format. -/
def seq_info_formats (initial_info : DecInitialInfo) (inst : VpuInstance) : VpuInstance :=
  if initial_info.pic_width ≠ inst.src_fmt.width ∨
      initial_info.pic_height ≠ inst.src_fmt.height then
    { inst with
      src_fmt := wave5_update_pix_fmt inst.src_fmt initial_info.pic_width
        initial_info.pic_height,
      dst_fmt := wave5_update_pix_fmt inst.dst_fmt initial_info.pic_width
        initial_info.pic_height }
  else inst

/-- Lines 997-1003 (1079-1085), for a non-zero display size: the display format
is reset to the destination size when the scale is out of range. -/
def seq_info_display (inst : VpuInstance) : VpuInstance :=
  let scalew := inst.dst_fmt.width / inst.display_fmt.width
  let scaleh := inst.dst_fmt.height / inst.display_fmt.height
  if scale_out_of_range scalew scaleh then
    { inst with
      display_fmt :=
        wave5_update_pix_fmt inst.display_fmt inst.dst_fmt.width inst.dst_fmt.height }
  else inst

/-- Lines 984-987 (1066-1069): the control, when found, is set to the new
minimum. -/
def seq_info_ctrl_events (inst : VpuInstance) : List Event :=
  if inst.has_min_buffers_ctrl then [Event.ctrl_s_ctrl inst.min_dst_buf_count] else []

/-- Lines 978-1008 of `wave5_vpu_dec_start_streaming_open`, repeated as lines
1060-1089 of `wave5_vpu_dec_start_streaming_seek`: buffer counts, cropping
window and formats are derived from the sequence information, the source
change is announced and a consumed front OUTPUT buffer is retired.  A zero
display width or height makes lines 997-998 (1079-1080) divide by zero. -/
def apply_seq_info (initial_info : DecInitialInfo) (w : World σ) : World σ :=
  let inst1 := seq_info_counts initial_info w.inst
  let inst2 := seq_info_formats initial_info inst1
  if inst2.display_fmt.width = 0 ∨ inst2.display_fmt.height = 0 then
    { w with inst := inst2, trace := w.trace ++ seq_info_ctrl_events inst1,
             status := Status.oops }
  else
    wave5_handle_src_buffer
      { w with inst := seq_info_display inst2,
               trace := w.trace ++ (seq_info_ctrl_events inst1 ++
                 [Event.event_queue_fh V4l2Event.SOURCE_CHANGE]) }

/-- The function `wave5_vpu_dec_start_streaming_open` (lines 944-1012). -/
def wave5_vpu_dec_start_streaming_open (K : Defs) (hw : Hw σ) (w : World σ) :
    World σ × Int :=
  let i := hw.issue_seq_init w.hw
  let w1 : World σ := { w with hw := i.1, trace := w.trace ++ [Event.issue_seq_init] }
  if i.2 ≠ 0 then (w1, i.2)
  else
    let t := hw.wait_interrupt w1.hw K.VPU_DEC_TIMEOUT
    let c := hw.complete_seq_init t.1
    let w2 : World σ :=
      { w1 with hw := c.1,
                trace := w1.trace ++ [Event.wait_interrupt K.VPU_DEC_TIMEOUT,
                  Event.complete_seq_init] }
    if c.2.1 ≠ 0 then (w2, c.2.1)
    else
      (apply_seq_info c.2.2
        { w2 with inst := { w2.inst with state := VpuInstState.INIT_SEQ } }, c.2.1)

/-- The function `wave5_vpu_dec_start_streaming_seek` (lines 1014-1093). -/
def wave5_vpu_dec_start_streaming_seek (K : Defs) (hw : Hw σ) (w : World σ) :
    World σ × Int :=
  let r := hw.start_one_frame w.hw
  let w1 : World σ := { w with hw := r.1, trace := w.trace ++ [Event.start_one_frame] }
  if start_failed K r.2 then
    match w1.inst.src_queue with
    | [] =>
      ({ w1 with inst := { w1.inst with state := VpuInstState.STOP },
                 status := Status.oops }, r.2.1)
    | src_buf :: rest =>
      ({ w1 with inst := { w1.inst with src_queue := rest, state := VpuInstState.STOP },
                 trace := w1.trace ++ [Event.src_buf_done src_buf Vb2State.ERROR] }, r.2.1)
  else
    let t := hw.wait_interrupt w1.hw K.VPU_DEC_TIMEOUT
    let o := hw.get_output_info t.1
    let w2 : World σ :=
      { w1 with hw := o.1,
                trace := w1.trace ++ [Event.wait_interrupt K.VPU_DEC_TIMEOUT,
                  Event.get_output_info] }
    if o.2.1 ≠ 0 then (w2, o.2.1)
    else if o.2.2.sequence_changed then
      let g := hw.get_seq_info (hw.reset_framebuf_info w2.hw)
      (apply_seq_info g.2
        { w2 with hw := g.1,
                  trace := w2.trace ++ [Event.give_command DecCmd.DEC_RESET_FRAMEBUF_INFO,
                    Event.give_command DecCmd.DEC_GET_SEQ_INFO] }, o.2.1)
    else (w2, o.2.1)

/-- Lines 1195-1198 of `wave5_vpu_dec_start_streaming`: the sequence is
initialised from state `OPEN`, a frame is started from state `INIT_SEQ`. -/
def start_streaming_by_state (K : Defs) (hw : Hw σ) (w : World σ) : World σ × Int :=
  if w.inst.state = VpuInstState.OPEN then wave5_vpu_dec_start_streaming_open K hw w
  else if w.inst.state = VpuInstState.INIT_SEQ then wave5_vpu_dec_start_streaming_seek K hw w
  else (w, 0)

/-- Lines 1203-1207 of `wave5_vpu_dec_start_streaming`: every OUTPUT buffer
still queued is handed back in the `QUEUED` state. -/
def return_queued_src_bufs (w : World σ) : World σ :=
  { w with inst := { w.inst with src_queue := [] },
           trace := w.trace ++
             w.inst.src_queue.map (fun buf => Event.src_buf_done buf Vb2State.QUEUED) }

/-- The function `wave5_vpu_dec_start_streaming` (lines 1186-1212). -/
def wave5_vpu_dec_start_streaming (K : Defs) (hw : Hw σ) (q : QueueType) (w : World σ) :
    World σ × Int :=
  match q with
  | QueueType.CAPTURE_MPLANE => (w, 0)
  | QueueType.OUTPUT_MPLANE =>
    let r := start_streaming_by_state K hw (wave5_handle_bitstream_buffer hw w)
    if r.2 ≠ 0 then (r.1.andThen return_queued_src_bufs, r.2)
    else r

/-- The function `wave5_vpu_dec_buf_queue_src` (lines 1095-1108), preceded by
the `v4l2_m2m_buf_queue` of line 1178 that appends the buffer to the OUTPUT
ready queue. -/
def wave5_vpu_dec_buf_queue_src (K : Defs) (hw : Hw σ) (vb : SrcBuf) (w : World σ) :
    World σ :=
  let vbuf : SrcBuf := { vb with consumed := false, sequence := w.inst.queued_src_buf_num }
  let w1 : World σ :=
    { w with inst := { w.inst with
        src_queue := w.inst.src_queue ++ [vbuf],
        queued_src_buf_num := add32 w.inst.queued_src_buf_num 1 } }
  if w1.inst.state = VpuInstState.PIC_RUN then
    wave5_vpu_dec_start_decode K hw (wave5_handle_bitstream_buffer hw w1)
  else w1

/-- Modelled from the spec: the videobuf2 inline `vb2_dma_contig_plane_dma_addr`
is not among the sources; the DMA address of a plane of the client buffer,
`none` when the buffer has no such plane (the cookie is NULL and is
dereferenced). -/
def vb2_dma_contig_plane_dma_addr (buf : DstBuf) (plane_no : Nat) : Option Nat :=
  (buf.planes.get? plane_no).map (fun pl => pl.dma_addr)

/-- Lines 1125-1158 of `wave5_vpu_dec_buf_queue_dst`: the descriptor of the
linear frame buffer backed by the CAPTURE buffer `vb`. -/
def linear_frame_buffer (inst : VpuInstance) (vb : DstBuf) : Option FrameBuffer :=
  let fb_stride := inst.display_fmt.width
  let luma_size := mul32 fb_stride inst.display_fmt.height
  let chroma_size := mul32 (fb_stride / 2) (inst.display_fmt.height / 2)
  let mk (buf_size buf_addr_y buf_addr_cb buf_addr_cr : Nat) : FrameBuffer :=
    { buf_y := buf_addr_y, buf_cb := buf_addr_cb, buf_cr := buf_addr_cr, size := buf_size,
      width := inst.display_fmt.width, stride := fb_stride,
      map_type := MapType.LINEAR_FRAME_MAP, update_fb_info := true }
  if inst.display_fmt.num_planes = 1 then
    match vb2_dma_contig_plane_dma_addr vb 0 with
    | some y =>
      some (mk (vb2_plane_size vb 0 % U32) y (add64 y luma_size)
        (add64 (add64 y luma_size) chroma_size))
    | none => none
  else if inst.display_fmt.num_planes = 2 then
    match vb2_dma_contig_plane_dma_addr vb 0, vb2_dma_contig_plane_dma_addr vb 1 with
    | some y, some cb =>
      some (mk ((vb2_plane_size vb 0 + vb2_plane_size vb 1) % U32) y cb
        (add64 cb chroma_size))
    | _, _ => none
  else if inst.display_fmt.num_planes = 3 then
    match vb2_dma_contig_plane_dma_addr vb 0, vb2_dma_contig_plane_dma_addr vb 1,
        vb2_dma_contig_plane_dma_addr vb 2 with
    | some y, some cb, some cr =>
      some (mk ((vb2_plane_size vb 0 + vb2_plane_size vb 1 + vb2_plane_size vb 2) % U32)
        y cb cr)
    | _, _, _ => none
  else some (mk 0 0 0 0)

/-- The function `wave5_vpu_dec_buf_queue_dst` (lines 1110-1167), preceded by
the `v4l2_m2m_buf_queue` of line 1178 that appends the buffer to the CAPTURE
ready queue; `streaming` is the value of `vb2_is_streaming`. -/
def wave5_vpu_dec_buf_queue_dst (K : Defs) (hw : Hw σ) (streaming : Bool) (vb : DstBuf)
    (w : World σ) : World σ :=
  let vbuf : DstBuf := { vb with sequence := w.inst.queued_dst_buf_num }
  let c := hw.clr_disp_flag w.hw vb.index
  let w1 : World σ :=
    { w with
      inst := { w.inst with
        dst_queue := w.inst.dst_queue ++ [vbuf],
        queued_dst_buf_num := add32 w.inst.queued_dst_buf_num 1 },
      hw := c.1, trace := w.trace ++ [Event.clr_disp_flag vb.index] }
  let w2 : World σ :=
    if w1.inst.state = VpuInstState.INIT_SEQ then
      match linear_frame_buffer w1.inst vbuf with
      | none => { w1 with status := Status.oops }
      | some fb =>
        let non_linear_num := w1.inst.dst_buf_count
        { w1 with inst := { w1.inst with
            frame_buf := fun j =>
              if j = add32 vb.index non_linear_num then fb else w1.inst.frame_buf j } }
    else w1
  w2.andThen fun w3 =>
    if streaming = false then w3
    else if w3.inst.state = VpuInstState.STOP ∧ w3.inst.eos = false then
      wave5_vpu_dec_start_decode K hw w3
    else w3

/-- Modelled from the spec: value of `V4L2_DEC_CMD_START` of `videodev2.h`. -/
def V4L2_DEC_CMD_START : Nat := 0

/-- Modelled from the spec: value of `V4L2_DEC_CMD_STOP` of `videodev2.h`, the
decoder-stop command of the client. -/
def V4L2_DEC_CMD_STOP : Nat := 1

/-- The function `wave5_vpu_dec_decoder_cmd` (lines 700-732); `try_ret` is what
`v4l2_m2m_ioctl_try_decoder_cmd` returns and `both_streaming` what
`wave5_vpu_both_queues_are_streaming` returns. -/
def wave5_vpu_dec_decoder_cmd (hw : Hw σ) (try_ret : Int) (both_streaming : Bool)
    (cmd : Nat) (w : World σ) : World σ × Int :=
  if try_ret ≠ 0 then (w, try_ret)
  else if both_streaming = false then (w, 0)
  else if cmd = V4L2_DEC_CMD_STOP then
    let r := hw.update_bitstream_buffer w.hw 0
    let w1 : World σ :=
      { w with inst := { w.inst with state := VpuInstState.STOP }, hw := r.1,
               trace := w.trace ++ [Event.update_bitstream_buffer 0] }
    if r.2 ≠ 0 then (w1, r.2) else (w1, 0)
  else if cmd = V4L2_DEC_CMD_START then (w, 0)
  else (w, -EINVAL)

/-! ## OUTPUT format, controls and queue setup -/

/-- The function `wave5_vpu_dec_try_fmt_out` (lines 574-606). -/
def wave5_vpu_dec_try_fmt_out (K : Defs) (inst : VpuInstance) (f : V4l2Format) :
    Int × V4l2Format :=
  if f.type ≠ V4L2_BUF_TYPE_VIDEO_OUTPUT_MPLANE then (-EINVAL, f)
  else
    let p : PixFmt :=
      match wave5_find_vpu_fmt f.pix_mp.pixelformat (dec_fmt_list_codec K) with
      | none =>
        wave5_update_pix_fmt
          { f.pix_mp with pixelformat := inst.src_fmt.pixelformat,
                          num_planes := inst.src_fmt.num_planes }
          inst.src_fmt.width inst.src_fmt.height
      | some vpu_fmt =>
        let width := clamp f.pix_mp.width vpu_fmt.min_width vpu_fmt.max_width
        let height := clamp f.pix_mp.height vpu_fmt.min_height vpu_fmt.max_height
        wave5_update_pix_fmt
          { f.pix_mp with pixelformat := vpu_fmt.v4l2_pix_fmt, num_planes := 1 }
          width height
    (0, { f with pix_mp := { p with flags := 0, field := V4L2_FIELD_NONE } })

/-- The function `wave5_vpu_dec_s_fmt_out` (lines 608-642). -/
def wave5_vpu_dec_s_fmt_out (K : Defs) (inst : VpuInstance) (f : V4l2Format) :
    Int × VpuInstance × V4l2Format :=
  let r := wave5_vpu_dec_try_fmt_out K inst f
  let f1 := r.2
  if r.1 ≠ 0 then (r.1, inst, f1)
  else
    let src_fmt : PixFmt :=
      { inst.src_fmt with
        width := f1.pix_mp.width, height := f1.pix_mp.height,
        pixelformat := f1.pix_mp.pixelformat, field := f1.pix_mp.field,
        flags := f1.pix_mp.flags, num_planes := f1.pix_mp.num_planes,
        plane_fmt := fun i =>
          if i < f1.pix_mp.num_planes then f1.pix_mp.plane_fmt i
          else inst.src_fmt.plane_fmt i }
    (0, { inst with
          src_fmt := src_fmt, colorspace := f1.pix_mp.colorspace,
          ycbcr_enc := f1.pix_mp.ycbcr_enc, hsv_enc := f1.pix_mp.ycbcr_enc,
          quantization := f1.pix_mp.quantization, xfer_func := f1.pix_mp.xfer_func,
          dst_fmt := wave5_update_pix_fmt inst.dst_fmt f1.pix_mp.width f1.pix_mp.height },
     f1)

/-- Modelled from the spec: value of `V4L2_CID_MIN_BUFFERS_FOR_CAPTURE`
(`V4L2_CID_BASE + 39`) of `v4l2-controls.h`. -/
def V4L2_CID_MIN_BUFFERS_FOR_CAPTURE : Nat := 0x00980900 + 39

/-- The macro `V4L2_CID_VPU_THUMBNAIL_MODE` (line 12), with the value of
`V4L2_CID_USER_BASE` of `v4l2-controls.h`. -/
def V4L2_CID_VPU_THUMBNAIL_MODE : Nat := 0x00980900 + 0x1001

/-- The function `wave5_vpu_dec_s_ctrl` (lines 768-786). -/
def wave5_vpu_dec_s_ctrl (id : Nat) (val : Int) (inst : VpuInstance) : Int × VpuInstance :=
  if id = V4L2_CID_VPU_THUMBNAIL_MODE then
    (0, { inst with thumbnail_mode := decide (val ≠ 0) })
  else if id = V4L2_CID_MIN_BUFFERS_FOR_CAPTURE then (0, inst)
  else (-EINVAL, inst)

/-- The function `wave5_to_vpu_codstd` (lines 77-87). -/
def wave5_to_vpu_codstd (v4l2_pix_fmt : Nat) : WaveStd :=
  if v4l2_pix_fmt = V4L2_PIX_FMT_H264 then WaveStd.W_AVC_DEC
  else if v4l2_pix_fmt = V4L2_PIX_FMT_HEVC then WaveStd.W_HEVC_DEC
  else WaveStd.STD_UNKNOWN

/-- Modelled from the spec: the kernel macro `ALIGN(x, a)` is not among the
sources; for an `unsigned int` x and a power of two a it rounds x up to a
multiple of a, in 32-bit arithmetic. -/
def ALIGN (x a : Nat) : Nat := (x + (a - 1)) % U32 / a * a

/-- The in-out arguments `*num_buffers`, `*num_planes` and `sizes[]` of
`queue_setup`. -/
structure QueueSetupArgs where
  num_buffers : Nat
  num_planes : Nat
  sizes : Nat → Nat

/-- Lines 825-831: the caller's plane count or one of its sizes does not fit
the format. -/
def queue_setup_rejects (inst_format : PixFmt) (args : QueueSetupArgs) : Bool :=
  decide (inst_format.num_planes ≠ args.num_planes) ||
    (List.range args.num_planes).any
      (fun i => decide (args.sizes i < (inst_format.plane_fmt i).sizeimage))

/-- Lines 833-851: plane count and sizes from the format. -/
def queue_setup_sizes (q : QueueType) (inst_format : PixFmt) (args : QueueSetupArgs) :
    QueueSetupArgs :=
  let wh := mul32 inst_format.width inst_format.height
  if inst_format.num_planes = 1 then
    { args with
      num_planes := inst_format.num_planes,
      sizes := fun i =>
        if i = 0 then
          (if q = QueueType.OUTPUT_MPLANE then (inst_format.plane_fmt 0).sizeimage
           else mul32 wh 3 / 2)
        else args.sizes i }
  else if inst_format.num_planes = 2 then
    { args with
      num_planes := inst_format.num_planes,
      sizes := fun i => if i = 0 then wh else if i = 1 then wh / 2 else args.sizes i }
  else if inst_format.num_planes = 3 then
    { args with
      num_planes := inst_format.num_planes,
      sizes := fun i =>
        if i = 0 then wh else if i = 1 then wh / 4 else if i = 2 then wh / 4
        else args.sizes i }
  else { args with num_planes := inst_format.num_planes }

/-- The label `free_bitstream_vbuf` (lines 939-941). -/
def free_bitstream_vbuf (hw : Hw σ) (w : World σ) : World σ :=
  let f := hw.free_dma_memory w.hw w.inst.bitstream_vbuf
  { w with inst := { w.inst with bitstream_vbuf := f.2 }, hw := f.1,
           trace := w.trace ++ [Event.free_dma_memory w.inst.bitstream_vbuf] }

/-- Lines 855-888 of `wave5_vpu_dec_queue_setup`: the bitstream ring is
allocated and the decoder is opened. -/
def queue_setup_open (hw : Hw σ) (w : World σ) : World σ × Int :=
  let size := mul32 (ALIGN (w.inst.src_fmt.plane_fmt 0).sizeimage 1024) 4
  let a := hw.allocate_dma_memory w.hw { w.inst.bitstream_vbuf with size := size }
  let w1 : World σ :=
    { w with inst := { w.inst with bitstream_vbuf := a.2.2 }, hw := a.1,
             trace := w.trace ++ [Event.allocate_dma_memory size] }
  if a.2.1 ≠ 0 then (w1, a.2.1)
  else
    let std := wave5_to_vpu_codstd w1.inst.src_fmt.pixelformat
    let w2 : World σ := { w1 with inst := { w1.inst with std := std } }
    if std = WaveStd.STD_UNKNOWN then (free_bitstream_vbuf hw w2, -EINVAL)
    else
      let o := hw.dec_open w2.hw w2.inst.bitstream_vbuf.daddr w2.inst.bitstream_vbuf.size
      let w3 : World σ :=
        { w2 with hw := o.1,
                  trace := w2.trace ++ [Event.dec_open w2.inst.bitstream_vbuf.daddr
                    w2.inst.bitstream_vbuf.size] }
      if o.2 ≠ 0 then (free_bitstream_vbuf hw w3, o.2)
      else
        let w4 : World σ := { w3 with inst := { w3.inst with state := VpuInstState.OPEN } }
        if w4.inst.thumbnail_mode then
          ({ w4 with hw := hw.enable_thumbnail_mode w4.hw,
                     trace := w4.trace ++
                       [Event.give_command DecCmd.ENABLE_DEC_THUMBNAIL_MODE] }, 0)
        else (w4, 0)

/-- The loop of lines 903-931: one internal frame buffer per index, until an
allocation fails. -/
def alloc_frame_bufs (hw : Hw σ) : List Nat → World σ → World σ × Int
  | [], w => (w, 0)
  | i :: rest, w =>
    let fb_stride := w.inst.dst_fmt.width
    let fb_height := ALIGN w.inst.dst_fmt.height 32
    let luma_size := mul32 fb_stride fb_height
    let chroma_size := mul32 (ALIGN (fb_stride / 2) 16) fb_height
    let a := hw.allocate_dma_memory w.hw
      { w.inst.frame_vbuf i with size := add32 luma_size chroma_size }
    let vframe := a.2.2
    let w1 : World σ :=
      { w with
        inst := { w.inst with
          frame_vbuf := fun j => if j = i then vframe else w.inst.frame_vbuf j },
        hw := a.1,
        trace := w.trace ++ [Event.allocate_dma_memory (add32 luma_size chroma_size)] }
    if a.2.1 ≠ 0 then (w1, a.2.1)
    else
      let frame : FrameBuffer :=
        { buf_y := vframe.daddr, buf_cb := add64 vframe.daddr luma_size,
          buf_cr := U64 - 1, size := vframe.size, width := w1.inst.src_fmt.width,
          stride := fb_stride, map_type := MapType.COMPRESSED_FRAME_MAP,
          update_fb_info := true }
      alloc_frame_bufs hw rest
        { w1 with inst := { w1.inst with
            frame_buf := fun j => if j = i then frame else w1.inst.frame_buf j } }

/-- Lines 907-909 of `wave5_vpu_dec_queue_setup`: the luma size of an internal
frame buffer, `fb_stride * fb_height` in `u32`. -/
def fbc_luma_size (inst : VpuInstance) : Nat :=
  mul32 inst.dst_fmt.width (ALIGN inst.dst_fmt.height 32)

/-- Line 910 of `wave5_vpu_dec_queue_setup`: the chroma size of an internal
frame buffer, in `u32`. -/
def fbc_chroma_size (inst : VpuInstance) : Nat :=
  mul32 (ALIGN (inst.dst_fmt.width / 2) 16) (ALIGN inst.dst_fmt.height 32)

/-- Line 912 of `wave5_vpu_dec_queue_setup`: the size requested for an internal
frame buffer. -/
def fbc_buf_size (inst : VpuInstance) : Nat :=
  add32 (fbc_luma_size inst) (fbc_chroma_size inst)

/-- Lines 921-928 of `wave5_vpu_dec_queue_setup`: the descriptor of an internal
frame buffer whose region is `vframe`. -/
def fbc_frame (inst : VpuInstance) (vframe : VpuBuf) : FrameBuffer :=
  { buf_y := vframe.daddr, buf_cb := add64 vframe.daddr (fbc_luma_size inst),
    buf_cr := U64 - 1, size := vframe.size, width := inst.src_fmt.width,
    stride := inst.dst_fmt.width, map_type := MapType.COMPRESSED_FRAME_MAP,
    update_fb_info := true }

/-- Lines 904-928 of `wave5_vpu_dec_queue_setup`: one iteration of the loop of
`alloc_frame_bufs`, for the index `i`; the return value of the allocation with
the world as the iteration leaves it. -/
def alloc_frame_buf (hw : Hw σ) (i : Nat) (w : World σ) : World σ × Int :=
  let a := hw.allocate_dma_memory w.hw
    { w.inst.frame_vbuf i with size := fbc_buf_size w.inst }
  let w1 : World σ :=
    { w with
      inst := { w.inst with
        frame_vbuf := fun j => if j = i then a.2.2 else w.inst.frame_vbuf j },
      hw := a.1,
      trace := w.trace ++ [Event.allocate_dma_memory (fbc_buf_size w.inst)] }
  if a.2.1 ≠ 0 then (w1, a.2.1)
  else
    ({ w1 with inst := { w1.inst with
        frame_buf := fun j => if j = i then fbc_frame w.inst a.2.2 else w1.inst.frame_buf j } },
      a.2.1)

/-- Lines 896-900 of `wave5_vpu_dec_queue_setup`: the requested count is taken
when it is above the minimum and below `WAVE5_MAX_FBS`. -/
def negotiated_dst_buf_count (K : Defs) (inst : VpuInstance) (num_buffers : Nat) : Nat :=
  if num_buffers > inst.min_dst_buf_count ∧ num_buffers < K.WAVE5_MAX_FBS then num_buffers
  else inst.dst_buf_count

/-- Lines 854-937 of `wave5_vpu_dec_queue_setup`: what is done in the state the
instance is in; the world, the return value and `*num_buffers` as they are
left. -/
def queue_setup_by_state (K : Defs) (hw : Hw σ) (q : QueueType) (num_buffers : Nat)
    (w : World σ) : World σ × Int × Nat :=
  if w.inst.state = VpuInstState.NONE ∧ q = QueueType.OUTPUT_MPLANE then
    ((queue_setup_open hw w).1, (queue_setup_open hw w).2, num_buffers)
  else if w.inst.state = VpuInstState.INIT_SEQ ∧ q = QueueType.CAPTURE_MPLANE then
    let dst_buf_count := negotiated_dst_buf_count K w.inst num_buffers
    let r := alloc_frame_bufs hw (List.range dst_buf_count)
      { w with inst := { w.inst with dst_buf_count := dst_buf_count } }
    (r.1, r.2, dst_buf_count)
  else if w.inst.state = VpuInstState.STOP ∧ q = QueueType.CAPTURE_MPLANE then (w, 0, 0)
  else (w, 0, num_buffers)

/-- The function `wave5_vpu_dec_queue_setup` (lines 811-942): the world, the
return value and the in-out arguments as they are left. -/
def wave5_vpu_dec_queue_setup (K : Defs) (hw : Hw σ) (q : QueueType) (args : QueueSetupArgs)
    (w : World σ) : World σ × Int × QueueSetupArgs :=
  let inst_format : PixFmt :=
    if q = QueueType.OUTPUT_MPLANE then w.inst.src_fmt else w.inst.display_fmt
  if args.num_planes ≠ 0 ∧ queue_setup_rejects inst_format args = true then
    (w, -EINVAL, args)
  else
    let args1 : QueueSetupArgs :=
      if args.num_planes ≠ 0 then args else queue_setup_sizes q inst_format args
    let r := queue_setup_by_state K hw q args1.num_buffers w
    (r.1, r.2.1, { args1 with num_buffers := r.2.2 })

/-! ## The driver as a state machine -/

/-- One call into the driver, with what the caller supplies. -/
inductive Op where
  | s_fmt_cap (f : V4l2Format)
  | buf_queue_src (vb : SrcBuf)
  | buf_queue_dst (vb : DstBuf) (streaming : Bool)
  | start_streaming (q : QueueType)
  /-- The drain loop is observed for at most `fuel` iterations. -/
  | stop_streaming (q : QueueType) (fuel : Nat)
  | device_run
  | job_abort
  | finish_process
  | decoder_cmd (try_ret : Int) (both_streaming : Bool) (cmd : Nat)
  /-- Modelled from the spec: the interrupt handler is not among the sources; it
  puts a status word into the bounded fifo `irq_status`, which holds 16 entries
  (line 1414). -/
  | irq (status : Nat)
  | s_fmt_out (f : V4l2Format)
  | s_ctrl (id : Nat) (val : Int)
  | queue_setup (q : QueueType) (args : QueueSetupArgs)

/-- The entry point an operation goes through. -/
def Op.entry : Op → EntryPoint
  | Op.s_fmt_cap _ => EntryPoint.s_fmt_cap
  | Op.buf_queue_src _ => EntryPoint.buf_queue QueueType.OUTPUT_MPLANE
  | Op.buf_queue_dst _ _ => EntryPoint.buf_queue QueueType.CAPTURE_MPLANE
  | Op.start_streaming q => EntryPoint.start_streaming q
  | Op.stop_streaming q _ => EntryPoint.stop_streaming q
  | Op.device_run => EntryPoint.device_run
  | Op.job_abort => EntryPoint.job_abort
  | Op.finish_process => EntryPoint.finish_process
  | Op.decoder_cmd _ _ _ => EntryPoint.decoder_cmd
  | Op.irq _ => EntryPoint.irq
  | Op.s_fmt_out _ => EntryPoint.s_fmt_out
  | Op.s_ctrl _ _ => EntryPoint.s_ctrl
  | Op.queue_setup q _ => EntryPoint.queue_setup q

/-- The body of an operation. -/
def dispatch (K : Defs) (hw : Hw σ) (op : Op) (w : World σ) : World σ :=
  match op with
  | Op.s_fmt_cap f =>
    match wave5_vpu_dec_s_fmt_cap K w.inst f with
    | none => { w with status := Status.oops }
    | some r => { w with inst := r.2.1 }
  | Op.buf_queue_src vb => wave5_vpu_dec_buf_queue_src K hw vb w
  | Op.buf_queue_dst vb streaming => wave5_vpu_dec_buf_queue_dst K hw streaming vb w
  | Op.start_streaming q => (wave5_vpu_dec_start_streaming K hw q w).1
  | Op.stop_streaming q fuel => wave5_vpu_dec_stop_streaming K hw fuel q w
  | Op.device_run => wave5_vpu_dec_device_run K hw w
  | Op.job_abort => wave5_vpu_dec_job_abort hw w
  | Op.finish_process => wave5_vpu_dec_finish_decode K hw w
  | Op.decoder_cmd try_ret both_streaming cmd =>
    (wave5_vpu_dec_decoder_cmd hw try_ret both_streaming cmd w).1
  | Op.irq status =>
    if w.inst.irq_status.length < 16 then
      { w with inst := { w.inst with irq_status := w.inst.irq_status ++ [status] } }
    else w
  | Op.s_fmt_out f => { w with inst := (wave5_vpu_dec_s_fmt_out K w.inst f).2.1 }
  | Op.s_ctrl id val => { w with inst := (wave5_vpu_dec_s_ctrl id val w.inst).2 }
  | Op.queue_setup q args => (wave5_vpu_dec_queue_setup K hw q args w).1

/-- One operation: the call is logged and the body runs, unless the execution
has already stopped. -/
def step (K : Defs) (hw : Hw σ) (op : Op) (w : World σ) : World σ :=
  w.andThen fun w1 => dispatch K hw op (w1.emit [Event.enter op.entry])

/-- A sequence of operations, first to last. -/
def run (K : Defs) (hw : Hw σ) (ops : List Op) (w : World σ) : World σ :=
  ops.foldl (fun w1 op => step K hw op w1) w

/-- The source-change event that announces a new sequence. -/
def source_change_event : Event := Event.event_queue_fh V4l2Event.SOURCE_CHANGE

/-- Whether an operation is a `queue_setup` call on the CAPTURE queue. -/
def Op.is_capture_queue_setup : Op → Bool
  | Op.queue_setup QueueType.CAPTURE_MPLANE _ => true
  | _ => false

/-- The world `w1` is reached from `w` with `dst_buf_count` as it was, or with
the execution stopped by a fault, or with a source-change event queued on the
way. -/
def PoolStep (w w1 : World σ) : Prop :=
  w1.inst.dst_buf_count = w.inst.dst_buf_count ∨ w1.status = Status.oops ∨
    ∃ es, w1.trace = w.trace ++ es ∧ source_change_event ∈ es

/-- The end-of-stream event. -/
def eos_event : Event := Event.event_queue_fh V4l2Event.EOS

/-- The call of `stop_streaming` on the CAPTURE queue. -/
def restart_event : Event :=
  Event.enter (EntryPoint.stop_streaming QueueType.CAPTURE_MPLANE)

/-- Events that are neither the end-of-stream event nor a CAPTURE stream stop. -/
def Quiet (es : List Event) : Prop :=
  ∀ e ∈ es, e ≠ eos_event ∧ e ≠ restart_event

/-- The world `w1` is reached from `w` without touching the `eos` flag and
with only quiet events. -/
def Neutral (w w1 : World σ) : Prop :=
  w1.inst.eos = w.inst.eos ∧ ∃ es, w1.trace = w.trace ++ es ∧ Quiet es

/-- Scan of a trace for end-of-stream events: `pending` tells whether one has
been seen since the last CAPTURE stream stop; `none` when a second one is
seen while the first is pending. -/
def scan_eos : Bool → List Event → Option Bool
  | pending, [] => some pending
  | pending, e :: es =>
    if e = eos_event then (if pending then none else scan_eos true es)
    else if e = restart_event then scan_eos false es
    else scan_eos pending es

/-- The `eos` flag covers the trace: no end-of-stream event was queued while an
earlier one was pending, and while one is pending the flag is set. -/
def EosInv (w : World σ) : Prop :=
  ∃ pending, scan_eos false w.trace = some pending ∧ (pending = true → w.inst.eos = true)

/-- The function `wave5_set_default_format` (lines 1305-1322), applied to the
zero-filled formats of a new instance: the source and the destination format. -/
def wave5_set_default_format (K : Defs) (src_fmt dst_fmt : PixFmt) :
    Option (PixFmt × PixFmt) :=
  match (dec_fmt_list_raw K).head?, (dec_fmt_list_codec K).head? with
  | some raw0, some codec0 =>
    match v4l2_format_info_mem_planes raw0.v4l2_pix_fmt with
    | none => none
    | some mem_planes =>
      some
        (wave5_update_pix_fmt
          { src_fmt with pixelformat := codec0.v4l2_pix_fmt, field := V4L2_FIELD_NONE,
                         flags := 0, num_planes := 1 } 720 480,
         wave5_update_pix_fmt
          { dst_fmt with pixelformat := raw0.v4l2_pix_fmt, field := V4L2_FIELD_NONE,
                         flags := 0, num_planes := mem_planes } 736 480)
  | _, _ => none

/-! ## Concrete inputs used to exercise the theorems -/

/-- Sample values of the header constants, for concrete evaluations. -/
def Defs.sample : Defs :=
  { MAX_FMTS := 12, WAVE5_SYSERR_QUEUEING_FAIL := 1, DECODED_IDX_FLAG_NO_FB := -1,
    DISPLAY_IDX_FLAG_NO_FB := -3, DISPLAY_IDX_FLAG_SEQ_END := -1, WAVE5_MAX_FBS := 32,
    VPU_DEC_TIMEOUT := 60000, VB2_PAYLOAD_CLAMPED := true }

/-- A pixel format with every field zero. -/
def PixFmt.zeroed : PixFmt :=
  { width := 0, height := 0, pixelformat := 0, field := 0, flags := 0, num_planes := 0,
    colorspace := 0, ycbcr_enc := 0, quantization := 0, xfer_func := 0,
    plane_fmt := fun _ => ⟨0, 0⟩ }

/-- An instance as `kzalloc` leaves it in `wave5_vpu_open_dec`: every field zero
(state `VPU_INST_STATE_NONE`), empty queues. -/
def VpuInstance.zeroed : VpuInstance :=
  { state := VpuInstState.NONE, std := WaveStd.W_HEVC_DEC, src_fmt := PixFmt.zeroed, dst_fmt := PixFmt.zeroed,
    display_fmt := PixFmt.zeroed, colorspace := 0, ycbcr_enc := 0, hsv_enc := 0,
    quantization := 0, xfer_func := 0, cbcr_interleave := false, nv21 := false,
    eos := false, timestamp := 0, min_dst_buf_count := 0, dst_buf_count := 0,
    queued_src_buf_num := 0, queued_dst_buf_num := 0, conf_win_width := 0,
    conf_win_height := 0, thumbnail_mode := false, bitstream_vbuf := ⟨0, 0⟩,
    frame_buf := fun _ => ⟨0, 0, 0, 0, 0, 0, MapType.LINEAR_FRAME_MAP, false⟩,
    frame_vbuf := fun _ => ⟨0, 0⟩,
    irq_status := [], has_min_buffers_ctrl := true, src_queue := [], dst_queue := [] }

/-- The formats of an instance as `wave5_vpu_open_dec` sets them (lines
1405-1406): HEVC 720x480 as source, YUV420 736x480 as destination and display. -/
def VpuInstance.opened : VpuInstance :=
  match wave5_set_default_format Defs.sample PixFmt.zeroed PixFmt.zeroed with
  | some (src_fmt, dst_fmt) =>
    { VpuInstance.zeroed with src_fmt := src_fmt, dst_fmt := dst_fmt, display_fmt := dst_fmt,
                              colorspace := 3 }
  | none => VpuInstance.zeroed

/-- A CAPTURE format request of the given pixel format and size. -/
def V4l2Format.capture (pixelformat width height : Nat) : V4l2Format :=
  { type := V4L2_BUF_TYPE_VIDEO_CAPTURE_MPLANE,
    pix_mp := { PixFmt.zeroed with pixelformat := pixelformat, width := width,
                                   height := height } }

/-- The answers of a hardware model that always answers the same. -/
structure Replies where
  bs : BsInfo := ⟨0, 0, 0, 0⟩
  write_ret : Int := 0
  update_ret : Int := 0
  register_ret : Int := 0
  start_ret : Int := 0
  start_fail_res : Nat := 0
  disp_flag_ret : Int := 0
  output_ret : Int := 0
  output : DecOutputInfo := ⟨0, 0, 0, 0, 0, false, 0⟩
  queue_status : QueueStatus := ⟨0, 0⟩
  wait_ret : Int := 0
  seq_init_ret : Int := 0
  initial_info : DecInitialInfo := ⟨0, 0, 0, 0, 0, 0⟩
  set_rd_ptr_ret : Int := 0
  alloc_ret : Int := 0
  alloc_daddr : Nat := 0
  open_ret : Int := 0

/-- A hardware model without state that gives the same answers every time. -/
def Hw.fixed (r : Replies) : Hw Unit :=
  { get_bitstream_buffer := fun _ => ((), r.bs),
    write_memory := fun _ _ _ _ => ((), r.write_ret),
    update_bitstream_buffer := fun _ _ => ((), r.update_ret),
    register_frame_buffer_ex := fun _ _ _ _ _ => ((), r.register_ret),
    start_one_frame := fun _ => ((), r.start_ret, r.start_fail_res),
    clr_disp_flag := fun _ _ => ((), r.disp_flag_ret),
    set_disp_flag := fun _ _ => ((), r.disp_flag_ret),
    clear_interrupt_ex := fun _ _ => (),
    get_output_info := fun _ => ((), r.output_ret, r.output),
    get_queue_status := fun _ => ((), r.queue_status),
    reset_framebuf_info := fun _ => (),
    get_seq_info := fun _ => ((), r.initial_info),
    wait_interrupt := fun _ _ => ((), r.wait_ret),
    issue_seq_init := fun _ => ((), r.seq_init_ret),
    complete_seq_init := fun _ => ((), r.seq_init_ret, r.initial_info),
    set_rd_ptr := fun _ _ _ => ((), r.set_rd_ptr_ret),
    allocate_dma_memory := fun _ vb => ((), r.alloc_ret, { vb with daddr := r.alloc_daddr }),
    free_dma_memory := fun _ _ => ((), ⟨0, 0⟩),
    dec_open := fun _ _ _ => ((), r.open_ret),
    enable_thumbnail_mode := fun _ => () }

/-- Hardware with five jobs outstanding for ever and no interrupt arriving:
the queue status always reports `instance_queue_count = 5` and every wait for
an interrupt returns `-ETIMEDOUT`. -/
def Hw.stuck : Hw Unit :=
  Hw.fixed { queue_status := ⟨5, 0⟩, wait_ret := -110 }

/-- A world around the given instance, nothing done yet. -/
def World.start (inst : VpuInstance) : World Unit :=
  { inst := inst, hw := (), trace := [], status := Status.running }

/-- A CAPTURE buffer with one plane of 518400 bytes, nothing written yet. -/
def DstBuf.fresh (index : Nat) : DstBuf :=
  { index := index, planes := [⟨518400, 0, 4096 * index⟩], timestamp := 0,
    flag_last := false, field_none := false, sequence := 0 }

/-- Hardware that reports the end of the sequence at every completion. -/
def Hw.at_end : Hw Unit :=
  Hw.fixed { output := ⟨-1, -1, 0, 0, 0, false, 0⟩ }

/-- A run with a restart: a CAPTURE buffer is queued, a completion is
dispatched, the CAPTURE queue is stopped, another buffer is queued and
another completion is dispatched. -/
def restart_run_ops : List Op :=
  [Op.buf_queue_dst (DstBuf.fresh 0) false, Op.finish_process,
    Op.stop_streaming QueueType.CAPTURE_MPLANE 1,
    Op.buf_queue_dst (DstBuf.fresh 1) false, Op.finish_process]

/-- The trace of `restart_run_ops` against `Hw.at_end`, up to its first
end-of-stream event. -/
def restart_run_head : List Event :=
  [Event.enter (EntryPoint.buf_queue QueueType.CAPTURE_MPLANE), Event.clr_disp_flag 0,
    Event.enter EntryPoint.finish_process, Event.get_output_info,
    Event.dst_buf_done
      { DstBuf.fresh 0 with planes := [⟨518400, 518400, 0⟩], flag_last := true,
                            field_none := true } Vb2State.DONE]

/-- The trace of `restart_run_ops` against `Hw.at_end`, between its two
end-of-stream events. -/
def restart_run_between : List Event :=
  [Event.job_finish, Event.enter (EntryPoint.stop_streaming QueueType.CAPTURE_MPLANE),
    Event.give_command DecCmd.DEC_GET_QUEUE_STATUS, Event.get_bitstream_buffer,
    Event.set_rd_ptr 0 true, Event.enter (EntryPoint.buf_queue QueueType.CAPTURE_MPLANE),
    Event.clr_disp_flag 1, Event.enter EntryPoint.finish_process, Event.get_output_info,
    Event.dst_buf_done
      { DstBuf.fresh 1 with planes := [⟨518400, 518400, 4096⟩], flag_last := true,
                            field_none := true } Vb2State.DONE]

/-- An unconsumed OUTPUT buffer with a mapped plane. -/
def SrcBuf.fresh (index payload plane_size timestamp : Nat) : SrcBuf :=
  { index := index, payload := payload, plane_size := plane_size, vaddr := true,
    consumed := false, timestamp := timestamp, sequence := index }

/-- Hardware whose ring has its write pointer at 100 and 1000 bytes free, and
whose DMA writes fail with `-EIO`. -/
def Hw.write_fails : Hw Unit :=
  Hw.fixed { bs := ⟨0, 0, 100, 1000⟩, write_ret := -5 }

/-- Hardware whose ring has its write pointer at 100 and reports 10 bytes free;
every command succeeds. -/
def Hw.nearly_full : Hw Unit :=
  Hw.fixed { bs := ⟨0, 0, 100, 10⟩ }

/-- An instance with a ring of 4096 bytes at address 0, a consumed OUTPUT buffer
at the front of the queue, then the buffer `buf`, then one more buffer. -/
def World.feeding (buf : SrcBuf) : World Unit :=
  World.start { VpuInstance.zeroed with
    bitstream_vbuf := ⟨0, 4096⟩,
    src_queue := [{ SrcBuf.fresh 0 5 100 6 with consumed := true }, buf,
      SrcBuf.fresh 2 3 100 8] }

/-- Hardware that reports a decoded frame (index 5) and nothing to display. -/
def Hw.decoded_only : Hw Unit :=
  Hw.fixed { output := ⟨5, -3, 0, 0, 0, false, 0⟩ }

/-- An instance in `PIC_RUN` with a consumed OUTPUT buffer at the front of the
OUTPUT queue and one CAPTURE buffer queued. -/
def World.decoding : World Unit :=
  World.start { VpuInstance.opened with
    state := VpuInstState.PIC_RUN,
    src_queue := [{ SrcBuf.fresh 0 100 4096 42 with consumed := true },
      SrcBuf.fresh 1 80 4096 43],
    dst_queue := [DstBuf.fresh 0] }

/-- A CAPTURE buffer of a two-plane 736x480 format: a luma plane of 353280
bytes and a chroma plane of 176640 bytes. -/
def DstBuf.two_planes (index : Nat) : DstBuf :=
  { index := index, planes := [⟨353280, 0, 8192 * index⟩, ⟨176640, 0, 8192 * index + 4096⟩],
    timestamp := 0, flag_last := false, field_none := false, sequence := 0 }

/-- Hardware that reports frame 1 as decoded and displayable, with stride 736
and picture height 480. -/
def Hw.displays : Hw Unit :=
  Hw.fixed { output := ⟨1, 1, 736, 480, 0, false, 0⟩ }

/-- An instance in `PIC_RUN` with a two-plane 736x480 CAPTURE format and the
two-plane CAPTURE buffers 0 and 1 queued. -/
def World.displaying : World Unit :=
  World.start { VpuInstance.opened with
    state := VpuInstState.PIC_RUN,
    dst_fmt := { VpuInstance.opened.dst_fmt with num_planes := 2 },
    timestamp := 77,
    dst_queue := [DstBuf.two_planes 0, DstBuf.two_planes 1] }

/-- An instance after sequence initialisation: state `INIT_SEQ`, the hardware
needs at least 6 frame buffers and `dst_buf_count` has that value. -/
def VpuInstance.sequenced : VpuInstance :=
  { VpuInstance.opened with state := VpuInstState.INIT_SEQ, min_dst_buf_count := 6,
                            dst_buf_count := 6 }

/-- Hardware whose commands all succeed and whose allocations are placed at
address 65536. -/
def Hw.allocating : Hw Unit :=
  Hw.fixed { alloc_daddr := 65536 }

/-- Hardware whose allocations fail with `-ENOMEM`. -/
def Hw.out_of_memory : Hw Unit :=
  Hw.fixed { alloc_ret := -12 }

/-- Hardware whose open command fails with `-EIO`; allocations are placed at
address 65536. -/
def Hw.open_fails : Hw Unit :=
  Hw.fixed { alloc_daddr := 65536, open_ret := -5 }

/-- The arguments of a `VIDIOC_REQBUFS` for `n` buffers: `*num_planes` is 0. -/
def QueueSetupArgs.request (n : Nat) : QueueSetupArgs :=
  { num_buffers := n, num_planes := 0, sizes := fun _ => 0 }

/-- Two buffer requests on the CAPTURE queue, for 8 and then for 10 buffers,
with a CAPTURE buffer queued in between and a decode job run after them. -/
def renegotiating_ops : List Op :=
  [Op.queue_setup QueueType.CAPTURE_MPLANE (QueueSetupArgs.request 8),
    Op.buf_queue_dst (DstBuf.fresh 0) false,
    Op.queue_setup QueueType.CAPTURE_MPLANE (QueueSetupArgs.request 10),
    Op.device_run]

/-- A run without a buffer request on the CAPTURE queue: a CAPTURE buffer is
queued, a decode job is run and its completion dispatched. -/
def decoding_ops : List Op :=
  [Op.buf_queue_dst (DstBuf.fresh 0) false, Op.device_run, Op.finish_process]

/-- An instance whose decoder has been opened: state `OPEN`, default formats. -/
def VpuInstance.ready : VpuInstance :=
  { VpuInstance.opened with state := VpuInstState.OPEN }

/-- Hardware that finds a 1920x1088 sequence cropped by 8 lines at the bottom
and needing 5 frame buffers; every command succeeds. -/
def Hw.sequence_found : Hw Unit :=
  Hw.fixed { initial_info := ⟨1920, 1088, 5, 0, 8, 0⟩ }

/-- Hardware whose output info carries the sequence-changed flag, the new
sequence being 1920x1088 cropped by 8 lines and needing 9 frame buffers. -/
def Hw.sequence_changes : Hw Unit :=
  Hw.fixed { output := ⟨0, 0, 0, 0, 0, true, 0⟩, initial_info := ⟨1920, 1088, 9, 0, 8, 0⟩ }

/-- Hardware whose sequence-init issue command fails with `-EIO`. -/
def Hw.seq_init_fails : Hw Unit :=
  Hw.fixed { seq_init_ret := -5 }

/-- An opened instance with one OUTPUT buffer of 100 bytes queued. -/
def World.ready_with_input : World Unit :=
  World.start { VpuInstance.ready with src_queue := [SrcBuf.fresh 0 100 4096 42] }

/-- Hardware with nothing outstanding whose ring has its write pointer at 4660;
every command succeeds. -/
def Hw.idle : Hw Unit :=
  Hw.fixed { bs := ⟨0, 256, 4660, 100⟩ }

/-- An instance stopped at the end of the stream: state `STOP` with `eos` set. -/
def VpuInstance.ended : VpuInstance :=
  { VpuInstance.sequenced with state := VpuInstState.STOP, eos := true }

/-- Hardware that reports the write pointer at 400, the end of a ring of 400
bytes at address 0, with 100 bytes free; every command succeeds. -/
def Hw.at_ring_end : Hw Unit :=
  Hw.fixed { bs := ⟨0, 0, 400, 100⟩ }

/-- Hardware that reports the write pointer at 390 in a ring of 400 bytes at
address 0, with 100 bytes free; every command succeeds. -/
def Hw.near_ring_end : Hw Unit :=
  Hw.fixed { bs := ⟨0, 0, 390, 100⟩ }

/-- An instance in `PIC_RUN` whose CAPTURE and display formats are both the
two-plane 736x480 format, with the two-plane CAPTURE buffers 0 and 1 queued. -/
def World.displaying_two_planes : World Unit :=
  World.start { VpuInstance.opened with
    state := VpuInstState.PIC_RUN,
    dst_fmt := { VpuInstance.opened.dst_fmt with num_planes := 2 },
    display_fmt := { VpuInstance.opened.display_fmt with num_planes := 2 },
    timestamp := 77,
    dst_queue := [DstBuf.two_planes 0, DstBuf.two_planes 1] }

/-- An instance in `PIC_RUN` with the OUTPUT queue drained and no CAPTURE buffer
queued. -/
def World.starved : World Unit :=
  World.start { VpuInstance.opened with state := VpuInstState.PIC_RUN }

/-! ## Theorems: bitstream ring feeder -/

theorem feed_loop_append (hw : Hw σ) (ring : VpuBuf) (pre rest : List SrcBuf) (s : σ) :
    feed_loop hw ring s (pre ++ rest) =
      match (feed_loop hw ring s pre).ctl with
      | Ctl.next =>
        ⟨(feed_loop hw ring s pre).queue ++
            (feed_loop hw ring (feed_loop hw ring s pre).hw rest).queue,
          (feed_loop hw ring (feed_loop hw ring s pre).hw rest).hw,
          (feed_loop hw ring s pre).events ++
            (feed_loop hw ring (feed_loop hw ring s pre).hw rest).events,
          (feed_loop hw ring (feed_loop hw ring s pre).hw rest).ctl⟩
      | c => ⟨(feed_loop hw ring s pre).queue ++ rest, (feed_loop hw ring s pre).hw,
          (feed_loop hw ring s pre).events, c⟩ := by
  induction pre generalizing s with
  | nil => simp [feed_loop]
  | cons b pre ih =>
    simp only [List.cons_append, feed_loop]
    cases h : (feed_one hw ring s b).ctl with
    | next =>
      have h3 := ih (feed_one hw ring s b).hw
      cases h2 : (feed_loop hw ring (feed_one hw ring s b).hw pre).ctl <;>
        simp [h2] at h3 <;> simp [h3]
    | brk => simp
    | ret => simp

/-- A buffer that is not consumed and does not fit the reported remaining size
is left as it is; the iteration issues at most the query and ends the loop. -/
theorem feed_one_deferred (hw : Hw σ) (ring : VpuBuf) (s : σ) (buf : SrcBuf)
    (hcons : buf.consumed = false)
    (hfull : (hw.get_bitstream_buffer s).2.remain_size < src_size buf) :
    (feed_one hw ring s buf).buf = buf ∧
    (feed_one hw ring s buf).ctl ≠ Ctl.next ∧
    ((feed_one hw ring s buf).events = [] ∨
      (feed_one hw ring s buf).events = [Event.get_bitstream_buffer]) := by
  unfold feed_one
  simp only [hcons, Bool.false_eq_true, if_false]
  by_cases hv : buf.vaddr = true
  · by_cases hr : (hw.get_bitstream_buffer s).2.ret = 0
    · simp [hv, hr, hfull]
    · simp [hv, hr]
  · simp [hv]

/-- C1: an OUTPUT buffer that is not yet consumed and whose chunk size exceeds
the remaining size reported by the hardware (at the point the loop has dealt
with the buffers `pre` ahead of it) is deferred: after the events of the
earlier buffers the invocation issues at most the pointer query, so no DMA
write and no update-bitstream command; the buffer keeps `consumed = false` and
it and all later buffers `post` are left in the queue exactly as they were. -/
theorem C1_full_ring_defers (hw : Hw σ) (w : World σ) (pre post : List SrcBuf)
    (buf : SrcBuf)
    (hq : w.inst.src_queue = pre ++ buf :: post)
    (hcons : buf.consumed = false)
    (hfull : (hw.get_bitstream_buffer
        (feed_loop hw w.inst.bitstream_vbuf w.hw pre).hw).2.remain_size < src_size buf) :
    ∃ tail : List Event,
      (wave5_handle_bitstream_buffer hw w).inst.src_queue =
        (feed_loop hw w.inst.bitstream_vbuf w.hw pre).queue ++ buf :: post ∧
      (wave5_handle_bitstream_buffer hw w).trace =
        w.trace ++ ((feed_loop hw w.inst.bitstream_vbuf w.hw pre).events ++ tail) ∧
      (tail = [] ∨ tail = [Event.get_bitstream_buffer]) := by
  have hd := feed_one_deferred hw w.inst.bitstream_vbuf
    (feed_loop hw w.inst.bitstream_vbuf w.hw pre).hw buf hcons hfull
  obtain ⟨hb, hc, he⟩ := hd
  have hloop : feed_loop hw w.inst.bitstream_vbuf
      (feed_loop hw w.inst.bitstream_vbuf w.hw pre).hw (buf :: post) =
      ⟨buf :: post, (feed_one hw w.inst.bitstream_vbuf
          (feed_loop hw w.inst.bitstream_vbuf w.hw pre).hw buf).hw,
        (feed_one hw w.inst.bitstream_vbuf
          (feed_loop hw w.inst.bitstream_vbuf w.hw pre).hw buf).events,
        (feed_one hw w.inst.bitstream_vbuf
          (feed_loop hw w.inst.bitstream_vbuf w.hw pre).hw buf).ctl⟩ := by
    simp only [feed_loop]
    cases h : (feed_one hw w.inst.bitstream_vbuf
        (feed_loop hw w.inst.bitstream_vbuf w.hw pre).hw buf).ctl with
    | next => exact absurd h hc
    | brk => simp [hb]
    | ret => simp [hb]
  have happ := feed_loop_append hw w.inst.bitstream_vbuf pre (buf :: post) w.hw
  cases hp : (feed_loop hw w.inst.bitstream_vbuf w.hw pre).ctl with
  | next =>
    refine ⟨(feed_one hw w.inst.bitstream_vbuf
      (feed_loop hw w.inst.bitstream_vbuf w.hw pre).hw buf).events, ?_, ?_, he⟩
    · simp [wave5_handle_bitstream_buffer, hq, happ, hp, hloop]
    · simp [wave5_handle_bitstream_buffer, hq, happ, hp, hloop]
  | brk =>
    refine ⟨[], ?_, ?_, Or.inl rfl⟩
    · simp [wave5_handle_bitstream_buffer, hq, happ, hp]
    · simp [wave5_handle_bitstream_buffer, hq, happ, hp]
  | ret =>
    refine ⟨[], ?_, ?_, Or.inl rfl⟩
    · simp [wave5_handle_bitstream_buffer, hq, happ, hp]
    · simp [wave5_handle_bitstream_buffer, hq, happ, hp]

/-- Witness for C1: a ring reporting 10 free bytes, a consumed buffer ahead, a
50-byte chunk and one more buffer behind it. -/
theorem C1_full_ring_defers_witness :
    (SrcBuf.fresh 1 50 100 7).consumed = false ∧
    ((Hw.fixed { bs := ⟨0, 0, 100, 10⟩ }).get_bitstream_buffer
      (feed_loop (Hw.fixed { bs := ⟨0, 0, 100, 10⟩ }) ⟨0, 400⟩ ()
        [{ SrcBuf.fresh 0 5 100 6 with consumed := true }]).hw).2.remain_size
      < src_size (SrcBuf.fresh 1 50 100 7) ∧
    ∃ tail : List Event,
      (wave5_handle_bitstream_buffer (Hw.fixed { bs := ⟨0, 0, 100, 10⟩ })
        (World.start { VpuInstance.zeroed with
          bitstream_vbuf := ⟨0, 400⟩,
          src_queue := [{ SrcBuf.fresh 0 5 100 6 with consumed := true },
            SrcBuf.fresh 1 50 100 7, SrcBuf.fresh 2 3 100 8] })).inst.src_queue =
        (feed_loop (Hw.fixed { bs := ⟨0, 0, 100, 10⟩ }) ⟨0, 400⟩ ()
          [{ SrcBuf.fresh 0 5 100 6 with consumed := true }]).queue ++
          SrcBuf.fresh 1 50 100 7 :: [SrcBuf.fresh 2 3 100 8] ∧
      (wave5_handle_bitstream_buffer (Hw.fixed { bs := ⟨0, 0, 100, 10⟩ })
        (World.start { VpuInstance.zeroed with
          bitstream_vbuf := ⟨0, 400⟩,
          src_queue := [{ SrcBuf.fresh 0 5 100 6 with consumed := true },
            SrcBuf.fresh 1 50 100 7, SrcBuf.fresh 2 3 100 8] })).trace =
        [] ++ ((feed_loop (Hw.fixed { bs := ⟨0, 0, 100, 10⟩ }) ⟨0, 400⟩ ()
          [{ SrcBuf.fresh 0 5 100 6 with consumed := true }]).events ++ tail) ∧
      (tail = [] ∨ tail = [Event.get_bitstream_buffer]) :=
  ⟨rfl, by decide,
    C1_full_ring_defers (Hw.fixed { bs := ⟨0, 0, 100, 10⟩ })
      (World.start { VpuInstance.zeroed with
        bitstream_vbuf := ⟨0, 400⟩,
        src_queue := [{ SrcBuf.fresh 0 5 100 6 with consumed := true },
          SrcBuf.fresh 1 50 100 7, SrcBuf.fresh 2 3 100 8] })
      [{ SrcBuf.fresh 0 5 100 6 with consumed := true }] [SrcBuf.fresh 2 3 100 8]
      (SrcBuf.fresh 1 50 100 7) rfl rfl (by decide)⟩

theorem add64_eq (a b : Nat) (h : a + b < U64) : add64 a b = a + b := by
  unfold add64
  exact Nat.mod_eq_of_lt h

theorem sub64_eq (a b : Nat) (hba : b ≤ a) (ha : a < U64) : sub64 a b = a - b := by
  unfold sub64
  have hb : b < U64 := lt_of_le_of_lt hba ha
  rw [Nat.mod_eq_of_lt ha, Nat.mod_eq_of_lt hb]
  have h1 : a + (U64 - b) = (a - b) + U64 := by omega
  rw [h1, Nat.add_mod_right]
  exact Nat.mod_eq_of_lt (by omega)

/-- C2: for a chunk of `n` bytes that the feeder accepts (it gets as far as the
update-bitstream command), with the write pointer `wr` inside the ring of base
`b` and size `s` and no wrap of the 64-bit address space: if `wr + n > b + s`
exactly two writes are issued, the leading `b + s - wr` bytes of the chunk at
ring offset `wr - b` and then the other `n - (b + s - wr)` bytes at ring offset
0; otherwise exactly one write of `n` bytes at ring offset `wr - b`.  In both
cases the written lengths sum to `n` and `n` is the count passed to the
update-bitstream command, which follows the writes. -/
theorem C2_split_write_sums_to_chunk (hw : Hw σ) (ring : VpuBuf) (s : σ) (buf : SrcBuf)
    (hcons : buf.consumed = false)
    (hacc : (feed_one hw ring s buf).events.any Event.is_update = true)
    (hlo : ring.daddr ≤ (hw.get_bitstream_buffer s).2.wr_ptr)
    (hhi : (hw.get_bitstream_buffer s).2.wr_ptr ≤ ring.daddr + ring.size)
    (hring : ring.daddr + ring.size < U64)
    (hn : (hw.get_bitstream_buffer s).2.wr_ptr + src_size buf < U64) :
    (feed_one hw ring s buf).events =
      (if (hw.get_bitstream_buffer s).2.wr_ptr + src_size buf > ring.daddr + ring.size then
        [Event.get_bitstream_buffer,
          Event.write_memory ((hw.get_bitstream_buffer s).2.wr_ptr - ring.daddr) 0
            (ring.daddr + ring.size - (hw.get_bitstream_buffer s).2.wr_ptr),
          Event.write_memory 0
            (ring.daddr + ring.size - (hw.get_bitstream_buffer s).2.wr_ptr)
            (src_size buf -
              (ring.daddr + ring.size - (hw.get_bitstream_buffer s).2.wr_ptr)),
          Event.update_bitstream_buffer (src_size buf)]
      else
        [Event.get_bitstream_buffer,
          Event.write_memory ((hw.get_bitstream_buffer s).2.wr_ptr - ring.daddr) 0
            (src_size buf),
          Event.update_bitstream_buffer (src_size buf)]) ∧
    written_bytes (feed_one hw ring s buf).events = src_size buf := by
  have hwr : (hw.get_bitstream_buffer s).2.wr_ptr < U64 := by omega
  have hnn : src_size buf < U64 := by omega
  have e1 : add64 (hw.get_bitstream_buffer s).2.wr_ptr (src_size buf) =
      (hw.get_bitstream_buffer s).2.wr_ptr + src_size buf := add64_eq _ _ hn
  have e2 : add64 ring.daddr ring.size = ring.daddr + ring.size := add64_eq _ _ hring
  have e3 : sub64 (hw.get_bitstream_buffer s).2.wr_ptr ring.daddr =
      (hw.get_bitstream_buffer s).2.wr_ptr - ring.daddr := sub64_eq _ _ hlo hwr
  have e4 : sub64 (ring.daddr + ring.size) (hw.get_bitstream_buffer s).2.wr_ptr =
      ring.daddr + ring.size - (hw.get_bitstream_buffer s).2.wr_ptr :=
    sub64_eq _ _ hhi hring
  unfold feed_one at hacc ⊢
  simp only [hcons, Bool.false_eq_true, if_false, e1, e2, e3, e4] at hacc ⊢
  by_cases hv : buf.vaddr = true
  · simp only [hv, Bool.not_true, Bool.false_eq_true, if_false] at hacc ⊢
    by_cases hr : (hw.get_bitstream_buffer s).2.ret = 0
    · simp only [hr, ne_eq, not_true_eq_false, if_false] at hacc ⊢
      by_cases hrem : (hw.get_bitstream_buffer s).2.remain_size < src_size buf
      · simp [hrem, Event.is_update] at hacc
      · simp only [hrem, if_false] at hacc ⊢
        by_cases hsplit : (hw.get_bitstream_buffer s).2.wr_ptr + src_size buf >
            ring.daddr + ring.size
        · have e5 : sub64 (src_size buf)
              (ring.daddr + ring.size - (hw.get_bitstream_buffer s).2.wr_ptr) =
              src_size buf -
                (ring.daddr + ring.size - (hw.get_bitstream_buffer s).2.wr_ptr) :=
            sub64_eq _ _ (by omega) hnn
          simp only [hsplit, if_true, e5] at hacc ⊢
          split at hacc
          · simp [Event.is_update] at hacc
          · split at hacc
            · simp [Event.is_update] at hacc
            · rename_i h1 h2
              simp only [h1, h2, if_false]
              split <;> (simp [written_bytes]; omega)
        · simp only [hsplit, if_false] at hacc ⊢
          split at hacc
          · simp [Event.is_update] at hacc
          · rename_i h1
            simp only [h1, if_false]
            split <;> simp [written_bytes]
    · simp [hr, Event.is_update] at hacc
  · simp [hv, Event.is_update] at hacc

/-- Witness for C2: ring of 100 bytes at address 1000, write pointer 1090, an
accepted chunk of 30 bytes that is split 10 + 20. -/
theorem C2_split_write_sums_to_chunk_witness :
    (feed_one (Hw.fixed { bs := ⟨0, 1000, 1090, 60⟩ }) ⟨1000, 100⟩ ()
      (SrcBuf.fresh 0 30 4096 0)).events =
      [Event.get_bitstream_buffer, Event.write_memory 90 0 10,
        Event.write_memory 0 10 20, Event.update_bitstream_buffer 30] ∧
    written_bytes (feed_one (Hw.fixed { bs := ⟨0, 1000, 1090, 60⟩ }) ⟨1000, 100⟩ ()
      (SrcBuf.fresh 0 30 4096 0)).events = 30 :=
  C2_split_write_sums_to_chunk (Hw.fixed { bs := ⟨0, 1000, 1090, 60⟩ }) ⟨1000, 100⟩ ()
    (SrcBuf.fresh 0 30 4096 0) rfl (by decide) (by decide) (by decide) (by decide)
    (by decide)

/-! ## Theorems: CAPTURE format negotiation -/

theorem find_raw_supported (K : Defs) (pf : Nat) (h : supported_raw pf) :
    wave5_find_vpu_fmt pf (dec_fmt_list_raw K) = some ⟨pf, 8192, 8, 4320, 8⟩ := by
  rcases h with rfl | rfl | rfl | rfl | rfl | rfl <;> rfl

theorem mem_planes_supported (pf : Nat) (h : supported_raw pf) :
    ∃ n, v4l2_format_info_mem_planes pf = some n := by
  rcases h with rfl | rfl | rfl | rfl | rfl | rfl <;> exact ⟨_, rfl⟩

theorem update_pix_fmt_supported (p : PixFmt) (w h : Nat) (hp : supported_raw p.pixelformat) :
    (wave5_update_pix_fmt p w h).width = round_up w 32 ∧
    (wave5_update_pix_fmt p w h).height = round_up h 8 ∧
    (wave5_update_pix_fmt p w h).pixelformat = p.pixelformat := by
  unfold wave5_update_pix_fmt
  unfold supported_raw at hp
  split_ifs with h1 h2 h3
  · simp
  · simp
  · simp
  · exfalso
    rcases hp with h | h | h | h | h | h
    · exact h1 (Or.inl h)
    · exact h1 (Or.inr (Or.inl h))
    · exact h1 (Or.inr (Or.inr h))
    · exact h2 h
    · exact h3 (Or.inl h)
    · exact h3 (Or.inr h)

/-- For a CAPTURE request in a supported raw format, `try_fmt_cap` returns 0 and
leaves the clamped size rounded up to a multiple of 32 by 8. -/
theorem try_fmt_cap_supported (K : Defs) (inst : VpuInstance) (f : V4l2Format)
    (htype : f.type = V4L2_BUF_TYPE_VIDEO_CAPTURE_MPLANE)
    (hfmt : supported_raw f.pix_mp.pixelformat) :
    ∃ f1, wave5_vpu_dec_try_fmt_cap K inst f = some (0, f1) ∧
      f1.pix_mp.width = round_up (clamp f.pix_mp.width 8 8192) 32 ∧
      f1.pix_mp.height = round_up (clamp f.pix_mp.height 8 4320) 8 ∧
      f1.pix_mp.pixelformat = f.pix_mp.pixelformat := by
  obtain ⟨n, hn⟩ := mem_planes_supported _ hfmt
  have hu := update_pix_fmt_supported
    { f.pix_mp with pixelformat := f.pix_mp.pixelformat, num_planes := n }
    (clamp f.pix_mp.width 8 8192) (clamp f.pix_mp.height 8 4320) hfmt
  unfold wave5_vpu_dec_try_fmt_cap
  simp only [htype, ne_eq, not_true_eq_false, if_false, find_raw_supported K _ hfmt, hn]
  exact ⟨_, rfl, hu.1, hu.2.1, hu.2.2⟩

theorem round_up_32_of_dvd (x : Nat) (hx : x % 32 = 0) (hmax : x ≤ 8192) :
    round_up x 32 = x := by
  unfold round_up U32
  omega

theorem round_up_8_of_dvd (x : Nat) (hx : x % 8 = 0) (hmax : x ≤ 8192) :
    round_up x 8 = x := by
  unfold round_up U32
  omega

/-- The quotient of a positive multiple `src` of `a` by the aligned request is
in `[1, 8]` when the request is `src` itself or one eighth of it. -/
theorem scale_in_range (src req a lo hi : Nat) (ha : a = 32 ∨ a = 8) (hlo : lo = 8)
    (hhi : hi = 8192 ∨ hi = 4320)
    (hdvd : src % a = 0) (hpos : 0 < src) (hmax : src ≤ hi)
    (hreq : req = src ∨ 8 * req = src) :
    1 ≤ src / round_up (clamp req lo hi) a ∧ src / round_up (clamp req lo hi) a ≤ 8 := by
  have key : 0 < round_up (clamp req lo hi) a ∧ round_up (clamp req lo hi) a ≤ src ∧
      src ≤ 8 * round_up (clamp req lo hi) a := by
    unfold round_up clamp U32
    subst hlo
    rcases ha with rfl | rfl <;> rcases hhi with rfl | rfl <;> rcases hreq with h | h <;>
      omega
  obtain ⟨k1, k2, k3⟩ := key
  constructor
  · exact Nat.div_pos k2 k1
  · apply Nat.div_le_of_le_mul
    rw [Nat.mul_comm] at k3
    linarith

/-- C4 as stated fails: with the formats a freshly opened instance has (source
HEVC 720x480), a YUV420 CAPTURE request of exactly the source size 720x480 is
rejected with `-EINVAL`, because the request is first aligned to 736x480 and
720 / 736 = 0. -/
theorem C4_counterexample_unit_ratio_rejected :
    (V4l2Format.capture V4L2_PIX_FMT_YUV420 720 480).pix_mp.width =
      VpuInstance.opened.src_fmt.width ∧
    (V4l2Format.capture V4L2_PIX_FMT_YUV420 720 480).pix_mp.height =
      VpuInstance.opened.src_fmt.height ∧
    supported_raw (V4l2Format.capture V4L2_PIX_FMT_YUV420 720 480).pix_mp.pixelformat ∧
    (wave5_vpu_dec_s_fmt_cap Defs.sample VpuInstance.opened
      (V4l2Format.capture V4L2_PIX_FMT_YUV420 720 480)).map (fun r => r.1) =
      some (-EINVAL) := by
  refine ⟨by decide, by decide, Or.inl rfl, by decide⟩

/-- C4 amended: when the source width is a positive multiple of 32 up to 8192 and
the source height a positive multiple of 8 up to 4320, a CAPTURE request in any
of the six supported raw formats whose width and height are, each, the source
value or exactly one eighth of it is accepted: `s_fmt_cap` returns 0 and stores
the aligned request as destination and display format. -/
theorem C4_aligned_source_unit_and_eighth_accepted (K : Defs) (inst : VpuInstance)
    (f : V4l2Format)
    (htype : f.type = V4L2_BUF_TYPE_VIDEO_CAPTURE_MPLANE)
    (hfmt : supported_raw f.pix_mp.pixelformat)
    (hw32 : inst.src_fmt.width % 32 = 0) (hwpos : 0 < inst.src_fmt.width)
    (hwmax : inst.src_fmt.width ≤ 8192)
    (hh8 : inst.src_fmt.height % 8 = 0) (hhpos : 0 < inst.src_fmt.height)
    (hhmax : inst.src_fmt.height ≤ 4320)
    (hreqw : f.pix_mp.width = inst.src_fmt.width ∨ 8 * f.pix_mp.width = inst.src_fmt.width)
    (hreqh : f.pix_mp.height = inst.src_fmt.height ∨
      8 * f.pix_mp.height = inst.src_fmt.height) :
    ∃ inst1 f1, wave5_vpu_dec_s_fmt_cap K inst f = some (0, inst1, f1) ∧
      inst1.dst_fmt.width = round_up (clamp f.pix_mp.width 8 8192) 32 ∧
      inst1.dst_fmt.height = round_up (clamp f.pix_mp.height 8 4320) 8 ∧
      inst1.dst_fmt.pixelformat = f.pix_mp.pixelformat ∧
      inst1.display_fmt.width = inst1.dst_fmt.width ∧
      inst1.display_fmt.height = inst1.dst_fmt.height ∧
      inst1.display_fmt.pixelformat = inst1.dst_fmt.pixelformat ∧
      (f.pix_mp.width = inst.src_fmt.width → inst1.dst_fmt.width = inst.src_fmt.width) ∧
      (f.pix_mp.height = inst.src_fmt.height →
        inst1.dst_fmt.height = inst.src_fmt.height) := by
  obtain ⟨f1, htry, hw1, hh1, hp1⟩ := try_fmt_cap_supported K inst f htype hfmt
  have sw := scale_in_range inst.src_fmt.width f.pix_mp.width 32 8 8192 (Or.inl rfl) rfl
    (Or.inl rfl) hw32 hwpos hwmax hreqw
  have sh := scale_in_range inst.src_fmt.height f.pix_mp.height 8 8 4320 (Or.inr rfl) rfl
    (Or.inr rfl) hh8 hhpos hhmax hreqh
  rw [← hw1] at sw
  rw [← hh1] at sh
  have hwne : f1.pix_mp.width ≠ 0 := by
    intro h0
    rw [h0, Nat.div_zero] at sw
    omega
  have hhne : f1.pix_mp.height ≠ 0 := by
    intro h0
    rw [h0, Nat.div_zero] at sh
    omega
  have hrange : scale_out_of_range (inst.src_fmt.width / f1.pix_mp.width)
      (inst.src_fmt.height / f1.pix_mp.height) = false := by
    unfold scale_out_of_range
    rw [decide_eq_false_iff_not]
    omega
  refine ⟨s_fmt_cap_store inst f1, f1, ?_, ?_⟩
  · unfold wave5_vpu_dec_s_fmt_cap
    simp only [htry, ne_eq, not_true_eq_false, if_false, hwne, hhne, or_self, hrange,
      Bool.false_eq_true]
  · refine ⟨hw1, hh1, hp1, rfl, rfl, rfl, ?_, ?_⟩
    · intro h
      show f1.pix_mp.width = _
      rw [hw1, h]
      have : clamp inst.src_fmt.width 8 8192 = inst.src_fmt.width := by
        unfold clamp
        omega
      rw [this]
      exact round_up_32_of_dvd _ hw32 hwmax
    · intro h
      show f1.pix_mp.height = _
      rw [hh1, h]
      have : clamp inst.src_fmt.height 8 4320 = inst.src_fmt.height := by
        unfold clamp
        omega
      rw [this]
      exact round_up_8_of_dvd _ hh8 (by omega)

/-- Witness for the amended C4: source 1920x1080 (HEVC), NV12 request of
240x135, one eighth of the source on both axes. -/
theorem C4_aligned_source_unit_and_eighth_accepted_witness :
    ∃ inst1 f1, wave5_vpu_dec_s_fmt_cap Defs.sample
        { VpuInstance.opened with
          src_fmt := { VpuInstance.opened.src_fmt with width := 1920, height := 1080 } }
        (V4l2Format.capture V4L2_PIX_FMT_NV12 240 135) = some (0, inst1, f1) ∧
      inst1.dst_fmt.width = round_up (clamp 240 8 8192) 32 ∧
      inst1.dst_fmt.height = round_up (clamp 135 8 4320) 8 ∧
      inst1.dst_fmt.pixelformat = V4L2_PIX_FMT_NV12 ∧
      inst1.display_fmt.width = inst1.dst_fmt.width ∧
      inst1.display_fmt.height = inst1.dst_fmt.height ∧
      inst1.display_fmt.pixelformat = inst1.dst_fmt.pixelformat ∧
      ((240 : Nat) = 1920 → inst1.dst_fmt.width = 1920) ∧
      ((135 : Nat) = 1080 → inst1.dst_fmt.height = 1080) :=
  C4_aligned_source_unit_and_eighth_accepted Defs.sample
    { VpuInstance.opened with
      src_fmt := { VpuInstance.opened.src_fmt with width := 1920, height := 1080 } }
    (V4l2Format.capture V4L2_PIX_FMT_NV12 240 135) rfl (Or.inr (Or.inl rfl))
    (by decide) (by decide) (by decide) (by decide) (by decide) (by decide)
    (Or.inr (by decide)) (Or.inr (by decide))

/-- C5: when `try_fmt_cap` returned 0 and left the request `f1` (with non-zero
width and height, so that the divisions of lines 495-496 are defined),
`s_fmt_cap` returns, its value is `-EINVAL` exactly when one of the integer
quotients `src_fmt.width / f1.width`, `src_fmt.height / f1.height` lies outside
`[1, 8]`, and otherwise 0; when it returns `-EINVAL` the instance is returned
unchanged (no field of `dst_fmt`, `display_fmt`, `cbcr_interleave`, `nv21` or any
other has been written). -/
theorem C5_scale_rejected_without_side_effect (K : Defs) (inst : VpuInstance)
    (f f1 : V4l2Format)
    (htry : wave5_vpu_dec_try_fmt_cap K inst f = some (0, f1))
    (hw : f1.pix_mp.width ≠ 0) (hh : f1.pix_mp.height ≠ 0) :
    ∃ ret inst1, wave5_vpu_dec_s_fmt_cap K inst f = some (ret, inst1, f1) ∧
      (ret = -EINVAL ↔
        ¬ (1 ≤ inst.src_fmt.width / f1.pix_mp.width ∧
           inst.src_fmt.width / f1.pix_mp.width ≤ 8 ∧
           1 ≤ inst.src_fmt.height / f1.pix_mp.height ∧
           inst.src_fmt.height / f1.pix_mp.height ≤ 8)) ∧
      (ret = -EINVAL → inst1 = inst) ∧
      (ret ≠ -EINVAL → ret = 0) := by
  unfold wave5_vpu_dec_s_fmt_cap
  simp only [htry, ne_eq, not_true_eq_false, if_false, hw, hh, or_self]
  by_cases hr : scale_out_of_range (inst.src_fmt.width / f1.pix_mp.width)
      (inst.src_fmt.height / f1.pix_mp.height) = true
  · refine ⟨-EINVAL, inst, by simp [hr], ?_, fun _ => rfl, fun h => absurd rfl h⟩
    unfold scale_out_of_range at hr
    rw [decide_eq_true_iff] at hr
    constructor
    · intro _
      omega
    · intro _
      rfl
  · refine ⟨0, s_fmt_cap_store inst f1, by simp [hr], ?_, ?_, fun _ => rfl⟩
    · unfold scale_out_of_range at hr
      rw [decide_eq_true_iff] at hr
      constructor
      · intro h
        simp [EINVAL] at h
      · intro h
        omega
    · intro h
      simp [EINVAL] at h

/-- Witness for C5: the formats of a freshly opened instance and a YUV420
request of 720x480, left as 736x480 by `try_fmt_cap`. -/
theorem C5_scale_rejected_without_side_effect_witness :
    ∃ f1, wave5_vpu_dec_try_fmt_cap Defs.sample VpuInstance.opened
        (V4l2Format.capture V4L2_PIX_FMT_YUV420 720 480) = some (0, f1) ∧
      f1.pix_mp.width = 736 ∧ f1.pix_mp.height = 480 ∧
      ∃ ret inst1, wave5_vpu_dec_s_fmt_cap Defs.sample VpuInstance.opened
          (V4l2Format.capture V4L2_PIX_FMT_YUV420 720 480) = some (ret, inst1, f1) ∧
        (ret = -EINVAL ↔
          ¬ (1 ≤ VpuInstance.opened.src_fmt.width / f1.pix_mp.width ∧
             VpuInstance.opened.src_fmt.width / f1.pix_mp.width ≤ 8 ∧
             1 ≤ VpuInstance.opened.src_fmt.height / f1.pix_mp.height ∧
             VpuInstance.opened.src_fmt.height / f1.pix_mp.height ≤ 8)) ∧
        (ret = -EINVAL → inst1 = VpuInstance.opened) ∧
        (ret ≠ -EINVAL → ret = 0) := by
  obtain ⟨f1, h1, h2, h3, _⟩ := try_fmt_cap_supported Defs.sample VpuInstance.opened
    (V4l2Format.capture V4L2_PIX_FMT_YUV420 720 480) rfl (Or.inl rfl)
  have hw : f1.pix_mp.width = 736 := by rw [h2]; decide
  have hh : f1.pix_mp.height = 480 := by rw [h3]; decide
  exact ⟨f1, h1, hw, hh,
    C5_scale_rejected_without_side_effect Defs.sample VpuInstance.opened
      (V4l2Format.capture V4L2_PIX_FMT_YUV420 720 480) f1 h1 (by rw [hw]; decide)
      (by rw [hh]; decide)⟩

/-! ## Theorems: stream stop -/

/-- With work always outstanding and every wait timing out, the drain loop is
never left: after any number of iterations it is still running and has made
that many failed waits. -/
theorem drain_loop_spins (hw : Hw σ)
    (hbusy : ∀ s, add32 (hw.get_queue_status s).2.instance_queue_count
      (hw.get_queue_status s).2.report_queue_count ≠ 0)
    (htimeout : ∀ s t, (hw.wait_interrupt s t).2 < 0) (fuel : Nat) (s : σ) :
    (drain_loop hw fuel s).exited = false ∧
    List.count (Event.wait_interrupt 600) (drain_loop hw fuel s).events = fuel := by
  induction fuel generalizing s with
  | zero => simp [drain_loop]
  | succ n ih =>
    have hit : drain_iter hw s =
        ⟨(hw.wait_interrupt (hw.get_queue_status s).1 600).1,
          [Event.give_command DecCmd.DEC_GET_QUEUE_STATUS, Event.wait_interrupt 600],
          Ctl.next⟩ := by
      unfold drain_iter
      simp [hbusy s, htimeout]
    have h := ih (hw.wait_interrupt (hw.get_queue_status s).1 600).1
    simp only [drain_loop, hit]
    refine ⟨h.1, ?_⟩
    rw [List.count_append, h.2]
    simp [List.count_cons]
    omega

/-- C3 (the code does not do what the claim says): against hardware that keeps
reporting outstanding work and lets every wait time out, the drain loop of
`wave5_vpu_dec_stop_streaming` has not been left after any number `fuel` of
iterations, each of which made one failed wait, so in particular not after
100 of them; `stop_streaming` is still spinning however long it is observed. -/
theorem C3_drain_loop_spins_past_retry_budget (K : Defs) (fuel : Nat) (q : QueueType)
    (w : World Unit) :
    (drain_loop Hw.stuck fuel w.hw).exited = false ∧
    List.count (Event.wait_interrupt 600) (drain_loop Hw.stuck fuel w.hw).events = fuel ∧
    (wave5_vpu_dec_stop_streaming K Hw.stuck fuel q w).status = Status.hung := by
  have hb : add32 (5 : Nat) 0 ≠ 0 := by decide
  have ht : (-110 : Int) < 0 := by decide
  have h := drain_loop_spins Hw.stuck (fun _ => hb) (fun _ _ => ht) fuel w.hw
  refine ⟨h.1, h.2, ?_⟩
  unfold wave5_vpu_dec_stop_streaming
  simp [h.1]

/-! ## Theorems: decode job driver -/

theorem start_decode_register_inst (hw : Hw σ) (w : World σ) :
    (start_decode_register hw w).inst = w.inst ∧
    (start_decode_register hw w).status = w.status := by
  unfold start_decode_register
  split <;> simp

/-- C6 (the code does not do what the claim says): a running instance with one
OUTPUT buffer queued, a start-decode command that fails with `-EINVAL` and a
reason other than "queue full".  `wave5_vpu_dec_start_decode` removes the
buffer, completes it with error status and sets the state to `STOP`, but
`wave5_vpu_dec_device_run` then writes `PIC_RUN` (line 1341), so the state when
`schedule()` returns is `PIC_RUN`. -/
theorem C6_device_run_overwrites_stop :
    (wave5_vpu_dec_start_decode Defs.sample
      (Hw.fixed { start_ret := -22, start_fail_res := 64 })
      (World.start { VpuInstance.opened with
        state := VpuInstState.PIC_RUN, src_queue := [SrcBuf.fresh 0 100 4096 5] })).inst.state
      = VpuInstState.STOP ∧
    (wave5_vpu_dec_device_run Defs.sample
      (Hw.fixed { start_ret := -22, start_fail_res := 64 })
      (World.start { VpuInstance.opened with
        state := VpuInstState.PIC_RUN, src_queue := [SrcBuf.fresh 0 100 4096 5] })).inst.state
      = VpuInstState.PIC_RUN ∧
    (wave5_vpu_dec_device_run Defs.sample
      (Hw.fixed { start_ret := -22, start_fail_res := 64 })
      (World.start { VpuInstance.opened with
        state := VpuInstState.PIC_RUN, src_queue := [SrcBuf.fresh 0 100 4096 5] })).inst.src_queue
      = [] ∧
    (wave5_vpu_dec_device_run Defs.sample
      (Hw.fixed { start_ret := -22, start_fail_res := 64 })
      (World.start { VpuInstance.opened with
        state := VpuInstState.PIC_RUN, src_queue := [SrcBuf.fresh 0 100 4096 5] })).trace
      = [Event.start_one_frame,
          Event.src_buf_done (SrcBuf.fresh 0 100 4096 5) Vb2State.ERROR] ∧
    (wave5_vpu_dec_device_run Defs.sample
      (Hw.fixed { start_ret := -22, start_fail_res := 64 })
      (World.start { VpuInstance.opened with
        state := VpuInstState.PIC_RUN, src_queue := [SrcBuf.fresh 0 100 4096 5] })).status
      = Status.running := by
  refine ⟨by decide, by decide, by decide, by decide, by decide⟩

/-- C7: `wave5_vpu_dec_start_decode` and the OUTPUT queue.  When the
start-decode command succeeds or fails with the reason "queue full", the whole
instance (so the OUTPUT queue with its order and consumed flags, and the
state) is left as it was and no buffer is completed.  When it fails with
another reason, the state becomes `STOP`, and the front OUTPUT buffer is
removed and completed with error status, the rest of the instance being left
as it was. -/
theorem C7_start_decode_touches_queue_only_on_fatal_error (K : Defs) (hw : Hw σ)
    (w : World σ) :
    (start_failed K (hw.start_one_frame (start_decode_register hw w).hw).2 = false →
      (wave5_vpu_dec_start_decode K hw w).inst = w.inst ∧
      (wave5_vpu_dec_start_decode K hw w).status = w.status ∧
      (wave5_vpu_dec_start_decode K hw w).trace =
        (start_decode_register hw w).trace ++ [Event.start_one_frame]) ∧
    (start_failed K (hw.start_one_frame (start_decode_register hw w).hw).2 = true →
      (wave5_vpu_dec_start_decode K hw w).inst.state = VpuInstState.STOP ∧
      ∀ src_buf rest, w.inst.src_queue = src_buf :: rest →
        (wave5_vpu_dec_start_decode K hw w).inst =
          { w.inst with src_queue := rest, state := VpuInstState.STOP } ∧
        (wave5_vpu_dec_start_decode K hw w).status = w.status ∧
        (wave5_vpu_dec_start_decode K hw w).trace =
          (start_decode_register hw w).trace ++
            [Event.start_one_frame, Event.src_buf_done src_buf Vb2State.ERROR]) := by
  have hr := start_decode_register_inst hw w
  constructor
  · intro h
    unfold wave5_vpu_dec_start_decode
    simp [h, hr.1, hr.2]
  · intro h
    constructor
    · unfold wave5_vpu_dec_start_decode
      simp only [h, if_true]
      split <;> rfl
    · intro src_buf rest hq
      unfold wave5_vpu_dec_start_decode
      simp only [h, if_true, hr.1, hq, hr.2]
      simp

/-- Witness for C7: both cases at a running instance with two queued buffers,
once with a start-decode command that fails with reason "queue full" and once
with one that fails with another reason. -/
theorem C7_start_decode_touches_queue_only_on_fatal_error_witness :
    ((wave5_vpu_dec_start_decode Defs.sample
        (Hw.fixed { start_ret := -22, start_fail_res := 1 })
        (World.start { VpuInstance.opened with
          state := VpuInstState.PIC_RUN,
          src_queue := [SrcBuf.fresh 0 100 4096 5, SrcBuf.fresh 1 80 4096 6] })).inst =
      { VpuInstance.opened with
          state := VpuInstState.PIC_RUN,
          src_queue := [SrcBuf.fresh 0 100 4096 5, SrcBuf.fresh 1 80 4096 6] }) ∧
    ((wave5_vpu_dec_start_decode Defs.sample
        (Hw.fixed { start_ret := -22, start_fail_res := 64 })
        (World.start { VpuInstance.opened with
          state := VpuInstState.PIC_RUN,
          src_queue := [SrcBuf.fresh 0 100 4096 5, SrcBuf.fresh 1 80 4096 6] })).inst =
      { VpuInstance.opened with
          src_queue := [SrcBuf.fresh 1 80 4096 6], state := VpuInstState.STOP }) :=
  ⟨((C7_start_decode_touches_queue_only_on_fatal_error Defs.sample
      (Hw.fixed { start_ret := -22, start_fail_res := 1 })
      (World.start { VpuInstance.opened with
        state := VpuInstState.PIC_RUN,
        src_queue := [SrcBuf.fresh 0 100 4096 5, SrcBuf.fresh 1 80 4096 6] })).1
      (by decide)).1,
   (((C7_start_decode_touches_queue_only_on_fatal_error Defs.sample
      (Hw.fixed { start_ret := -22, start_fail_res := 64 })
      (World.start { VpuInstance.opened with
        state := VpuInstState.PIC_RUN,
        src_queue := [SrcBuf.fresh 0 100 4096 5, SrcBuf.fresh 1 80 4096 6] })).2
      (by decide)).2 (SrcBuf.fresh 0 100 4096 5) [SrcBuf.fresh 1 80 4096 6] rfl).1⟩

/-- C8: one call of `wave5_vpu_dec_start_decode`, in any state and whatever the
hardware answers, appends to the trace: in state `INIT_SEQ` one
register-frame-buffers command with `non_linear_num = linear_num =
dst_buf_count`, `stride = dst_fmt.width` and `dst_fmt.height`, in any other
state nothing; then exactly one start-decode command; then at most the
completion of one OUTPUT buffer. -/
theorem C8_start_decode_commands (K : Defs) (hw : Hw σ) (w : World σ) :
    ∃ tail : List Event,
      (wave5_vpu_dec_start_decode K hw w).trace =
        w.trace ++
          ((if w.inst.state = VpuInstState.INIT_SEQ then
              [Event.register_frame_buffer_ex w.inst.dst_buf_count w.inst.dst_buf_count
                w.inst.dst_fmt.width w.inst.dst_fmt.height]
            else []) ++ [Event.start_one_frame] ++ tail) ∧
      (tail = [] ∨ ∃ b, tail = [Event.src_buf_done b Vb2State.ERROR]) := by
  have hreg : (start_decode_register hw w).trace =
      w.trace ++ (if w.inst.state = VpuInstState.INIT_SEQ then
        [Event.register_frame_buffer_ex w.inst.dst_buf_count w.inst.dst_buf_count
          w.inst.dst_fmt.width w.inst.dst_fmt.height]
      else []) := by
    unfold start_decode_register
    split <;> simp
  unfold wave5_vpu_dec_start_decode
  by_cases h : start_failed K (hw.start_one_frame (start_decode_register hw w).hw).2 = true
  · simp only [h, if_true]
    cases hq : (start_decode_register hw w).inst.src_queue with
    | nil => exact ⟨[], by simp [hreg], Or.inl rfl⟩
    | cons b rest => exact ⟨[Event.src_buf_done b Vb2State.ERROR], by simp [hreg], Or.inr ⟨b, rfl⟩⟩
  · simp only [h]
    exact ⟨[], by simp [hreg], Or.inl rfl⟩

/-! ## Theorems: completion dispatcher -/

theorem finish_decode_ack_frame (hw : Hw σ) (w : World σ) :
    (finish_decode_ack hw w).inst.src_queue = w.inst.src_queue ∧
    (finish_decode_ack hw w).inst.timestamp = w.inst.timestamp ∧
    (finish_decode_ack hw w).inst.eos = w.inst.eos ∧
    (finish_decode_ack hw w).inst.dst_queue = w.inst.dst_queue ∧
    (finish_decode_ack hw w).status = w.status := by
  unfold finish_decode_ack
  split <;> simp

theorem handle_src_buffer_consumed (w : World σ) (b : SrcBuf) (rest : List SrcBuf)
    (hq : w.inst.src_queue = b :: rest) (hc : b.consumed = true) :
    wave5_handle_src_buffer w =
      { w with inst := { w.inst with src_queue := rest, timestamp := b.timestamp },
               trace := w.trace ++ [Event.src_buf_done b Vb2State.DONE] } := by
  unfold wave5_handle_src_buffer
  simp [hq, hc]

/-- Delivering a picture leaves the OUTPUT queue and the timestamp alone and
completes no OUTPUT buffer. -/
theorem finish_decode_deliver_frame (K : Defs) (out : DecOutputInfo) (w : World σ) :
    (finish_decode_deliver K out w).inst.src_queue = w.inst.src_queue ∧
    (finish_decode_deliver K out w).inst.timestamp = w.inst.timestamp ∧
    ∃ tail, (finish_decode_deliver K out w).trace = w.trace ++ tail ∧
      ∀ b1 st, Event.src_buf_done b1 st ∉ tail := by
  unfold finish_decode_deliver
  split
  · split
    · exact ⟨rfl, rfl, [], by simp, by simp⟩
    · exact ⟨rfl, rfl, _, rfl, by simp⟩
  · split
    · split
      · exact ⟨rfl, rfl, [], by simp, by simp⟩
      · exact ⟨rfl, rfl, _, rfl, by simp⟩
    · exact ⟨rfl, rfl, [], by simp, by simp⟩

/-- C10 as stated fails: a consumed OUTPUT buffer (timestamp 42) is at the
front of the queue and the hardware reports neither a decoded nor a
displayable frame (both indices are the "no frame buffer" sentinels).
`wave5_vpu_dec_finish_decode` obtains the output info and returns with the
buffer still queued, no buffer completed and the instance timestamp unchanged. -/
theorem C10_counterexample_no_frame_keeps_consumed_buffer :
    (Hw.fixed { output := ⟨Defs.sample.DECODED_IDX_FLAG_NO_FB,
        Defs.sample.DISPLAY_IDX_FLAG_NO_FB, 0, 0, 0, false, 0⟩ }).get_output_info () =
      ((), 0, ⟨-1, -3, 0, 0, 0, false, 0⟩) ∧
    (wave5_vpu_dec_finish_decode Defs.sample
      (Hw.fixed { output := ⟨Defs.sample.DECODED_IDX_FLAG_NO_FB,
        Defs.sample.DISPLAY_IDX_FLAG_NO_FB, 0, 0, 0, false, 0⟩ })
      (World.start { VpuInstance.opened with
        state := VpuInstState.PIC_RUN,
        src_queue := [{ SrcBuf.fresh 0 100 4096 42 with consumed := true }] })).inst.src_queue
      = [{ SrcBuf.fresh 0 100 4096 42 with consumed := true }] ∧
    (wave5_vpu_dec_finish_decode Defs.sample
      (Hw.fixed { output := ⟨Defs.sample.DECODED_IDX_FLAG_NO_FB,
        Defs.sample.DISPLAY_IDX_FLAG_NO_FB, 0, 0, 0, false, 0⟩ })
      (World.start { VpuInstance.opened with
        state := VpuInstState.PIC_RUN,
        src_queue := [{ SrcBuf.fresh 0 100 4096 42 with consumed := true }] })).trace
      = [Event.get_output_info] ∧
    (wave5_vpu_dec_finish_decode Defs.sample
      (Hw.fixed { output := ⟨Defs.sample.DECODED_IDX_FLAG_NO_FB,
        Defs.sample.DISPLAY_IDX_FLAG_NO_FB, 0, 0, 0, false, 0⟩ })
      (World.start { VpuInstance.opened with
        state := VpuInstState.PIC_RUN,
        src_queue := [{ SrcBuf.fresh 0 100 4096 42 with consumed := true }] })).inst.timestamp
      = 0 := by
  refine ⟨by decide, by decide, by decide, by decide⟩

/-- C10 amended: after a `wave5_vpu_dec_finish_decode` invocation that obtained
an output info record, with a consumed buffer `b` at the front of the OUTPUT
queue: unless the record reports neither a decoded nor a displayable frame,
`b` has been removed from the OUTPUT queue, completed with success status
(the only OUTPUT completion of the call, right after the query) and the
instance timestamp is the timestamp of `b`; when neither is reported, the queue
and the timestamp are as before and nothing is completed. -/
theorem C10_consumed_front_retired_when_frame_reported (K : Defs) (hw : Hw σ)
    (w : World σ) (b : SrcBuf) (rest : List SrcBuf)
    (hret : (hw.get_output_info (finish_decode_ack hw w).hw).2.1 = 0)
    (hq : w.inst.src_queue = b :: rest) (hc : b.consumed = true) :
    (no_frame_reported K (hw.get_output_info (finish_decode_ack hw w).hw).2.2 = false →
      (wave5_vpu_dec_finish_decode K hw w).inst.src_queue = rest ∧
      (wave5_vpu_dec_finish_decode K hw w).inst.timestamp = b.timestamp ∧
      ∃ tail, (wave5_vpu_dec_finish_decode K hw w).trace =
          (finish_decode_ack hw w).trace ++
            ([Event.get_output_info, Event.src_buf_done b Vb2State.DONE] ++ tail) ∧
        ∀ b1 st, Event.src_buf_done b1 st ∉ tail) ∧
    (no_frame_reported K (hw.get_output_info (finish_decode_ack hw w).hw).2.2 = true →
      (wave5_vpu_dec_finish_decode K hw w).inst.src_queue = b :: rest ∧
      (wave5_vpu_dec_finish_decode K hw w).inst.timestamp = w.inst.timestamp ∧
      (wave5_vpu_dec_finish_decode K hw w).trace =
        (finish_decode_ack hw w).trace ++ [Event.get_output_info]) := by
  have hack := finish_decode_ack_frame hw w
  constructor
  · intro hrep
    have hsrc := handle_src_buffer_consumed
      ({ finish_decode_ack hw w with
          hw := (hw.get_output_info (finish_decode_ack hw w).hw).1,
          trace := (finish_decode_ack hw w).trace ++ [Event.get_output_info] } : World σ)
      b rest (by rw [← hq]; exact hack.1) hc
    have hd := finish_decode_deliver_frame K
      (hw.get_output_info (finish_decode_ack hw w).hw).2.2
      ({ finish_decode_ack hw w with
          inst := { (finish_decode_ack hw w).inst with
            src_queue := rest, timestamp := b.timestamp },
          hw := (hw.get_output_info (finish_decode_ack hw w).hw).1,
          trace := (finish_decode_ack hw w).trace ++ [Event.get_output_info] ++
            [Event.src_buf_done b Vb2State.DONE] } : World σ)
    obtain ⟨h1, h2, tail, h3, h4⟩ := hd
    unfold wave5_vpu_dec_finish_decode
    simp only [hret, ne_eq, not_true_eq_false, if_false, hrep, Bool.false_eq_true, hsrc]
    exact ⟨h1, h2, tail, by rw [h3]; simp, h4⟩
  · intro hrep
    unfold wave5_vpu_dec_finish_decode
    simp only [hret, ne_eq, not_true_eq_false, if_false, hrep, if_true]
    exact ⟨by rw [← hq]; exact hack.1, hack.2.1, trivial⟩

/-- Witness for the amended C10: a consumed buffer at the front, the hardware
reports a decoded frame (index 2) and nothing to display. -/
theorem C10_consumed_front_retired_when_frame_reported_witness :
    (wave5_vpu_dec_finish_decode Defs.sample
      (Hw.fixed { output := ⟨2, -3, 0, 0, 0, false, 0⟩ })
      (World.start { VpuInstance.opened with
        state := VpuInstState.PIC_RUN,
        src_queue := [{ SrcBuf.fresh 0 100 4096 42 with consumed := true },
          SrcBuf.fresh 1 80 4096 43] })).inst.src_queue = [SrcBuf.fresh 1 80 4096 43] ∧
    (wave5_vpu_dec_finish_decode Defs.sample
      (Hw.fixed { output := ⟨2, -3, 0, 0, 0, false, 0⟩ })
      (World.start { VpuInstance.opened with
        state := VpuInstState.PIC_RUN,
        src_queue := [{ SrcBuf.fresh 0 100 4096 42 with consumed := true },
          SrcBuf.fresh 1 80 4096 43] })).inst.timestamp = 42 :=
  ⟨((C10_consumed_front_retired_when_frame_reported Defs.sample
      (Hw.fixed { output := ⟨2, -3, 0, 0, 0, false, 0⟩ })
      (World.start { VpuInstance.opened with
        state := VpuInstState.PIC_RUN,
        src_queue := [{ SrcBuf.fresh 0 100 4096 42 with consumed := true },
          SrcBuf.fresh 1 80 4096 43] })
      { SrcBuf.fresh 0 100 4096 42 with consumed := true } [SrcBuf.fresh 1 80 4096 43]
      rfl rfl rfl).1 (by decide)).1,
   ((C10_consumed_front_retired_when_frame_reported Defs.sample
      (Hw.fixed { output := ⟨2, -3, 0, 0, 0, false, 0⟩ })
      (World.start { VpuInstance.opened with
        state := VpuInstState.PIC_RUN,
        src_queue := [{ SrcBuf.fresh 0 100 4096 42 with consumed := true },
          SrcBuf.fresh 1 80 4096 43] })
      { SrcBuf.fresh 0 100 4096 42 with consumed := true } [SrcBuf.fresh 1 80 4096 43]
      rfl rfl rfl).1 (by decide)).2.1⟩

/-! ## Theorems: end of stream -/

theorem scan_eos_append (p : Bool) (a b : List Event) :
    scan_eos p (a ++ b) = (scan_eos p a).bind (fun q => scan_eos q b) := by
  induction a generalizing p with
  | nil => simp [scan_eos]
  | cons e a ih =>
    simp only [List.cons_append, scan_eos]
    split_ifs <;> simp [ih]

theorem scan_eos_quiet (p : Bool) (es : List Event) (h : Quiet es) :
    scan_eos p es = some p := by
  induction es with
  | nil => simp [scan_eos]
  | cons e es ih =>
    have he := h e (List.mem_cons_self _ _)
    have hes : Quiet es := fun x hx => h x (List.mem_cons_of_mem _ hx)
    simp [scan_eos, he.1, he.2, ih hes]

theorem scan_eos_pending_no_restart (b : List Event) (h : restart_event ∉ b) :
    scan_eos true b = none ∨ scan_eos true b = some true := by
  induction b with
  | nil => simp [scan_eos]
  | cons e b ih =>
    have hb : restart_event ∉ b := fun hx => h (List.mem_cons_of_mem _ hx)
    have he : e ≠ restart_event := fun hx => h (hx ▸ List.mem_cons_self _ _)
    simp only [scan_eos]
    split_ifs
    · exact Or.inl rfl
    · exact ih hb

/-- A trace that scans without a clash has a CAPTURE stream stop between any
two end-of-stream events. -/
theorem scan_eos_sound (t : List Event) (p q : Bool) (h : scan_eos p t = some q)
    (a b c : List Event) (ht : t = a ++ [eos_event] ++ b ++ [eos_event] ++ c) :
    restart_event ∈ b := by
  by_contra hb
  subst ht
  simp only [List.append_assoc, scan_eos_append] at h
  cases ha : scan_eos p a with
  | none => simp [ha] at h
  | some p1 =>
    simp only [ha, Option.some_bind] at h
    cases p1 with
    | true => simp [scan_eos] at h
    | false =>
      have h1 : scan_eos false [eos_event] = some true := by simp [scan_eos]
      simp only [h1, Option.some_bind] at h
      rcases scan_eos_pending_no_restart b hb with h2 | h2
      · simp [h2] at h
      · simp [h2, scan_eos] at h

theorem Neutral.refl (w : World σ) : Neutral w w :=
  ⟨rfl, [], by simp, by simp [Quiet]⟩

theorem Quiet.append {a b : List Event} (ha : Quiet a) (hb : Quiet b) : Quiet (a ++ b) := by
  intro e he
  rcases List.mem_append.mp he with h | h
  · exact ha e h
  · exact hb e h

theorem Neutral.trans {w1 w2 w3 : World σ} (h12 : Neutral w1 w2) (h23 : Neutral w2 w3) :
    Neutral w1 w3 := by
  obtain ⟨e1, a, ta, qa⟩ := h12
  obtain ⟨e2, b, tb, qb⟩ := h23
  exact ⟨e2.trans e1, a ++ b, by rw [tb, ta, List.append_assoc], qa.append qb⟩

theorem neutral_of (w w1 : World σ) (es : List Event) (h1 : w1.inst.eos = w.inst.eos)
    (h2 : w1.trace = w.trace ++ es) (h3 : Quiet es) : Neutral w w1 :=
  ⟨h1, es, h2, h3⟩

theorem Neutral.andThen {w w1 : World σ} {f : World σ → World σ} (h1 : Neutral w w1)
    (hf : ∀ x, Neutral x (f x)) : Neutral w (w1.andThen f) := by
  unfold World.andThen
  split
  · exact h1.trans (hf w1)
  · exact h1

theorem EosInv.neutral {w w1 : World σ} (hi : EosInv w) (hn : Neutral w w1) : EosInv w1 := by
  obtain ⟨q, hs, hq⟩ := hi
  obtain ⟨he, es, ht, hquiet⟩ := hn
  refine ⟨q, ?_, fun h => by rw [he]; exact hq h⟩
  rw [ht, scan_eos_append, hs]
  simpa using scan_eos_quiet q es hquiet

theorem feed_one_quiet (hw : Hw σ) (ring : VpuBuf) (s : σ) (b : SrcBuf) :
    Quiet (feed_one hw ring s b).events := by
  unfold feed_one
  simp only []
  split_ifs <;> simp [Quiet, eos_event, restart_event]

theorem feed_loop_quiet (hw : Hw σ) (ring : VpuBuf) (q : List SrcBuf) (s : σ) :
    Quiet (feed_loop hw ring s q).events := by
  induction q generalizing s with
  | nil => simp [feed_loop, Quiet]
  | cons b rest ih =>
    simp only [feed_loop]
    split
    · exact (feed_one_quiet hw ring s b).append (ih _)
    · exact feed_one_quiet hw ring s b

theorem handle_bitstream_buffer_neutral (hw : Hw σ) (w : World σ) :
    Neutral w (wave5_handle_bitstream_buffer hw w) :=
  neutral_of _ _ _ rfl rfl (feed_loop_quiet hw _ _ _)

theorem handle_src_buffer_neutral (w : World σ) : Neutral w (wave5_handle_src_buffer w) := by
  unfold wave5_handle_src_buffer
  split
  · exact Neutral.refl w
  · split
    · exact neutral_of _ _ _ rfl rfl (by simp [Quiet, eos_event, restart_event])
    · exact Neutral.refl w

theorem start_decode_register_neutral (hw : Hw σ) (w : World σ) :
    Neutral w (start_decode_register hw w) := by
  unfold start_decode_register
  split
  · exact neutral_of _ _ _ rfl rfl (by simp [Quiet, eos_event, restart_event])
  · exact Neutral.refl w

theorem start_decode_neutral (K : Defs) (hw : Hw σ) (w : World σ) :
    Neutral w (wave5_vpu_dec_start_decode K hw w) := by
  refine (start_decode_register_neutral hw w).trans ?_
  unfold wave5_vpu_dec_start_decode
  simp only []
  split
  · split
    · exact neutral_of _ _ _ rfl rfl (by simp [Quiet, eos_event, restart_event])
    · rename_i b rest _
      exact neutral_of _ _ [Event.start_one_frame, Event.src_buf_done b Vb2State.ERROR] rfl
        (by simp) (by simp [Quiet, eos_event, restart_event])
  · exact neutral_of _ _ _ rfl rfl (by simp [Quiet, eos_event, restart_event])

theorem device_run_neutral (K : Defs) (hw : Hw σ) (w : World σ) :
    Neutral w (wave5_vpu_dec_device_run K hw w) := by
  unfold wave5_vpu_dec_device_run
  exact (start_decode_neutral K hw w).andThen
    (fun x => neutral_of _ _ [] rfl (by simp) (by simp [Quiet]))

theorem flag_loop_quiet (call : σ → Nat → σ × Int) (mk : Nat → Event)
    (hmk : ∀ i, mk i ≠ eos_event ∧ mk i ≠ restart_event) (l : List Nat) (s : σ) :
    Quiet (flag_loop call mk l s).2 := by
  induction l generalizing s with
  | nil => simp [flag_loop, Quiet]
  | cons i rest ih =>
    simp only [flag_loop]
    intro e he
    rcases List.mem_cons.mp he with h | h
    · rw [h]
      exact hmk i
    · exact ih _ e h

theorem stop_decode_neutral (hw : Hw σ) (w : World σ) :
    Neutral w (wave5_vpu_dec_stop_decode hw w) := by
  unfold wave5_vpu_dec_stop_decode
  refine neutral_of _ _ _ rfl rfl ?_
  refine Quiet.append (Quiet.append ?_ ?_) ?_
  · simp [Quiet, eos_event, restart_event]
  · exact flag_loop_quiet _ _ (fun i => by simp [eos_event, restart_event]) _ _
  · simp [Quiet, eos_event, restart_event]

theorem seq_info_eos (info : DecInitialInfo) (inst : VpuInstance) :
    (seq_info_formats info (seq_info_counts info inst)).eos = inst.eos ∧
    (seq_info_display (seq_info_formats info (seq_info_counts info inst))).eos = inst.eos := by
  unfold seq_info_display seq_info_formats seq_info_counts
  constructor
  · split <;> rfl
  · simp only []
    split <;> split <;> rfl

theorem seq_info_ctrl_events_quiet (inst : VpuInstance) :
    Quiet (seq_info_ctrl_events inst) := by
  unfold seq_info_ctrl_events
  split <;> simp [Quiet, eos_event, restart_event]

theorem apply_seq_info_neutral (info : DecInitialInfo) (w : World σ) :
    Neutral w (apply_seq_info info w) := by
  unfold apply_seq_info
  simp only []
  split
  · exact neutral_of _ _ _ (seq_info_eos info w.inst).1 rfl (seq_info_ctrl_events_quiet _)
  · refine Neutral.trans ?_ (handle_src_buffer_neutral _)
    exact neutral_of _ _ _ (seq_info_eos info w.inst).2 rfl
      ((seq_info_ctrl_events_quiet _).append (by simp [Quiet, eos_event, restart_event]))

theorem start_streaming_open_neutral (K : Defs) (hw : Hw σ) (w : World σ) :
    Neutral w (wave5_vpu_dec_start_streaming_open K hw w).1 := by
  unfold wave5_vpu_dec_start_streaming_open
  simp only []
  split
  · exact neutral_of _ _ _ rfl rfl (by simp [Quiet, eos_event, restart_event])
  · split
    · exact neutral_of _ _ [Event.issue_seq_init, Event.wait_interrupt K.VPU_DEC_TIMEOUT,
        Event.complete_seq_init] rfl (by simp) (by simp [Quiet, eos_event, restart_event])
    · refine Neutral.trans ?_ (apply_seq_info_neutral _ _)
      exact neutral_of _ _ [Event.issue_seq_init, Event.wait_interrupt K.VPU_DEC_TIMEOUT,
        Event.complete_seq_init] rfl (by simp) (by simp [Quiet, eos_event, restart_event])

theorem start_streaming_seek_neutral (K : Defs) (hw : Hw σ) (w : World σ) :
    Neutral w (wave5_vpu_dec_start_streaming_seek K hw w).1 := by
  unfold wave5_vpu_dec_start_streaming_seek
  simp only []
  split
  · split
    · exact neutral_of _ _ _ rfl rfl (by simp [Quiet, eos_event, restart_event])
    · rename_i b rest _
      exact neutral_of _ _ [Event.start_one_frame, Event.src_buf_done b Vb2State.ERROR] rfl
        (by simp) (by simp [Quiet, eos_event, restart_event])
  · split
    · exact neutral_of _ _ [Event.start_one_frame, Event.wait_interrupt K.VPU_DEC_TIMEOUT,
        Event.get_output_info] rfl (by simp) (by simp [Quiet, eos_event, restart_event])
    · split
      · refine Neutral.trans ?_ (apply_seq_info_neutral _ _)
        exact neutral_of _ _ [Event.start_one_frame, Event.wait_interrupt K.VPU_DEC_TIMEOUT,
          Event.get_output_info, Event.give_command DecCmd.DEC_RESET_FRAMEBUF_INFO,
          Event.give_command DecCmd.DEC_GET_SEQ_INFO] rfl (by simp)
          (by simp [Quiet, eos_event, restart_event])
      · exact neutral_of _ _ [Event.start_one_frame, Event.wait_interrupt K.VPU_DEC_TIMEOUT,
          Event.get_output_info] rfl (by simp) (by simp [Quiet, eos_event, restart_event])

theorem map_src_done_quiet (l : List SrcBuf) (st : Vb2State) :
    Quiet (l.map (fun buf => Event.src_buf_done buf st)) := by
  intro e he
  obtain ⟨b, _, rfl⟩ := List.mem_map.mp he
  simp [eos_event, restart_event]

theorem start_streaming_by_state_neutral (K : Defs) (hw : Hw σ) (w : World σ) :
    Neutral w (start_streaming_by_state K hw w).1 := by
  unfold start_streaming_by_state
  split
  · exact start_streaming_open_neutral K hw w
  · split
    · exact start_streaming_seek_neutral K hw w
    · exact Neutral.refl w

theorem start_streaming_neutral (K : Defs) (hw : Hw σ) (q : QueueType) (w : World σ) :
    Neutral w (wave5_vpu_dec_start_streaming K hw q w).1 := by
  unfold wave5_vpu_dec_start_streaming
  cases q with
  | CAPTURE_MPLANE => exact Neutral.refl w
  | OUTPUT_MPLANE =>
    have hr := (handle_bitstream_buffer_neutral hw w).trans
      (start_streaming_by_state_neutral K hw (wave5_handle_bitstream_buffer hw w))
    simp only []
    split
    · exact hr.andThen (fun x => neutral_of _ _ _ rfl rfl (map_src_done_quiet _ _))
    · exact hr

theorem buf_queue_src_neutral (K : Defs) (hw : Hw σ) (vb : SrcBuf) (w : World σ) :
    Neutral w (wave5_vpu_dec_buf_queue_src K hw vb w) := by
  unfold wave5_vpu_dec_buf_queue_src
  simp only []
  have h0 : Neutral w
      ({ w with inst := { w.inst with
          src_queue := w.inst.src_queue ++
            [{ vb with consumed := false, sequence := w.inst.queued_src_buf_num }],
          queued_src_buf_num := add32 w.inst.queued_src_buf_num 1 } } : World σ) :=
    neutral_of _ _ [] rfl (by simp) (by simp [Quiet])
  split
  · exact (h0.trans (handle_bitstream_buffer_neutral hw _)).trans
      (start_decode_neutral K hw _)
  · exact h0

theorem buf_queue_dst_neutral (K : Defs) (hw : Hw σ) (streaming : Bool) (vb : DstBuf)
    (w : World σ) : Neutral w (wave5_vpu_dec_buf_queue_dst K hw streaming vb w) := by
  unfold wave5_vpu_dec_buf_queue_dst
  simp only []
  refine Neutral.andThen ?_ ?_
  · split
    · split
      · exact neutral_of _ _ _ rfl rfl (by simp [Quiet, eos_event, restart_event])
      · exact neutral_of _ _ _ rfl rfl (by simp [Quiet, eos_event, restart_event])
    · exact neutral_of _ _ _ rfl rfl (by simp [Quiet, eos_event, restart_event])
  · intro x
    split
    · exact Neutral.refl x
    · split
      · exact start_decode_neutral K hw x
      · exact Neutral.refl x

theorem decoder_cmd_neutral (hw : Hw σ) (try_ret : Int) (both_streaming : Bool) (cmd : Nat)
    (w : World σ) :
    Neutral w (wave5_vpu_dec_decoder_cmd hw try_ret both_streaming cmd w).1 := by
  unfold wave5_vpu_dec_decoder_cmd
  simp only []
  split_ifs <;>
    first
    | exact Neutral.refl w
    | exact neutral_of _ _ _ rfl rfl (by simp [Quiet, eos_event, restart_event])

theorem s_fmt_cap_keeps_eos (K : Defs) (inst : VpuInstance) (f : V4l2Format)
    (r : Int × VpuInstance × V4l2Format) (h : wave5_vpu_dec_s_fmt_cap K inst f = some r) :
    r.2.1.eos = inst.eos := by
  unfold wave5_vpu_dec_s_fmt_cap at h
  split at h
  · simp at h
  · split_ifs at h
    all_goals first
      | (cases h; rfl)
      | (simp only [] at h; split_ifs at h <;> (cases h; rfl))

theorem drain_iter_quiet (hw : Hw σ) (s : σ) : Quiet (drain_iter hw s).events := by
  unfold drain_iter
  simp only []
  split_ifs <;> simp [Quiet, eos_event, restart_event]

theorem drain_loop_quiet (hw : Hw σ) (fuel : Nat) (s : σ) :
    Quiet (drain_loop hw fuel s).events := by
  induction fuel generalizing s with
  | zero => simp [drain_loop, Quiet]
  | succ n ih =>
    simp only [drain_loop]
    split
    · exact (drain_iter_quiet hw s).append (ih _)
    · exact drain_iter_quiet hw s

theorem return_dst_bufs_quiet (K : Defs) (n : Nat) (l : List DstBuf) :
    Quiet (return_dst_bufs K n l) := by
  induction l with
  | nil => simp [return_dst_bufs, Quiet]
  | cons b rest ih =>
    simp only [return_dst_bufs]
    intro e he
    rcases List.mem_cons.mp he with h | h
    · rw [h]
      simp [eos_event, restart_event]
    · exact ih e h

/-- A stream stop queues no end-of-stream event. -/
theorem stop_streaming_quiet (K : Defs) (hw : Hw σ) (fuel : Nat) (q : QueueType)
    (w : World σ) :
    ∃ es, (wave5_vpu_dec_stop_streaming K hw fuel q w).trace = w.trace ++ es ∧ Quiet es := by
  have hd := drain_loop_quiet hw fuel w.hw
  unfold wave5_vpu_dec_stop_streaming
  simp only []
  split
  · exact ⟨_, rfl, hd⟩
  · cases q with
    | OUTPUT_MPLANE =>
      exact ⟨_, by simp only [List.append_assoc]; rfl, hd.append (map_src_done_quiet _ _)⟩
    | CAPTURE_MPLANE =>
      have hq : Quiet
          (return_dst_bufs K w.inst.dst_fmt.num_planes w.inst.dst_queue ++
            (flag_loop hw.set_disp_flag Event.set_disp_flag (List.range w.inst.dst_buf_count)
              (drain_loop hw fuel w.hw).hw).2 ++ [Event.get_bitstream_buffer]) :=
        ((return_dst_bufs_quiet K _ _).append
          (flag_loop_quiet _ _ (fun i => by simp [eos_event, restart_event]) _ _)).append
          (by simp [Quiet, eos_event, restart_event])
      simp only []
      split
      · exact ⟨_, by simp only [List.append_assoc], hd.append hq⟩
      · split
        · exact ⟨_, by simp only [List.append_assoc]; rfl,
            hd.append (hq.append (by simp [Quiet, eos_event, restart_event]))⟩
        · exact ⟨_, by simp only [List.append_assoc]; rfl,
            hd.append (hq.append (by simp [Quiet, eos_event, restart_event]))⟩

theorem stop_streaming_output_neutral (K : Defs) (hw : Hw σ) (fuel : Nat) (w : World σ) :
    Neutral w (wave5_vpu_dec_stop_streaming K hw fuel QueueType.OUTPUT_MPLANE w) := by
  obtain ⟨es, ht, hq⟩ := stop_streaming_quiet K hw fuel QueueType.OUTPUT_MPLANE w
  refine ⟨?_, es, ht, hq⟩
  unfold wave5_vpu_dec_stop_streaming
  simp only []
  split <;> rfl

/-- What `wave5_vpu_dec_finish_decode` does about the end of the stream: either
nothing (no end-of-stream event, `eos` as before), or, from `eos = false`, it
completes one CAPTURE buffer carrying the LAST flag with success status, queues
one end-of-stream event, finishes the job and leaves `eos = true`. -/
theorem finish_decode_eos (K : Defs) (hw : Hw σ) (w : World σ) :
    Neutral w (wave5_vpu_dec_finish_decode K hw w) ∨
    (w.inst.eos = false ∧ (wave5_vpu_dec_finish_decode K hw w).inst.eos = true ∧
      ∃ pre b, (wave5_vpu_dec_finish_decode K hw w).trace =
          w.trace ++ (pre ++ [Event.dst_buf_done b Vb2State.DONE, eos_event,
            Event.job_finish]) ∧
        Quiet pre ∧ b.flag_last = true) := by
  have hack : Neutral w (finish_decode_ack hw w) := by
    unfold finish_decode_ack
    split
    · exact Neutral.refl w
    · exact neutral_of _ _ _ rfl rfl (by simp [Quiet, eos_event, restart_event])
  have h2 : Neutral w ({ finish_decode_ack hw w with
      hw := (hw.get_output_info (finish_decode_ack hw w).hw).1,
      trace := (finish_decode_ack hw w).trace ++ [Event.get_output_info] } : World σ) :=
    hack.trans (neutral_of _ _ _ rfl rfl (by simp [Quiet, eos_event, restart_event]))
  have h3 := h2.trans (handle_src_buffer_neutral _)
  unfold wave5_vpu_dec_finish_decode
  simp only []
  split
  · exact Or.inl (h2.trans (neutral_of _ _ _ rfl rfl
      (by simp [Quiet, eos_event, restart_event])))
  · split
    · exact Or.inl h2
    · generalize wave5_handle_src_buffer _ = w3 at h3 ⊢
      obtain ⟨he, pre, ht, hq⟩ := h3
      unfold finish_decode_deliver
      split
      · split
        · exact Or.inl ⟨he, pre, ht, hq⟩
        · rename_i dst_buf rest _
          exact Or.inl ⟨he,
            pre ++ [Event.dst_buf_done (fill_displayed K w3.inst
              (hw.get_output_info (finish_decode_ack hw w).hw).2.2 dst_buf) Vb2State.DONE],
            by simp [ht], hq.append (by simp [Quiet, eos_event, restart_event])⟩
      · split
        · rename_i hcond
          split
          · exact Or.inl ⟨he, pre, ht, hq⟩
          · rename_i dst_buf rest _
            refine Or.inr ⟨by rw [← he]; exact hcond.2, rfl, pre,
              fill_last K w3.inst dst_buf, ?_, hq, ?_⟩
            · simp [ht, eos_event]
            · simp [fill_last]
        · exact Or.inl ⟨he, pre, ht, hq⟩

theorem emit_enter_neutral (w : World σ) (ep : EntryPoint)
    (h : ep ≠ EntryPoint.stop_streaming QueueType.CAPTURE_MPLANE) :
    Neutral w (w.emit [Event.enter ep]) := by
  refine neutral_of _ _ _ rfl rfl ?_
  intro e he
  simp only [List.mem_singleton] at he
  subst he
  constructor
  · simp [eos_event]
  · intro hx
    apply h
    simpa [restart_event] using hx

theorem s_fmt_out_keeps_eos (K : Defs) (inst : VpuInstance) (f : V4l2Format) :
    (wave5_vpu_dec_s_fmt_out K inst f).2.1.eos = inst.eos := by
  unfold wave5_vpu_dec_s_fmt_out
  simp only []
  split <;> rfl

theorem s_ctrl_keeps_eos (id : Nat) (val : Int) (inst : VpuInstance) :
    (wave5_vpu_dec_s_ctrl id val inst).2.eos = inst.eos := by
  unfold wave5_vpu_dec_s_ctrl
  split_ifs <;> rfl

theorem free_bitstream_vbuf_neutral (hw : Hw σ) (w : World σ) :
    Neutral w (free_bitstream_vbuf hw w) :=
  neutral_of _ _ _ rfl rfl (by simp [Quiet, eos_event, restart_event])

theorem queue_setup_open_neutral (hw : Hw σ) (w : World σ) :
    Neutral w (queue_setup_open hw w).1 := by
  have h1 : Neutral w ({ w with
      inst := { w.inst with bitstream_vbuf := (hw.allocate_dma_memory w.hw
        { w.inst.bitstream_vbuf with
          size := mul32 (ALIGN (w.inst.src_fmt.plane_fmt 0).sizeimage 1024) 4 }).2.2 },
      hw := (hw.allocate_dma_memory w.hw
        { w.inst.bitstream_vbuf with
          size := mul32 (ALIGN (w.inst.src_fmt.plane_fmt 0).sizeimage 1024) 4 }).1,
      trace := w.trace ++ [Event.allocate_dma_memory
        (mul32 (ALIGN (w.inst.src_fmt.plane_fmt 0).sizeimage 1024) 4)] } : World σ) :=
    neutral_of _ _ _ rfl rfl (by simp [Quiet, eos_event, restart_event])
  unfold queue_setup_open
  simp only []
  split
  · exact h1
  · split
    · refine Neutral.trans ?_ (free_bitstream_vbuf_neutral hw _)
      refine h1.trans ?_
      exact neutral_of _ _ [] rfl (by simp) (by simp [Quiet])
    · split
      · refine Neutral.trans ?_ (free_bitstream_vbuf_neutral hw _)
        refine h1.trans ?_
        exact neutral_of _ _ _ rfl rfl (by simp [Quiet, eos_event, restart_event])
      · split
        · refine h1.trans ?_
          exact neutral_of _ _ _ rfl (List.append_assoc _ _ _)
            (by simp [Quiet, eos_event, restart_event])
        · refine h1.trans ?_
          exact neutral_of _ _ _ rfl rfl (by simp [Quiet, eos_event, restart_event])

theorem alloc_frame_bufs_neutral (hw : Hw σ) (l : List Nat) (w : World σ) :
    Neutral w (alloc_frame_bufs hw l w).1 := by
  induction l generalizing w with
  | nil => exact Neutral.refl w
  | cons i rest ih =>
    simp only [alloc_frame_bufs]
    split
    · exact neutral_of _ _ _ rfl rfl (by simp [Quiet, eos_event, restart_event])
    · refine Neutral.trans ?_ (ih _)
      exact neutral_of _ _ _ rfl rfl (by simp [Quiet, eos_event, restart_event])

theorem queue_setup_by_state_neutral (K : Defs) (hw : Hw σ) (q : QueueType) (n : Nat)
    (w : World σ) : Neutral w (queue_setup_by_state K hw q n w).1 := by
  unfold queue_setup_by_state
  split
  · exact queue_setup_open_neutral hw w
  · split
    · exact Neutral.trans (neutral_of _ _ [] rfl (by simp) (by simp [Quiet]))
        (alloc_frame_bufs_neutral hw _ _)
    · split <;> exact Neutral.refl w

theorem queue_setup_neutral (K : Defs) (hw : Hw σ) (q : QueueType) (args : QueueSetupArgs)
    (w : World σ) : Neutral w (wave5_vpu_dec_queue_setup K hw q args w).1 := by
  unfold wave5_vpu_dec_queue_setup
  simp only []
  by_cases h : args.num_planes ≠ 0 ∧ queue_setup_rejects
      (if q = QueueType.OUTPUT_MPLANE then w.inst.src_fmt else w.inst.display_fmt) args = true
  · rw [if_pos h]
    exact Neutral.refl w
  · rw [if_neg h]
    exact queue_setup_by_state_neutral K hw q _ w

/-- What one operation does about the end of the stream. -/
theorem step_eos_cases (K : Defs) (hw : Hw σ) (op : Op) (w : World σ) :
    Neutral w (step K hw op w) ∨
    (∃ fuel, op = Op.stop_streaming QueueType.CAPTURE_MPLANE fuel ∧
      ∃ es, (step K hw op w).trace = w.trace ++ (restart_event :: es) ∧ Quiet es) ∨
    (op = Op.finish_process ∧ w.inst.eos = false ∧ (step K hw op w).inst.eos = true ∧
      ∃ pre b, (step K hw op w).trace =
          w.trace ++ (pre ++ [Event.dst_buf_done b Vb2State.DONE, eos_event,
            Event.job_finish]) ∧
        Quiet pre ∧ b.flag_last = true) := by
  unfold step World.andThen
  split
  · cases op with
    | s_fmt_cap f =>
      refine Or.inl ((emit_enter_neutral w (Op.s_fmt_cap f).entry
        (by simp [Op.entry])).trans ?_)
      simp only [dispatch]
      split
      · exact neutral_of _ _ [] rfl (by simp) (by simp [Quiet])
      · rename_i r hr
        exact neutral_of _ _ [] (s_fmt_cap_keeps_eos K _ f r hr) (by simp) (by simp [Quiet])
    | buf_queue_src vb =>
      exact Or.inl ((emit_enter_neutral w _ (by simp [Op.entry])).trans
        (buf_queue_src_neutral K hw vb _))
    | buf_queue_dst vb streaming =>
      exact Or.inl ((emit_enter_neutral w _ (by simp [Op.entry])).trans
        (buf_queue_dst_neutral K hw streaming vb _))
    | start_streaming q =>
      exact Or.inl ((emit_enter_neutral w _ (by simp [Op.entry])).trans
        (start_streaming_neutral K hw q _))
    | stop_streaming q fuel =>
      cases q with
      | OUTPUT_MPLANE =>
        exact Or.inl ((emit_enter_neutral w _ (by simp [Op.entry])).trans
          (stop_streaming_output_neutral K hw fuel _))
      | CAPTURE_MPLANE =>
        obtain ⟨es, ht, hq⟩ := stop_streaming_quiet K hw fuel QueueType.CAPTURE_MPLANE
          (w.emit [Event.enter (Op.stop_streaming QueueType.CAPTURE_MPLANE fuel).entry])
        refine Or.inr (Or.inl ⟨fuel, rfl, es, ?_, hq⟩)
        simp only [dispatch]
        rw [ht]
        simp [World.emit, Op.entry, restart_event]
    | device_run =>
      exact Or.inl ((emit_enter_neutral w _ (by simp [Op.entry])).trans
        (device_run_neutral K hw _))
    | job_abort =>
      exact Or.inl ((emit_enter_neutral w _ (by simp [Op.entry])).trans
        (stop_decode_neutral hw _))
    | finish_process =>
      have hn := emit_enter_neutral w (Op.finish_process).entry (by simp [Op.entry])
      rcases finish_decode_eos K hw (w.emit [Event.enter (Op.finish_process).entry]) with
        h | ⟨h1, h2, pre, b, h3, h4, h5⟩
      · exact Or.inl (hn.trans h)
      · refine Or.inr (Or.inr ⟨rfl, h1, h2, Event.enter (Op.finish_process).entry :: pre, b,
          ?_, ?_, h5⟩)
        · simp only [dispatch]
          rw [h3]
          simp [World.emit]
        · intro e he
          rcases List.mem_cons.mp he with hx | hx
          · rw [hx]
            simp [Op.entry, eos_event, restart_event]
          · exact h4 e hx
    | decoder_cmd try_ret both_streaming cmd =>
      exact Or.inl ((emit_enter_neutral w _ (by simp [Op.entry])).trans
        (decoder_cmd_neutral hw try_ret both_streaming cmd _))
    | irq status =>
      refine Or.inl ((emit_enter_neutral w (Op.irq status).entry
        (by simp [Op.entry])).trans ?_)
      simp only [dispatch]
      split
      · exact neutral_of _ _ [] rfl (by simp) (by simp [Quiet])
      · exact Neutral.refl _
    | s_fmt_out f =>
      refine Or.inl ((emit_enter_neutral w (Op.s_fmt_out f).entry
        (by simp [Op.entry])).trans ?_)
      simp only [dispatch]
      exact neutral_of _ _ [] (s_fmt_out_keeps_eos K _ f) (by simp) (by simp [Quiet])
    | s_ctrl id val =>
      refine Or.inl ((emit_enter_neutral w (Op.s_ctrl id val).entry
        (by simp [Op.entry])).trans ?_)
      simp only [dispatch]
      exact neutral_of _ _ [] (s_ctrl_keeps_eos id val _) (by simp) (by simp [Quiet])
    | queue_setup q args =>
      exact Or.inl ((emit_enter_neutral w _ (by simp [Op.entry])).trans
        (queue_setup_neutral K hw q args _))
  · exact Or.inl (Neutral.refl w)

theorem EosInv.step (K : Defs) (hw : Hw σ) (op : Op) (w : World σ) (h : EosInv w) :
    EosInv (step K hw op w) := by
  rcases step_eos_cases K hw op w with hn | ⟨_, _, es, ht, hq⟩ | ⟨_, h1, h2, pre, b, ht, hq, _⟩
  · exact h.neutral hn
  · obtain ⟨p, hs, _⟩ := h
    refine ⟨false, ?_, fun hx => by simp at hx⟩
    rw [ht, scan_eos_append, hs]
    have hr : restart_event ≠ eos_event := by simp [restart_event, eos_event]
    simp only [Option.some_bind, scan_eos, hr, if_false, if_true]
    exact scan_eos_quiet false es hq
  · obtain ⟨p, hs, hp⟩ := h
    have hpf : p = false := by
      cases p with
      | false => rfl
      | true => rw [hp rfl] at h1; simp at h1
    subst hpf
    refine ⟨true, ?_, fun _ => h2⟩
    rw [ht, scan_eos_append, hs]
    simp only [Option.some_bind, scan_eos_append, scan_eos_quiet false pre hq]
    simp [scan_eos, eos_event, restart_event]

theorem EosInv.run (K : Defs) (hw : Hw σ) (ops : List Op) (w : World σ) (h : EosInv w) :
    EosInv (run K hw ops w) := by
  induction ops generalizing w with
  | nil => exact h
  | cons op ops ih => exact ih (Wave5.step K hw op w) (h.step K hw op w)

/-- C9: end-of-stream is signalled at most once until a restart clears it.
First, `wave5_vpu_dec_finish_decode` queues the EOS event only from `eos =
false`, then exactly once, together with the completion with success status of
a CAPTURE buffer carrying the LAST flag, and leaves `eos = true`; when it
queues none it leaves `eos` as it was.  Second, an operation after which `eos`
is false although it was true before is a `stop_streaming` on the CAPTURE
queue.  Third, in the trace of every sequence of driver operations started
with an empty trace, a `stop_streaming` on the CAPTURE queue is called between
any two EOS events. -/
theorem C9_eos_signalled_once_until_restart (K : Defs) (hw : Hw σ) :
    (∀ w : World σ, ∃ es,
      (wave5_vpu_dec_finish_decode K hw w).trace = w.trace ++ es ∧
      (eos_event ∈ es →
        w.inst.eos = false ∧ (wave5_vpu_dec_finish_decode K hw w).inst.eos = true ∧
        List.count eos_event es = 1 ∧
        ∃ b, Event.dst_buf_done b Vb2State.DONE ∈ es ∧ b.flag_last = true) ∧
      (eos_event ∉ es → (wave5_vpu_dec_finish_decode K hw w).inst.eos = w.inst.eos)) ∧
    (∀ (op : Op) (w : World σ), w.inst.eos = true → (step K hw op w).inst.eos = false →
      ∃ fuel, op = Op.stop_streaming QueueType.CAPTURE_MPLANE fuel) ∧
    (∀ (ops : List Op) (inst : VpuInstance) (s : σ) (a b c : List Event),
      (run K hw ops ⟨inst, s, [], Status.running⟩).trace =
        a ++ [eos_event] ++ b ++ [eos_event] ++ c →
      restart_event ∈ b) := by
  refine ⟨?_, ?_, ?_⟩
  · intro w
    rcases finish_decode_eos K hw w with ⟨he, es, ht, hq⟩ | ⟨h1, h2, pre, b, ht, hq, hb⟩
    · exact ⟨es, ht, fun hmem => absurd rfl (hq _ hmem).1, fun _ => he⟩
    · refine ⟨_, ht, fun _ => ⟨h1, h2, ?_, b, by simp, hb⟩, fun hn => absurd (by simp) hn⟩
      have hc : List.count eos_event pre = 0 :=
        List.count_eq_zero.mpr (fun hm => (hq _ hm).1 rfl)
      rw [List.count_append, hc]
      simp [List.count_cons, eos_event]
  · intro op w h1 h2
    rcases step_eos_cases K hw op w with hn | ⟨fuel, hop, _⟩ | ⟨_, hf, _⟩
    · rw [hn.1, h1] at h2
      simp at h2
    · exact ⟨fuel, hop⟩
    · rw [h1] at hf
      simp at hf
  · intro ops inst s a b c ht
    have hinv : EosInv (⟨inst, s, [], Status.running⟩ : World σ) :=
      ⟨false, rfl, fun hx => by simp at hx⟩
    obtain ⟨q, hs, _⟩ := hinv.run K hw ops
    exact scan_eos_sound _ false q hs a b c ht

/-- Witness for C9: a CAPTURE buffer is queued and the end of the sequence is
delivered; the CAPTURE queue is stopped (which clears `eos`), another buffer is
queued and the end of the sequence is delivered again.  The two EOS events of
the trace have the `stop_streaming` call between them. -/
theorem C9_eos_signalled_once_until_restart_witness :
    (run Defs.sample Hw.at_end restart_run_ops
        ⟨VpuInstance.opened, (), [], Status.running⟩).trace =
      restart_run_head ++ [eos_event] ++ restart_run_between ++ [eos_event] ++
        [Event.job_finish] ∧
    restart_event ∈ restart_run_between :=
  ⟨by decide,
   (C9_eos_signalled_once_until_restart Defs.sample Hw.at_end).2.2 restart_run_ops
      VpuInstance.opened () restart_run_head restart_run_between [Event.job_finish]
      (by decide)⟩

/-! ## Theorems: completion dispatcher, sentinels and payloads -/

theorem finish_decode_ack_trace (hw : Hw σ) (w : World σ) :
    ∃ es, (finish_decode_ack hw w).trace = w.trace ++ es ∧
      ∀ e ∈ es, ∃ st, e = Event.clear_interrupt_ex st := by
  unfold finish_decode_ack
  split
  · exact ⟨[], by simp, by simp⟩
  · exact ⟨_, rfl, by simp⟩

theorem handle_src_buffer_cases (w : World σ) :
    wave5_handle_src_buffer w = w ∨
    ∃ b rest, w.inst.src_queue = b :: rest ∧ b.consumed = true ∧
      wave5_handle_src_buffer w =
        { w with inst := { w.inst with src_queue := rest, timestamp := b.timestamp },
                 trace := w.trace ++ [Event.src_buf_done b Vb2State.DONE] } := by
  unfold wave5_handle_src_buffer
  split
  · exact Or.inl rfl
  · rename_i b rest hq
    by_cases hc : b.consumed = true
    · exact Or.inr ⟨b, rest, hq, hc, by simp [hc]⟩
    · exact Or.inl (by simp [hc])

theorem finish_decode_deliver_no_display (K : Defs) (out : DecOutputInfo) (w : World σ)
    (hneg : K.DISPLAY_IDX_FLAG_NO_FB < 0)
    (hne : K.DISPLAY_IDX_FLAG_NO_FB ≠ K.DISPLAY_IDX_FLAG_SEQ_END)
    (hdisp : out.index_frame_display = K.DISPLAY_IDX_FLAG_NO_FB) :
    finish_decode_deliver K out w = w := by
  unfold finish_decode_deliver
  have h1 : ¬ out.index_frame_display ≥ 0 := by omega
  have h2 : ¬ (out.index_frame_display = K.DISPLAY_IDX_FLAG_SEQ_END ∧ w.inst.eos = false) := by
    intro h
    exact hne (hdisp ▸ h.1)
  rw [if_neg h1, if_neg h2]

/-- C11: when the display index that `wave5_vpu_dec_finish_decode` obtains is
the "no frame buffer" sentinel (a negative value different from the
end-of-sequence sentinel), the CAPTURE queue, the `eos` flag and the status are
as before and no CAPTURE buffer is completed; an OUTPUT buffer is completed
only when it was at the front of the OUTPUT queue and already marked consumed;
and when the decoded index is the "no frame buffer" sentinel as well (or the
output info could not be obtained) the OUTPUT queue is as before too and no
buffer of either queue is completed. -/
theorem C11_no_display_leaves_capture_queue (K : Defs) (hw : Hw σ) (w : World σ)
    (hneg : K.DISPLAY_IDX_FLAG_NO_FB < 0)
    (hne : K.DISPLAY_IDX_FLAG_NO_FB ≠ K.DISPLAY_IDX_FLAG_SEQ_END)
    (hdisp : (hw.get_output_info (finish_decode_ack hw w).hw).2.2.index_frame_display =
      K.DISPLAY_IDX_FLAG_NO_FB) :
    (wave5_vpu_dec_finish_decode K hw w).inst.dst_queue = w.inst.dst_queue ∧
    (wave5_vpu_dec_finish_decode K hw w).inst.eos = w.inst.eos ∧
    (wave5_vpu_dec_finish_decode K hw w).status = w.status ∧
    ∃ es, (wave5_vpu_dec_finish_decode K hw w).trace = w.trace ++ es ∧
      (∀ b st, Event.dst_buf_done b st ∉ es) ∧
      (∀ b st, Event.src_buf_done b st ∈ es →
        st = Vb2State.DONE ∧ b.consumed = true ∧
        w.inst.src_queue = b :: (wave5_vpu_dec_finish_decode K hw w).inst.src_queue) ∧
      (((hw.get_output_info (finish_decode_ack hw w).hw).2.2.index_frame_decoded =
          K.DECODED_IDX_FLAG_NO_FB ∨
        (hw.get_output_info (finish_decode_ack hw w).hw).2.1 ≠ 0) →
        (wave5_vpu_dec_finish_decode K hw w).inst.src_queue = w.inst.src_queue ∧
        ∀ b st, Event.src_buf_done b st ∉ es) := by
  obtain ⟨hq, _, he, hd, hs⟩ := finish_decode_ack_frame hw w
  obtain ⟨ea, hta, hea⟩ := finish_decode_ack_trace hw w
  have hnd : ∀ b st, Event.dst_buf_done b st ∉ ea := by
    intro b st hm
    obtain ⟨x, hx⟩ := hea _ hm
    cases hx
  have hns : ∀ b st, Event.src_buf_done b st ∉ ea := by
    intro b st hm
    obtain ⟨x, hx⟩ := hea _ hm
    cases hx
  unfold wave5_vpu_dec_finish_decode
  simp only []
  by_cases hret : (hw.get_output_info (finish_decode_ack hw w).hw).2.1 ≠ 0
  · rw [if_pos hret]
    refine ⟨hd, he, hs, ea ++ [Event.get_output_info, Event.job_finish], ?_, ?_, ?_, ?_⟩
    · simp [World.emit, hta]
    · intro b st hm
      simp at hm
      exact hnd b st hm
    · intro b st hm
      simp at hm
      exact absurd hm (hns b st)
    · intro _
      refine ⟨hq, ?_⟩
      intro b st hm
      simp at hm
      exact hns b st hm
  · rw [if_neg hret]
    by_cases hrep : no_frame_reported K (hw.get_output_info (finish_decode_ack hw w).hw).2.2 = true
    · rw [if_pos hrep]
      refine ⟨hd, he, hs, ea ++ [Event.get_output_info], ?_, ?_, ?_, ?_⟩
      · simp [hta]
      · intro b st hm
        simp at hm
        exact hnd b st hm
      · intro b st hm
        simp at hm
        exact absurd hm (hns b st)
      · intro _
        refine ⟨hq, ?_⟩
        intro b st hm
        simp at hm
        exact hns b st hm
    · rw [if_neg hrep, finish_decode_deliver_no_display K _ _ hneg hne hdisp]
      have hdec : ¬ ((hw.get_output_info (finish_decode_ack hw w).hw).2.2.index_frame_decoded =
            K.DECODED_IDX_FLAG_NO_FB ∨
          (hw.get_output_info (finish_decode_ack hw w).hw).2.1 ≠ 0) := by
        intro h
        rcases h with h | h
        · exact hrep (by simp [no_frame_reported, h, hdisp])
        · exact hret h
      rcases handle_src_buffer_cases
          ({ finish_decode_ack hw w with
              hw := (hw.get_output_info (finish_decode_ack hw w).hw).1,
              trace := (finish_decode_ack hw w).trace ++ [Event.get_output_info] } : World σ)
        with h | ⟨b, rest, hbq, hbc, h⟩
      · rw [h]
        refine ⟨hd, he, hs, ea ++ [Event.get_output_info], ?_, ?_, ?_, ?_⟩
        · simp [hta]
        · intro b st hm
          simp at hm
          exact hnd b st hm
        · intro b st hm
          simp at hm
          exact absurd hm (hns b st)
        · intro h1
          exact absurd h1 hdec
      · rw [h]
        refine ⟨hd, he, hs,
          ea ++ [Event.get_output_info, Event.src_buf_done b Vb2State.DONE], ?_, ?_, ?_, ?_⟩
        · simp [hta]
        · intro b1 st hm
          simp at hm
          exact hnd b1 st hm
        · intro b1 st hm
          simp at hm
          rcases hm with hm | ⟨hb, hst⟩
          · exact absurd hm (hns b1 st)
          · subst hb
            subst hst
            refine ⟨rfl, hbc, ?_⟩
            simp only [] at hbq
            rw [← hq, hbq]
        · intro h1
          exact absurd h1 hdec

/-- Witness for C11: a decoded frame and nothing to display, with a consumed
OUTPUT buffer at the front and one CAPTURE buffer queued: the CAPTURE buffer
stays queued and `eos` stays false. -/
theorem C11_no_display_leaves_capture_queue_witness :
    Defs.sample.DISPLAY_IDX_FLAG_NO_FB < 0 ∧
    Defs.sample.DISPLAY_IDX_FLAG_NO_FB ≠ Defs.sample.DISPLAY_IDX_FLAG_SEQ_END ∧
    (wave5_vpu_dec_finish_decode Defs.sample Hw.decoded_only World.decoding).inst.dst_queue =
      [DstBuf.fresh 0] ∧
    (wave5_vpu_dec_finish_decode Defs.sample Hw.decoded_only World.decoding).inst.eos = false :=
  ⟨by decide, by decide,
    (C11_no_display_leaves_capture_queue Defs.sample Hw.decoded_only World.decoding
      (by decide) (by decide) rfl).1,
    (C11_no_display_leaves_capture_queue Defs.sample Hw.decoded_only World.decoding
      (by decide) (by decide) rfl).2.1⟩

theorem toS32_of_nat (n : Nat) (h : n < 2 ^ 31) : toS32 (n : Int) = (n : Int) := by
  unfold toS32
  norm_num at h ⊢
  omega

theorem intToU64_of_nat (n : Nat) (h : n < 2 ^ 64) : intToU64 (n : Int) = n := by
  unfold intToU64
  norm_num at h ⊢
  omega

theorem sub32_eq (a b : Nat) (hba : b ≤ a) (ha : a < 2 ^ 32) : sub32 a b = a - b := by
  unfold sub32 U32
  norm_num at ha ⊢
  omega

theorem tdiv_two (n : Nat) : Int.tdiv (n : Int) 2 = ((n / 2 : Nat) : Int) := by
  rw [Int.tdiv_eq_ediv (by omega) (by decide)]
  norm_cast

theorem payload_one (s h : Nat) (hp : s * h * 3 < 2 ^ 31) :
    intToU64 (Int.tdiv (toS32 (toS32 ((s : Int) * (h : Int)) * 3)) 2) = s * h * 3 / 2 := by
  have h1 : s * h < 2 ^ 31 := by omega
  have e1 : ((s : Int) * (h : Int)) = ((s * h : Nat) : Int) := by push_cast; rfl
  rw [e1, toS32_of_nat _ h1]
  have e2 : ((s * h : Nat) : Int) * 3 = ((s * h * 3 : Nat) : Int) := by push_cast; rfl
  rw [e2, toS32_of_nat _ hp, tdiv_two, intToU64_of_nat]
  have : s * h * 3 / 2 ≤ s * h * 3 := Nat.div_le_self _ _
  omega

theorem payload_luma (s h : Nat) (hp : s * h < 2 ^ 31) :
    intToU64 (toS32 ((s : Int) * (h : Int))) = s * h := by
  have e1 : ((s : Int) * (h : Int)) = ((s * h : Nat) : Int) := by push_cast; rfl
  rw [e1, toS32_of_nat _ hp, intToU64_of_nat]
  omega

theorem payload_chroma_two (s h : Nat) (hp : s * h < 2 ^ 31) :
    intToU64 (toS32 (Int.tdiv (s : Int) 2 * (h : Int))) = s / 2 * h := by
  have h1 : s / 2 * h ≤ s * h := Nat.mul_le_mul_right _ (Nat.div_le_self _ _)
  rw [tdiv_two]
  have e1 : (((s / 2 : Nat) : Int) * (h : Int)) = ((s / 2 * h : Nat) : Int) := by
    push_cast; rfl
  rw [e1, toS32_of_nat _ (by omega), intToU64_of_nat]
  omega

theorem payload_chroma_three (s h : Nat) (hp : s * h < 2 ^ 31) :
    intToU64 (toS32 (Int.tdiv (s : Int) 2 * Int.tdiv (h : Int) 2)) = s / 2 * (h / 2) := by
  have h1 : s / 2 * (h / 2) ≤ s * h :=
    Nat.mul_le_mul (Nat.div_le_self _ _) (Nat.div_le_self _ _)
  rw [tdiv_two, tdiv_two]
  have e1 : (((s / 2 : Nat) : Int) * ((h / 2 : Nat) : Int)) =
      ((s / 2 * (h / 2) : Nat) : Int) := by
    push_cast; rfl
  rw [e1, toS32_of_nat _ (by omega), intToU64_of_nat]
  omega

theorem set_plane_payload_frame (K : Defs) (b : DstBuf) (i n : Nat) :
    (vb2_set_plane_payload K b i n).index = b.index ∧
    (vb2_set_plane_payload K b i n).timestamp = b.timestamp ∧
    (vb2_set_plane_payload K b i n).flag_last = b.flag_last ∧
    (vb2_set_plane_payload K b i n).sequence = b.sequence := by
  unfold vb2_set_plane_payload
  split <;> exact ⟨rfl, rfl, rfl, rfl⟩

/-- The payloads `fill_displayed` sets, in natural-number arithmetic, when the
products fit the signed 32-bit `int` of the source. -/
theorem fill_displayed_payloads (K : Defs) (inst : VpuInstance) (out : DecOutputInfo)
    (dst_buf : DstBuf) (s h : Nat) (hs : out.stride = s) (hs31 : s < 2 ^ 31)
    (hh : h = if out.disp_pic_height = inst.display_fmt.height
      then out.disp_pic_height - out.rc_display_bottom else inst.display_fmt.height)
    (hbot : out.disp_pic_height = inst.display_fmt.height →
      out.rc_display_bottom ≤ out.disp_pic_height)
    (hdph : out.disp_pic_height < 2 ^ 32) (hh31 : h < 2 ^ 31) :
    (fill_displayed K inst out dst_buf).index = dst_buf.index ∧
    (fill_displayed K inst out dst_buf).timestamp = inst.timestamp ∧
    (fill_displayed K inst out dst_buf).field_none = true ∧
    (fill_displayed K inst out dst_buf).flag_last = dst_buf.flag_last ∧
    (inst.dst_fmt.num_planes = 1 → s * h * 3 < 2 ^ 31 →
      (fill_displayed K inst out dst_buf).planes =
        (vb2_set_plane_payload K dst_buf 0 (s * h * 3 / 2)).planes) ∧
    (inst.dst_fmt.num_planes = 2 → s * h < 2 ^ 31 →
      (fill_displayed K inst out dst_buf).planes =
        (vb2_set_plane_payload K (vb2_set_plane_payload K dst_buf 0 (s * h))
          1 (s / 2 * h)).planes) ∧
    (inst.dst_fmt.num_planes = 3 → s * h < 2 ^ 31 →
      (fill_displayed K inst out dst_buf).planes =
        (vb2_set_plane_payload K
          (vb2_set_plane_payload K (vb2_set_plane_payload K dst_buf 0 (s * h))
            1 (s / 2 * (h / 2)))
          2 (s / 2 * (h / 2))).planes) := by
  have hstride : toS32 (out.stride : Int) = (s : Int) := by
    rw [hs]
    exact toS32_of_nat s hs31
  have hheight : (if out.disp_pic_height ≠ inst.display_fmt.height
        then toS32 (inst.display_fmt.height : Int)
        else toS32 ((sub32 out.disp_pic_height out.rc_display_bottom : Nat) : Int)) =
      (h : Int) := by
    by_cases heq : out.disp_pic_height = inst.display_fmt.height
    · rw [if_pos heq] at hh
      rw [if_neg (by simpa using heq), sub32_eq _ _ (hbot heq) hdph, ← hh]
      exact toS32_of_nat h hh31
    · rw [if_neg heq] at hh
      rw [if_pos heq, ← hh]
      exact toS32_of_nat h hh31
  unfold fill_displayed
  simp only [hstride, hheight]
  refine ⟨?_, trivial, trivial, ?_, ?_, ?_, ?_⟩
  · split_ifs <;> simp [(set_plane_payload_frame K _ _ _).1]
  · split_ifs <;> simp [(set_plane_payload_frame K _ _ _).2.2.1]
  · intro hn hp
    simp only [hn, if_true, payload_one s h hp]
  · intro hn hp
    have h1 : ¬ (2 : Nat) = 1 := by decide
    simp only [hn, h1, if_true, if_false, payload_luma s h hp, payload_chroma_two s h hp]
  · intro hn hp
    have h1 : ¬ (3 : Nat) = 1 := by decide
    have h2 : ¬ (3 : Nat) = 2 := by decide
    simp only [hn, h1, h2, if_true, if_false, payload_luma s h hp,
      payload_chroma_three s h hp]

theorem finish_decode_ack_fmts (hw : Hw σ) (w : World σ) :
    (finish_decode_ack hw w).inst.dst_fmt = w.inst.dst_fmt ∧
    (finish_decode_ack hw w).inst.display_fmt = w.inst.display_fmt := by
  unfold finish_decode_ack
  split <;> simp

/-- The world in which `wave5_vpu_dec_finish_decode` looks at the display
index (line 313): the CAPTURE side of the instance is as at entry, and nothing
but the interrupt acknowledgement, the query and at most one OUTPUT completion
has been done. -/
theorem finish_decode_before_deliver (hw : Hw σ) (w : World σ) :
    (wave5_handle_src_buffer
      ({ finish_decode_ack hw w with
          hw := (hw.get_output_info (finish_decode_ack hw w).hw).1,
          trace := (finish_decode_ack hw w).trace ++ [Event.get_output_info] } :
        World σ)).inst.dst_queue = w.inst.dst_queue ∧
    (wave5_handle_src_buffer
      ({ finish_decode_ack hw w with
          hw := (hw.get_output_info (finish_decode_ack hw w).hw).1,
          trace := (finish_decode_ack hw w).trace ++ [Event.get_output_info] } :
        World σ)).inst.dst_fmt = w.inst.dst_fmt ∧
    (wave5_handle_src_buffer
      ({ finish_decode_ack hw w with
          hw := (hw.get_output_info (finish_decode_ack hw w).hw).1,
          trace := (finish_decode_ack hw w).trace ++ [Event.get_output_info] } :
        World σ)).inst.display_fmt = w.inst.display_fmt ∧
    (wave5_handle_src_buffer
      ({ finish_decode_ack hw w with
          hw := (hw.get_output_info (finish_decode_ack hw w).hw).1,
          trace := (finish_decode_ack hw w).trace ++ [Event.get_output_info] } :
        World σ)).inst.eos = w.inst.eos ∧
    (wave5_handle_src_buffer
      ({ finish_decode_ack hw w with
          hw := (hw.get_output_info (finish_decode_ack hw w).hw).1,
          trace := (finish_decode_ack hw w).trace ++ [Event.get_output_info] } :
        World σ)).status = w.status ∧
    ∃ pre, (wave5_handle_src_buffer
      ({ finish_decode_ack hw w with
          hw := (hw.get_output_info (finish_decode_ack hw w).hw).1,
          trace := (finish_decode_ack hw w).trace ++ [Event.get_output_info] } :
        World σ)).trace = w.trace ++ pre ∧
      (∀ b st, Event.dst_buf_done b st ∉ pre) ∧ eos_event ∉ pre ∧ Event.job_finish ∉ pre := by
  obtain ⟨_, _, he, hd, hs⟩ := finish_decode_ack_frame hw w
  obtain ⟨hf1, hf2⟩ := finish_decode_ack_fmts hw w
  obtain ⟨ea, hta, hea⟩ := finish_decode_ack_trace hw w
  have hnd : ∀ b st, Event.dst_buf_done b st ∉ ea := by
    intro b st hm
    obtain ⟨x, hx⟩ := hea _ hm
    cases hx
  have hne : eos_event ∉ ea := by
    intro hm
    obtain ⟨x, hx⟩ := hea _ hm
    cases hx
  have hnj : Event.job_finish ∉ ea := by
    intro hm
    obtain ⟨x, hx⟩ := hea _ hm
    cases hx
  rcases handle_src_buffer_cases
      ({ finish_decode_ack hw w with
          hw := (hw.get_output_info (finish_decode_ack hw w).hw).1,
          trace := (finish_decode_ack hw w).trace ++ [Event.get_output_info] } : World σ)
    with h | ⟨b, rest, _, _, h⟩
  · rw [h]
    refine ⟨hd, hf1, hf2, he, hs, ea ++ [Event.get_output_info], by simp [hta], ?_, ?_, ?_⟩
    · intro b st hm
      simp at hm
      exact hnd b st hm
    · intro hm
      simp [eos_event] at hm
      exact hne hm
    · intro hm
      simp at hm
      exact hnj hm
  · rw [h]
    refine ⟨hd, hf1, hf2, he, hs,
      ea ++ [Event.get_output_info, Event.src_buf_done b Vb2State.DONE], by simp [hta],
      ?_, ?_, ?_⟩
    · intro b st hm
      simp at hm
      exact hnd b st hm
    · intro hm
      simp [eos_event] at hm
      exact hne hm
    · intro hm
      simp at hm
      exact hnj hm

theorem finish_decode_deliver_displayed (K : Defs) (out : DecOutputInfo) (w : World σ)
    (dst_buf : DstBuf) (rest : List DstBuf) (hdisp : 0 ≤ out.index_frame_display)
    (hfind : v4l2_m2m_dst_buf_remove_by_idx w.inst.dst_queue out.index_frame_display.toNat =
      (some dst_buf, rest)) :
    finish_decode_deliver K out w =
      { w with inst := { w.inst with dst_queue := rest },
               trace := w.trace ++
                 [Event.dst_buf_done (fill_displayed K w.inst out dst_buf) Vb2State.DONE] } := by
  unfold finish_decode_deliver
  rw [if_pos hdisp, hfind]

/-- C12: when `wave5_vpu_dec_finish_decode` obtains a record with display index
`>= 0` whose CAPTURE buffer is queued, it completes that buffer with success
and with the payloads set by `vb2_set_plane_payload` to: one plane,
`s * h * 3 / 2`; two planes, `s * h` and `(s / 2) * h`; three planes, `s * h`,
`(s / 2) * (h / 2)` and `(s / 2) * (h / 2)`, where `s` is the reported stride
and `h` is `disp_pic_height - rc_display.bottom` when `disp_pic_height` equals
`display_fmt.height` and `display_fmt.height` otherwise (the products within
the range of the signed 32-bit `int` of the source). -/
theorem C12_displayed_frame_payloads (K : Defs) (hw : Hw σ) (w : World σ)
    (out : DecOutputInfo) (dst_buf : DstBuf) (rest : List DstBuf) (s h : Nat)
    (hneg : K.DISPLAY_IDX_FLAG_NO_FB < 0)
    (hret : (hw.get_output_info (finish_decode_ack hw w).hw).2.1 = 0)
    (hout : (hw.get_output_info (finish_decode_ack hw w).hw).2.2 = out)
    (hdisp : 0 ≤ out.index_frame_display)
    (hfind : v4l2_m2m_dst_buf_remove_by_idx w.inst.dst_queue out.index_frame_display.toNat =
      (some dst_buf, rest))
    (hs : out.stride = s) (hs31 : s < 2 ^ 31)
    (hh : h = if out.disp_pic_height = w.inst.display_fmt.height
      then out.disp_pic_height - out.rc_display_bottom else w.inst.display_fmt.height)
    (hbot : out.disp_pic_height = w.inst.display_fmt.height →
      out.rc_display_bottom ≤ out.disp_pic_height)
    (hdph : out.disp_pic_height < 2 ^ 32) (hh31 : h < 2 ^ 31) :
    (wave5_vpu_dec_finish_decode K hw w).inst.dst_queue = rest ∧
    ∃ pre b, (wave5_vpu_dec_finish_decode K hw w).trace =
        w.trace ++ pre ++ [Event.dst_buf_done b Vb2State.DONE] ∧
      (∀ b1 st, Event.dst_buf_done b1 st ∉ pre) ∧
      b.index = dst_buf.index ∧
      b.timestamp = (wave5_vpu_dec_finish_decode K hw w).inst.timestamp ∧
      b.field_none = true ∧
      (w.inst.dst_fmt.num_planes = 1 → s * h * 3 < 2 ^ 31 →
        b.planes = (vb2_set_plane_payload K dst_buf 0 (s * h * 3 / 2)).planes) ∧
      (w.inst.dst_fmt.num_planes = 2 → s * h < 2 ^ 31 →
        b.planes =
          (vb2_set_plane_payload K (vb2_set_plane_payload K dst_buf 0 (s * h))
            1 (s / 2 * h)).planes) ∧
      (w.inst.dst_fmt.num_planes = 3 → s * h < 2 ^ 31 →
        b.planes =
          (vb2_set_plane_payload K
            (vb2_set_plane_payload K (vb2_set_plane_payload K dst_buf 0 (s * h))
              1 (s / 2 * (h / 2)))
            2 (s / 2 * (h / 2))).planes) := by
  obtain ⟨hq, hf, hdf, _, _, pre, htr, hpre, _, _⟩ := finish_decode_before_deliver hw w
  have hrep : ¬ no_frame_reported K out = true := by
    unfold no_frame_reported
    simp only [decide_eq_true_eq, not_and]
    intro _ h2
    omega
  have hpay := fill_displayed_payloads K
    (wave5_handle_src_buffer
      ({ finish_decode_ack hw w with
          hw := (hw.get_output_info (finish_decode_ack hw w).hw).1,
          trace := (finish_decode_ack hw w).trace ++ [Event.get_output_info] } :
        World σ)).inst out dst_buf s h hs hs31 (by rw [hdf]; exact hh)
    (by rw [hdf]; exact hbot) hdph hh31
  rw [hf] at hpay
  obtain ⟨p1, p2, p3, _, p5, p6, p7⟩ := hpay
  unfold wave5_vpu_dec_finish_decode
  simp only []
  rw [if_neg (by simp [hret]), hout, if_neg hrep,
    finish_decode_deliver_displayed K out _ dst_buf rest hdisp (by rw [hq]; exact hfind)]
  refine ⟨rfl, pre, _, ?_, hpre, p1, p2, p3, p5, p6, p7⟩
  simp only [htr]

/-- Witness for C12: stride 736, height 480 and two planes; the payloads of
the completed buffer are `736 * 480` and `368 * 480`. -/
theorem C12_displayed_frame_payloads_witness :
    (wave5_vpu_dec_finish_decode Defs.sample Hw.displays World.displaying).inst.dst_queue =
      [DstBuf.two_planes 0] ∧
    ∃ pre b, (wave5_vpu_dec_finish_decode Defs.sample Hw.displays World.displaying).trace =
        [] ++ pre ++ [Event.dst_buf_done b Vb2State.DONE] ∧
      b.planes = [⟨353280, 736 * 480, 8192⟩, ⟨176640, 368 * 480, 12288⟩] := by
  obtain ⟨hq, pre, b, htr, _, _, _, _, _, h2, _⟩ :=
    C12_displayed_frame_payloads Defs.sample Hw.displays World.displaying
      ⟨1, 1, 736, 480, 0, false, 0⟩ (DstBuf.two_planes 1) [DstBuf.two_planes 0] 736 480
      (by decide) rfl rfl (by decide) (by decide) rfl (by decide) (by decide)
      (fun _ => Nat.zero_le _) (by decide) (by decide)
  exact ⟨hq, pre, b, htr, (h2 (by decide) (by decide)).trans (by decide)⟩

theorem set_plane_payload_get_ne (K : Defs) (b : DstBuf) (i n j : Nat) (h : j ≠ i) :
    (vb2_set_plane_payload K b i n).planes.get? j = b.planes.get? j := by
  unfold vb2_set_plane_payload
  split
  · rfl
  · simp only [List.get?_eq_getElem?]
    rw [List.getElem?_set_ne (Ne.symm h)]

theorem set_plane_payload_get_eq (K : Defs) (b : DstBuf) (i n : Nat) (pl : Plane)
    (hget : b.planes.get? i = some pl) (hn : n ≤ pl.length) :
    (vb2_set_plane_payload K b i n).planes.get? i = some { pl with bytesused := n } := by
  unfold vb2_set_plane_payload
  rw [hget]
  have hlt : i < b.planes.length := by
    rw [List.get?_eq_getElem?] at hget
    exact (List.getElem?_eq_some_iff.mp hget).1
  have hc : ¬ (K.VB2_PAYLOAD_CLAMPED = true ∧ n > pl.length) := by
    intro h
    omega
  simp only [List.get?_eq_getElem?, if_neg hc]
  rw [List.getElem?_set_self hlt]

theorem fill_last_planes (K : Defs) (inst : VpuInstance) (b : DstBuf)
    (hnp : 1 ≤ inst.dst_fmt.num_planes ∧ inst.dst_fmt.num_planes ≤ 3) (i : Nat) (pl : Plane)
    (hget : b.planes.get? i = some pl) :
    (fill_last K inst b).planes.get? i =
      some (if i < inst.dst_fmt.num_planes then { pl with bytesused := pl.length } else pl) := by
  have hsz : vb2_plane_size b i = pl.length := by
    unfold vb2_plane_size
    rw [hget]
  have hnp3 : inst.dst_fmt.num_planes = 1 ∨ inst.dst_fmt.num_planes = 2 ∨
      inst.dst_fmt.num_planes = 3 := by omega
  unfold fill_last
  rcases hnp3 with h1 | h1 | h1
  · simp only [h1, if_true]
    by_cases hi : i = 0
    · subst hi
      rw [set_plane_payload_get_eq K b 0 _ pl hget (by omega), hsz]
      simp
    · rw [set_plane_payload_get_ne K b 0 _ i hi, hget, if_neg (by omega)]
  · have e1 : ¬ (2 : Nat) = 1 := by decide
    simp only [h1, e1, if_true, if_false]
    by_cases hi : i = 0
    · subst hi
      rw [set_plane_payload_get_ne K _ 1 _ 0 (by decide),
        set_plane_payload_get_eq K b 0 _ pl hget (by omega), hsz]
      simp
    · by_cases hi1 : i = 1
      · subst hi1
        rw [set_plane_payload_get_eq K _ 1 _ pl
          (by rw [set_plane_payload_get_ne K b 0 _ 1 (by decide)]; exact hget) (by omega), hsz]
        simp
      · rw [set_plane_payload_get_ne K _ 1 _ i hi1, set_plane_payload_get_ne K b 0 _ i hi,
          hget, if_neg (by omega)]
  · have e1 : ¬ (3 : Nat) = 1 := by decide
    have e2 : ¬ (3 : Nat) = 2 := by decide
    simp only [h1, e1, e2, if_true, if_false]
    by_cases hi : i = 0
    · subst hi
      rw [set_plane_payload_get_ne K _ 2 _ 0 (by decide),
        set_plane_payload_get_ne K _ 1 _ 0 (by decide),
        set_plane_payload_get_eq K b 0 _ pl hget (by omega), hsz]
      simp
    · by_cases hi1 : i = 1
      · subst hi1
        rw [set_plane_payload_get_ne K _ 2 _ 1 (by decide),
          set_plane_payload_get_eq K _ 1 _ pl
            (by rw [set_plane_payload_get_ne K b 0 _ 1 (by decide)]; exact hget) (by omega),
          hsz]
        simp
      · by_cases hi2 : i = 2
        · subst hi2
          rw [set_plane_payload_get_eq K _ 2 _ pl
            (by rw [set_plane_payload_get_ne K _ 1 _ 2 (by decide),
                  set_plane_payload_get_ne K b 0 _ 2 (by decide)]; exact hget) (by omega),
            hsz]
          simp
        · rw [set_plane_payload_get_ne K _ 2 _ i hi2, set_plane_payload_get_ne K _ 1 _ i hi1,
            set_plane_payload_get_ne K b 0 _ i hi, hget, if_neg (by omega)]

theorem fill_last_frame (K : Defs) (inst : VpuInstance) (b : DstBuf) :
    (fill_last K inst b).index = b.index ∧
    (fill_last K inst b).timestamp = inst.timestamp ∧
    (fill_last K inst b).flag_last = true ∧
    (fill_last K inst b).field_none = true := by
  unfold fill_last
  refine ⟨?_, rfl, rfl, rfl⟩
  split_ifs <;> simp [(set_plane_payload_frame K _ _ _).1]

theorem finish_decode_deliver_seq_end (K : Defs) (out : DecOutputInfo) (w : World σ)
    (dst_buf : DstBuf) (rest : List DstBuf) (hneg : K.DISPLAY_IDX_FLAG_SEQ_END < 0)
    (hdisp : out.index_frame_display = K.DISPLAY_IDX_FLAG_SEQ_END)
    (heos : w.inst.eos = false) (hq : w.inst.dst_queue = dst_buf :: rest) :
    finish_decode_deliver K out w =
      { w with inst := { w.inst with dst_queue := rest, eos := true },
               trace := w.trace ++
                 [Event.dst_buf_done (fill_last K w.inst dst_buf) Vb2State.DONE,
                  Event.event_queue_fh V4l2Event.EOS, Event.job_finish] } := by
  unfold finish_decode_deliver
  have h1 : ¬ out.index_frame_display ≥ 0 := by omega
  rw [if_neg h1, if_pos ⟨hdisp, heos⟩, hq]

/-- C13: when `wave5_vpu_dec_finish_decode` obtains a record whose display
index is the end-of-sequence sentinel (a negative value different from the "no
frame buffer" sentinel), `eos` is false and the CAPTURE queue is `dst_buf ::
rest`, with one to three planes in the CAPTURE format: the front buffer
`dst_buf` is removed, every plane below `dst_fmt.num_planes` that it has gets
its full length as payload and the other planes are untouched, its timestamp
is the instance timestamp, it carries the LAST flag and field "none", and it is
completed with success; this completion, one end-of-stream event and the job
finish are the last three things done, no other CAPTURE completion,
end-of-stream event or job finish precedes them in the call, and `eos` is true
afterwards. -/
theorem C13_sequence_end_completes_front_buffer (K : Defs) (hw : Hw σ) (w : World σ)
    (dst_buf : DstBuf) (rest : List DstBuf)
    (hneg : K.DISPLAY_IDX_FLAG_SEQ_END < 0)
    (hne : K.DISPLAY_IDX_FLAG_SEQ_END ≠ K.DISPLAY_IDX_FLAG_NO_FB)
    (hret : (hw.get_output_info (finish_decode_ack hw w).hw).2.1 = 0)
    (hdisp : (hw.get_output_info (finish_decode_ack hw w).hw).2.2.index_frame_display =
      K.DISPLAY_IDX_FLAG_SEQ_END)
    (heos : w.inst.eos = false) (hq : w.inst.dst_queue = dst_buf :: rest)
    (hnp : 1 ≤ w.inst.dst_fmt.num_planes ∧ w.inst.dst_fmt.num_planes ≤ 3) :
    (wave5_vpu_dec_finish_decode K hw w).inst.dst_queue = rest ∧
    (wave5_vpu_dec_finish_decode K hw w).inst.eos = true ∧
    ∃ pre b, (wave5_vpu_dec_finish_decode K hw w).trace =
        w.trace ++ pre ++ [Event.dst_buf_done b Vb2State.DONE, eos_event, Event.job_finish] ∧
      (∀ b1 st, Event.dst_buf_done b1 st ∉ pre) ∧ eos_event ∉ pre ∧
      Event.job_finish ∉ pre ∧
      b.index = dst_buf.index ∧
      b.timestamp = (wave5_vpu_dec_finish_decode K hw w).inst.timestamp ∧
      b.flag_last = true ∧ b.field_none = true ∧
      ∀ i pl, dst_buf.planes.get? i = some pl →
        b.planes.get? i =
          some (if i < w.inst.dst_fmt.num_planes then { pl with bytesused := pl.length }
            else pl) := by
  obtain ⟨hdq, hf, _, he, _, pre, htr, hpre, hpe, hpj⟩ := finish_decode_before_deliver hw w
  have hrep : ¬ no_frame_reported K (hw.get_output_info (finish_decode_ack hw w).hw).2.2 =
      true := by
    unfold no_frame_reported
    simp only [decide_eq_true_eq, not_and]
    intro _ h2
    exact hne (hdisp ▸ h2)
  obtain ⟨q1, q2, q3, q4⟩ := fill_last_frame K
    (wave5_handle_src_buffer
      ({ finish_decode_ack hw w with
          hw := (hw.get_output_info (finish_decode_ack hw w).hw).1,
          trace := (finish_decode_ack hw w).trace ++ [Event.get_output_info] } :
        World σ)).inst dst_buf
  have hpl := fill_last_planes K
    (wave5_handle_src_buffer
      ({ finish_decode_ack hw w with
          hw := (hw.get_output_info (finish_decode_ack hw w).hw).1,
          trace := (finish_decode_ack hw w).trace ++ [Event.get_output_info] } :
        World σ)).inst dst_buf (by rw [hf]; exact hnp)
  rw [hf] at hpl
  unfold wave5_vpu_dec_finish_decode
  simp only []
  rw [if_neg (by simp [hret]), if_neg hrep,
    finish_decode_deliver_seq_end K _ _ dst_buf rest hneg hdisp (by rw [he]; exact heos)
      (by rw [hdq]; exact hq)]
  refine ⟨rfl, rfl, pre, _, ?_, hpre, hpe, hpj, q1, q2, q3, q4, hpl⟩
  simp only [htr, eos_event]

/-- Witness for C13: the hardware reports the end of the sequence with one
CAPTURE buffer queued; the queue is empty and `eos` is set afterwards. -/
theorem C13_sequence_end_completes_front_buffer_witness :
    (wave5_vpu_dec_finish_decode Defs.sample Hw.at_end World.decoding).inst.dst_queue = [] ∧
    (wave5_vpu_dec_finish_decode Defs.sample Hw.at_end World.decoding).inst.eos = true :=
  ⟨(C13_sequence_end_completes_front_buffer Defs.sample Hw.at_end World.decoding
      (DstBuf.fresh 0) [] (by decide) (by decide) rfl rfl rfl rfl (by decide)).1,
    (C13_sequence_end_completes_front_buffer Defs.sample Hw.at_end World.decoding
      (DstBuf.fresh 0) [] (by decide) (by decide) rfl rfl rfl rfl (by decide)).2.1⟩

/-! ## Theorems: bitstream ring feeder, failures and zero-length chunks -/

/-- When the loop gets past the buffers `pre` and the iteration for `buf`
breaks, the invocation ends there: the later buffers are not visited. -/
theorem handle_bitstream_buffer_stops (hw : Hw σ) (w : World σ) (pre post pq : List SrcBuf)
    (buf buf1 : SrcBuf) (s : σ) (pe es : List Event)
    (hq : w.inst.src_queue = pre ++ buf :: post)
    (hpre : feed_loop hw w.inst.bitstream_vbuf w.hw pre = ⟨pq, s, pe, Ctl.next⟩)
    (hone : (feed_one hw w.inst.bitstream_vbuf s buf).buf = buf1 ∧
      (feed_one hw w.inst.bitstream_vbuf s buf).events = es ∧
      (feed_one hw w.inst.bitstream_vbuf s buf).ctl = Ctl.brk) :
    (wave5_handle_bitstream_buffer hw w).inst.src_queue = pq ++ buf1 :: post ∧
    (wave5_handle_bitstream_buffer hw w).trace = w.trace ++ pe ++ es := by
  have happ := feed_loop_append hw w.inst.bitstream_vbuf pre (buf :: post) w.hw
  rw [hpre] at happ
  simp only [feed_loop, hone.2.2, hone.1, hone.2.1] at happ
  unfold wave5_handle_bitstream_buffer
  simp only [hq, happ]
  exact ⟨trivial, by simp⟩

/-- When the loop gets past the buffers `pre` and the iteration for `buf`
continues, the loop goes on with the later buffers. -/
theorem handle_bitstream_buffer_continues (hw : Hw σ) (w : World σ)
    (pre post pq : List SrcBuf) (buf buf1 : SrcBuf) (s s2 : σ) (pe es : List Event)
    (hq : w.inst.src_queue = pre ++ buf :: post)
    (hpre : feed_loop hw w.inst.bitstream_vbuf w.hw pre = ⟨pq, s, pe, Ctl.next⟩)
    (hone : feed_one hw w.inst.bitstream_vbuf s buf = ⟨buf1, s2, es, Ctl.next⟩) :
    (wave5_handle_bitstream_buffer hw w).inst.src_queue =
      pq ++ buf1 :: (feed_loop hw w.inst.bitstream_vbuf s2 post).queue ∧
    (wave5_handle_bitstream_buffer hw w).trace =
      w.trace ++ pe ++ es ++ (feed_loop hw w.inst.bitstream_vbuf s2 post).events := by
  have happ := feed_loop_append hw w.inst.bitstream_vbuf pre (buf :: post) w.hw
  rw [hpre] at happ
  simp only [feed_loop, hone] at happ
  unfold wave5_handle_bitstream_buffer
  simp only [hq, happ]
  exact ⟨trivial, by simp⟩

/-- C14: in `wave5_handle_bitstream_buffer`, when the loop has got past the
buffers `pre` and reaches the unconsumed buffer `buf` (mapped, pointer query
succeeded, the chunk fits the reported remaining size): if the single DMA
write, the first half or the second half of a split write returns a negative
value, or the update-bitstream command returns non-zero, the buffer `buf` is
left in the queue unchanged (so `consumed` is still false), the later buffers
`post` are left unchanged, and the failed command is the last thing the
invocation does; in particular no update-bitstream command follows a failed
write. -/
theorem C14_failed_command_ends_feeding (hw : Hw σ) (w : World σ)
    (pre post pq : List SrcBuf) (buf : SrcBuf) (s s1 : σ) (pe : List Event) (bs : BsInfo)
    (hq : w.inst.src_queue = pre ++ buf :: post)
    (hpre : feed_loop hw w.inst.bitstream_vbuf w.hw pre = ⟨pq, s, pe, Ctl.next⟩)
    (hcons : buf.consumed = false) (hv : buf.vaddr = true)
    (hbs : hw.get_bitstream_buffer s = (s1, bs)) (hret : bs.ret = 0)
    (hfit : src_size buf ≤ bs.remain_size) :
    (passes_ring_end w.inst.bitstream_vbuf bs.wr_ptr (src_size buf) = false →
      (hw.write_memory s1 (ring_offset w.inst.bitstream_vbuf bs.wr_ptr) 0
        (src_size buf)).2 < 0 →
      (wave5_handle_bitstream_buffer hw w).inst.src_queue = pq ++ buf :: post ∧
      (wave5_handle_bitstream_buffer hw w).trace = w.trace ++ pe ++
        [Event.get_bitstream_buffer,
          Event.write_memory (ring_offset w.inst.bitstream_vbuf bs.wr_ptr) 0
            (src_size buf)]) ∧
    (passes_ring_end w.inst.bitstream_vbuf bs.wr_ptr (src_size buf) = true →
      (hw.write_memory s1 (ring_offset w.inst.bitstream_vbuf bs.wr_ptr) 0
        (bytes_to_ring_end w.inst.bitstream_vbuf bs.wr_ptr)).2 < 0 →
      (wave5_handle_bitstream_buffer hw w).inst.src_queue = pq ++ buf :: post ∧
      (wave5_handle_bitstream_buffer hw w).trace = w.trace ++ pe ++
        [Event.get_bitstream_buffer,
          Event.write_memory (ring_offset w.inst.bitstream_vbuf bs.wr_ptr) 0
            (bytes_to_ring_end w.inst.bitstream_vbuf bs.wr_ptr)]) ∧
    (passes_ring_end w.inst.bitstream_vbuf bs.wr_ptr (src_size buf) = true →
      0 ≤ (hw.write_memory s1 (ring_offset w.inst.bitstream_vbuf bs.wr_ptr) 0
        (bytes_to_ring_end w.inst.bitstream_vbuf bs.wr_ptr)).2 →
      (hw.write_memory
        (hw.write_memory s1 (ring_offset w.inst.bitstream_vbuf bs.wr_ptr) 0
          (bytes_to_ring_end w.inst.bitstream_vbuf bs.wr_ptr)).1
        0 (bytes_to_ring_end w.inst.bitstream_vbuf bs.wr_ptr)
        (sub64 (src_size buf) (bytes_to_ring_end w.inst.bitstream_vbuf bs.wr_ptr))).2 < 0 →
      (wave5_handle_bitstream_buffer hw w).inst.src_queue = pq ++ buf :: post ∧
      (wave5_handle_bitstream_buffer hw w).trace = w.trace ++ pe ++
        [Event.get_bitstream_buffer,
          Event.write_memory (ring_offset w.inst.bitstream_vbuf bs.wr_ptr) 0
            (bytes_to_ring_end w.inst.bitstream_vbuf bs.wr_ptr),
          Event.write_memory 0 (bytes_to_ring_end w.inst.bitstream_vbuf bs.wr_ptr)
            (sub64 (src_size buf) (bytes_to_ring_end w.inst.bitstream_vbuf bs.wr_ptr))]) ∧
    (passes_ring_end w.inst.bitstream_vbuf bs.wr_ptr (src_size buf) = false →
      0 ≤ (hw.write_memory s1 (ring_offset w.inst.bitstream_vbuf bs.wr_ptr) 0
        (src_size buf)).2 →
      (hw.update_bitstream_buffer
        (hw.write_memory s1 (ring_offset w.inst.bitstream_vbuf bs.wr_ptr) 0
          (src_size buf)).1 (src_size buf)).2 ≠ 0 →
      (wave5_handle_bitstream_buffer hw w).inst.src_queue = pq ++ buf :: post ∧
      (wave5_handle_bitstream_buffer hw w).trace = w.trace ++ pe ++
        [Event.get_bitstream_buffer,
          Event.write_memory (ring_offset w.inst.bitstream_vbuf bs.wr_ptr) 0 (src_size buf),
          Event.update_bitstream_buffer (src_size buf)]) ∧
    (passes_ring_end w.inst.bitstream_vbuf bs.wr_ptr (src_size buf) = true →
      0 ≤ (hw.write_memory s1 (ring_offset w.inst.bitstream_vbuf bs.wr_ptr) 0
        (bytes_to_ring_end w.inst.bitstream_vbuf bs.wr_ptr)).2 →
      0 ≤ (hw.write_memory
        (hw.write_memory s1 (ring_offset w.inst.bitstream_vbuf bs.wr_ptr) 0
          (bytes_to_ring_end w.inst.bitstream_vbuf bs.wr_ptr)).1
        0 (bytes_to_ring_end w.inst.bitstream_vbuf bs.wr_ptr)
        (sub64 (src_size buf) (bytes_to_ring_end w.inst.bitstream_vbuf bs.wr_ptr))).2 →
      (hw.update_bitstream_buffer
        (hw.write_memory
          (hw.write_memory s1 (ring_offset w.inst.bitstream_vbuf bs.wr_ptr) 0
            (bytes_to_ring_end w.inst.bitstream_vbuf bs.wr_ptr)).1
          0 (bytes_to_ring_end w.inst.bitstream_vbuf bs.wr_ptr)
          (sub64 (src_size buf) (bytes_to_ring_end w.inst.bitstream_vbuf bs.wr_ptr))).1
        (src_size buf)).2 ≠ 0 →
      (wave5_handle_bitstream_buffer hw w).inst.src_queue = pq ++ buf :: post ∧
      (wave5_handle_bitstream_buffer hw w).trace = w.trace ++ pe ++
        [Event.get_bitstream_buffer,
          Event.write_memory (ring_offset w.inst.bitstream_vbuf bs.wr_ptr) 0
            (bytes_to_ring_end w.inst.bitstream_vbuf bs.wr_ptr),
          Event.write_memory 0 (bytes_to_ring_end w.inst.bitstream_vbuf bs.wr_ptr)
            (sub64 (src_size buf) (bytes_to_ring_end w.inst.bitstream_vbuf bs.wr_ptr)),
          Event.update_bitstream_buffer (src_size buf)]) := by
  have hnf : ¬ bs.remain_size < src_size buf := by omega
  refine ⟨?_, ?_, ?_, ?_, ?_⟩
  · intro hp hw1
    have hp1 : ¬ add64 bs.wr_ptr (src_size buf) >
        add64 w.inst.bitstream_vbuf.daddr w.inst.bitstream_vbuf.size := by
      simpa [passes_ring_end] using hp
    unfold ring_offset at hw1 ⊢
    refine handle_bitstream_buffer_stops hw w pre post pq buf buf s pe _ hq hpre ?_
    unfold feed_one
    simp only [hcons, hv, hbs, hret, hnf, hp1, hw1]
    simp
  · intro hp hw1
    have hp1 : add64 bs.wr_ptr (src_size buf) >
        add64 w.inst.bitstream_vbuf.daddr w.inst.bitstream_vbuf.size := by
      simpa [passes_ring_end] using hp
    unfold ring_offset bytes_to_ring_end at hw1 ⊢
    refine handle_bitstream_buffer_stops hw w pre post pq buf buf s pe _ hq hpre ?_
    unfold feed_one
    simp only [hcons, hv, hbs, hret, hnf, hp1, hw1]
    simp
  · intro hp hw1 hw2
    have hp1 : add64 bs.wr_ptr (src_size buf) >
        add64 w.inst.bitstream_vbuf.daddr w.inst.bitstream_vbuf.size := by
      simpa [passes_ring_end] using hp
    unfold ring_offset bytes_to_ring_end at hw1 hw2 ⊢
    have hw1n := not_lt.mpr hw1
    refine handle_bitstream_buffer_stops hw w pre post pq buf buf s pe _ hq hpre ?_
    unfold feed_one
    simp only [hcons, hv, hbs, hret, hnf, hp1, hw1n, hw2]
    simp
  · intro hp hw1 hu
    have hp1 : ¬ add64 bs.wr_ptr (src_size buf) >
        add64 w.inst.bitstream_vbuf.daddr w.inst.bitstream_vbuf.size := by
      simpa [passes_ring_end] using hp
    unfold ring_offset at hw1 hu ⊢
    have hw1n := not_lt.mpr hw1
    refine handle_bitstream_buffer_stops hw w pre post pq buf buf s pe _ hq hpre ?_
    unfold feed_one
    simp only [hcons, hv, hbs, hret, hnf, hp1, hw1n, hu]
    simp [hu]
  · intro hp hw1 hw2 hu
    have hp1 : add64 bs.wr_ptr (src_size buf) >
        add64 w.inst.bitstream_vbuf.daddr w.inst.bitstream_vbuf.size := by
      simpa [passes_ring_end] using hp
    unfold ring_offset bytes_to_ring_end at hw1 hw2 hu ⊢
    have hw1n := not_lt.mpr hw1
    have hw2n := not_lt.mpr hw2
    refine handle_bitstream_buffer_stops hw w pre post pq buf buf s pe _ hq hpre ?_
    unfold feed_one
    simp only [hcons, hv, hbs, hret, hnf, hp1, hw1n, hw2n, hu]
    simp [hu]

/-- Witness for C14: the DMA write of a 50-byte chunk fails; the buffer and the
one behind it stay as they were and the write is the last command issued. -/
theorem C14_failed_command_ends_feeding_witness :
    (wave5_handle_bitstream_buffer Hw.write_fails
      (World.feeding (SrcBuf.fresh 1 50 100 7))).inst.src_queue =
      [{ SrcBuf.fresh 0 5 100 6 with consumed := true }, SrcBuf.fresh 1 50 100 7,
        SrcBuf.fresh 2 3 100 8] ∧
    (wave5_handle_bitstream_buffer Hw.write_fails
      (World.feeding (SrcBuf.fresh 1 50 100 7))).trace =
      [Event.get_bitstream_buffer, Event.write_memory 100 0 50] :=
  (C14_failed_command_ends_feeding Hw.write_fails (World.feeding (SrcBuf.fresh 1 50 100 7))
    [{ SrcBuf.fresh 0 5 100 6 with consumed := true }] [SrcBuf.fresh 2 3 100 8]
    [{ SrcBuf.fresh 0 5 100 6 with consumed := true }] (SrcBuf.fresh 1 50 100 7) () () []
    ⟨0, 0, 100, 1000⟩ rfl rfl rfl rfl rfl rfl (by decide)).1 (by decide) (by decide)

/-- C15: in `wave5_handle_bitstream_buffer`, when the loop has got past the
buffers `pre` and reaches an unconsumed, mapped buffer `buf` whose payload size
equals the size of its plane 0 (pointer query succeeded, write pointer inside
a ring that does not wrap the address space), whatever remaining size the
hardware reports: the chunk size is 0 and the commands issued for the buffer
copy no byte; when the zero-length write does not fail, the update-bitstream
command is issued with length 0 right after it; when that command succeeds the
buffer is marked consumed and the loop goes on with the later buffers, and
when it fails the buffer and the later buffers are left unchanged. -/
theorem C15_full_plane_payload_fed_as_empty_chunk (hw : Hw σ) (w : World σ)
    (pre post pq : List SrcBuf) (buf : SrcBuf) (s s1 : σ) (pe : List Event) (bs : BsInfo)
    (hq : w.inst.src_queue = pre ++ buf :: post)
    (hpre : feed_loop hw w.inst.bitstream_vbuf w.hw pre = ⟨pq, s, pe, Ctl.next⟩)
    (hcons : buf.consumed = false) (hv : buf.vaddr = true)
    (hfull : buf.payload = buf.plane_size)
    (hbs : hw.get_bitstream_buffer s = (s1, bs)) (hret : bs.ret = 0)
    (hend : bs.wr_ptr ≤ w.inst.bitstream_vbuf.daddr + w.inst.bitstream_vbuf.size)
    (hring : w.inst.bitstream_vbuf.daddr + w.inst.bitstream_vbuf.size < U64) :
    src_size buf = 0 ∧
    written_bytes (feed_one hw w.inst.bitstream_vbuf s buf).events = 0 ∧
    (0 ≤ (hw.write_memory s1 (ring_offset w.inst.bitstream_vbuf bs.wr_ptr) 0 0).2 →
      (hw.update_bitstream_buffer
        (hw.write_memory s1 (ring_offset w.inst.bitstream_vbuf bs.wr_ptr) 0 0).1 0).2 = 0 →
      (wave5_handle_bitstream_buffer hw w).inst.src_queue =
        pq ++ { buf with consumed := true } ::
          (feed_loop hw w.inst.bitstream_vbuf
            (hw.update_bitstream_buffer
              (hw.write_memory s1 (ring_offset w.inst.bitstream_vbuf bs.wr_ptr) 0 0).1 0).1
            post).queue ∧
      (wave5_handle_bitstream_buffer hw w).trace =
        w.trace ++ pe ++
          [Event.get_bitstream_buffer,
            Event.write_memory (ring_offset w.inst.bitstream_vbuf bs.wr_ptr) 0 0,
            Event.update_bitstream_buffer 0] ++
          (feed_loop hw w.inst.bitstream_vbuf
            (hw.update_bitstream_buffer
              (hw.write_memory s1 (ring_offset w.inst.bitstream_vbuf bs.wr_ptr) 0 0).1 0).1
            post).events) ∧
    (0 ≤ (hw.write_memory s1 (ring_offset w.inst.bitstream_vbuf bs.wr_ptr) 0 0).2 →
      (hw.update_bitstream_buffer
        (hw.write_memory s1 (ring_offset w.inst.bitstream_vbuf bs.wr_ptr) 0 0).1 0).2 ≠ 0 →
      (wave5_handle_bitstream_buffer hw w).inst.src_queue = pq ++ buf :: post ∧
      (wave5_handle_bitstream_buffer hw w).trace =
        w.trace ++ pe ++
          [Event.get_bitstream_buffer,
            Event.write_memory (ring_offset w.inst.bitstream_vbuf bs.wr_ptr) 0 0,
            Event.update_bitstream_buffer 0]) := by
  have hn : src_size buf = 0 := by
    unfold src_size
    rw [if_pos hfull]
  have hnf : ¬ bs.remain_size < 0 := Nat.not_lt_zero _
  have hp1 : ¬ add64 bs.wr_ptr 0 >
      add64 w.inst.bitstream_vbuf.daddr w.inst.bitstream_vbuf.size := by
    unfold add64
    rw [Nat.add_zero, Nat.mod_eq_of_lt (by omega), Nat.mod_eq_of_lt hring]
    omega
  refine ⟨hn, ?_, ?_, ?_⟩
  · unfold feed_one
    simp only [hcons, hv, hbs, hret, hn, hnf, hp1]
    simp only [Bool.false_eq_true, if_false, Bool.not_true, ne_eq, not_true_eq_false]
    split_ifs <;> simp [written_bytes]
  · intro hw1 hu
    unfold ring_offset at hw1 hu ⊢
    have hw1n := not_lt.mpr hw1
    refine handle_bitstream_buffer_continues hw w pre post pq buf _ s _ pe _ hq hpre ?_
    unfold feed_one
    simp only [hcons, hv, hbs, hret, hn, hnf, hp1, hw1n, hu]
    simp
  · intro hw1 hu
    unfold ring_offset at hw1 hu ⊢
    have hw1n := not_lt.mpr hw1
    refine handle_bitstream_buffer_stops hw w pre post pq buf buf s pe _ hq hpre ?_
    unfold feed_one
    simp only [hcons, hv, hbs, hret, hn, hnf, hp1, hw1n, hu]
    simp [hu]

/-- Witness for C15: a buffer whose payload of 4096 bytes fills its plane is fed
although the ring reports 10 free bytes: a write and an update of length 0, the
buffer is consumed and the loop goes on to the next buffer. -/
theorem C15_full_plane_payload_fed_as_empty_chunk_witness :
    src_size (SrcBuf.fresh 1 4096 4096 7) = 0 ∧
    (wave5_handle_bitstream_buffer Hw.nearly_full
      (World.feeding (SrcBuf.fresh 1 4096 4096 7))).inst.src_queue =
      [{ SrcBuf.fresh 0 5 100 6 with consumed := true },
        { SrcBuf.fresh 1 4096 4096 7 with consumed := true },
        { SrcBuf.fresh 2 3 100 8 with consumed := true }] ∧
    (wave5_handle_bitstream_buffer Hw.nearly_full
      (World.feeding (SrcBuf.fresh 1 4096 4096 7))).trace =
      [Event.get_bitstream_buffer, Event.write_memory 100 0 0,
        Event.update_bitstream_buffer 0, Event.get_bitstream_buffer,
        Event.write_memory 100 0 3, Event.update_bitstream_buffer 3] :=
  ⟨(C15_full_plane_payload_fed_as_empty_chunk Hw.nearly_full
      (World.feeding (SrcBuf.fresh 1 4096 4096 7))
      [{ SrcBuf.fresh 0 5 100 6 with consumed := true }] [SrcBuf.fresh 2 3 100 8]
      [{ SrcBuf.fresh 0 5 100 6 with consumed := true }] (SrcBuf.fresh 1 4096 4096 7) () () []
      ⟨0, 0, 100, 10⟩ rfl rfl rfl rfl rfl rfl rfl (by decide) (by decide)).1,
    (C15_full_plane_payload_fed_as_empty_chunk Hw.nearly_full
      (World.feeding (SrcBuf.fresh 1 4096 4096 7))
      [{ SrcBuf.fresh 0 5 100 6 with consumed := true }] [SrcBuf.fresh 2 3 100 8]
      [{ SrcBuf.fresh 0 5 100 6 with consumed := true }] (SrcBuf.fresh 1 4096 4096 7) () () []
      ⟨0, 0, 100, 10⟩ rfl rfl rfl rfl rfl rfl rfl (by decide)
      (by decide)).2.2.1 (by decide) rfl⟩

/-! ## Theorems: queue setup -/

/-- The body of `wave5_vpu_dec_queue_setup` for the OUTPUT queue in state `NONE`,
when the caller's planes are not rejected, is the ring allocation and open. -/
theorem queue_setup_output_none (K : Defs) (hw : Hw σ) (args : QueueSetupArgs) (w : World σ)
    (hst : w.inst.state = VpuInstState.NONE)
    (hok : ¬ (args.num_planes ≠ 0 ∧ queue_setup_rejects w.inst.src_fmt args = true)) :
    (wave5_vpu_dec_queue_setup K hw QueueType.OUTPUT_MPLANE args w).1 =
      (queue_setup_open hw w).1 ∧
    (wave5_vpu_dec_queue_setup K hw QueueType.OUTPUT_MPLANE args w).2.1 =
      (queue_setup_open hw w).2 := by
  unfold wave5_vpu_dec_queue_setup
  simp only [if_true]
  rw [if_neg hok]
  unfold queue_setup_by_state
  simp [hst]

theorem align_1024_times_4 (x : Nat) (h1 : x + 1023 < U32) (h2 : ALIGN x 1024 * 4 < U32) :
    mul32 (ALIGN x 1024) 4 = ALIGN x 1024 * 4 ∧
    mul32 (ALIGN x 1024) 4 % 4096 = 0 ∧ 4 * x ≤ mul32 (ALIGN x 1024) 4 := by
  have e : mul32 (ALIGN x 1024) 4 = ALIGN x 1024 * 4 := by
    unfold mul32
    exact Nat.mod_eq_of_lt h2
  rw [e]
  unfold ALIGN at h2 ⊢
  unfold U32 at h1 h2 ⊢
  norm_num at h1 h2 ⊢
  omega

/-- C16: `wave5_vpu_dec_queue_setup` on the OUTPUT queue in state `NONE` (the
caller's planes not rejected) first requests a DMA region of exactly
`ALIGN(src_fmt.plane_fmt[0].sizeimage, 1024) * 4` bytes in 32-bit arithmetic,
the only allocation of the call; absent 32-bit overflow that size is a
multiple of 4096 and at least four times the source plane size; the open
command, when issued, gets the address and size of the region descriptor as
the allocation left it, and it is issued when the allocation and the codec
resolution succeed; and the state on return is `OPEN` (and the return value 0)
exactly when the allocation, the codec resolution and the open command all
succeed. -/
theorem C16_ring_allocated_and_opened (K : Defs) (hw : Hw σ) (args : QueueSetupArgs)
    (w : World σ) (size : Nat) (s1 : σ) (ret : Int) (region : VpuBuf)
    (hst : w.inst.state = VpuInstState.NONE)
    (hok : ¬ (args.num_planes ≠ 0 ∧ queue_setup_rejects w.inst.src_fmt args = true))
    (hsize : size = mul32 (ALIGN (w.inst.src_fmt.plane_fmt 0).sizeimage 1024) 4)
    (halloc : hw.allocate_dma_memory w.hw { w.inst.bitstream_vbuf with size := size } =
      (s1, ret, region)) :
    ((w.inst.src_fmt.plane_fmt 0).sizeimage + 1023 < U32 →
      ALIGN (w.inst.src_fmt.plane_fmt 0).sizeimage 1024 * 4 < U32 →
      size = ALIGN (w.inst.src_fmt.plane_fmt 0).sizeimage 1024 * 4 ∧
      size % 4096 = 0 ∧ 4 * (w.inst.src_fmt.plane_fmt 0).sizeimage ≤ size) ∧
    (∃ tail, (wave5_vpu_dec_queue_setup K hw QueueType.OUTPUT_MPLANE args w).1.trace =
        w.trace ++ Event.allocate_dma_memory size :: tail ∧
      (∀ n, Event.allocate_dma_memory n ∉ tail) ∧
      (∀ a b, Event.dec_open a b ∈ tail → a = region.daddr ∧ b = region.size) ∧
      (ret = 0 → wave5_to_vpu_codstd w.inst.src_fmt.pixelformat ≠ WaveStd.STD_UNKNOWN →
        Event.dec_open region.daddr region.size ∈ tail)) ∧
    ((wave5_vpu_dec_queue_setup K hw QueueType.OUTPUT_MPLANE args w).1.inst.state =
        VpuInstState.OPEN ↔
      ret = 0 ∧ wave5_to_vpu_codstd w.inst.src_fmt.pixelformat ≠ WaveStd.STD_UNKNOWN ∧
        (hw.dec_open s1 region.daddr region.size).2 = 0) ∧
    ((wave5_vpu_dec_queue_setup K hw QueueType.OUTPUT_MPLANE args w).2.1 = 0 ↔
      ret = 0 ∧ wave5_to_vpu_codstd w.inst.src_fmt.pixelformat ≠ WaveStd.STD_UNKNOWN ∧
        (hw.dec_open s1 region.daddr region.size).2 = 0) := by
  obtain ⟨h1, h2⟩ := queue_setup_output_none K hw args w hst hok
  rw [h1, h2]
  have hE : (-EINVAL : Int) ≠ 0 := by decide
  refine ⟨?_, ?_⟩
  · intro ha hb
    rw [hsize]
    exact align_1024_times_4 _ ha hb
  · unfold queue_setup_open
    simp only [← hsize, halloc]
    by_cases hr : ret = 0
    · by_cases hstd : wave5_to_vpu_codstd w.inst.src_fmt.pixelformat = WaveStd.STD_UNKNOWN
      · simp [hr, hstd, free_bitstream_vbuf, hst, hE]
      · by_cases ho : (hw.dec_open s1 region.daddr region.size).2 = 0
        · by_cases ht : w.inst.thumbnail_mode = true
          · simp [hr, hstd, ho, ht]
          · simp [hr, hstd, ho, ht]
        · simp [hr, hstd, ho, free_bitstream_vbuf, hst]
    · simp [hr, hst]

/-- Witness for C16: the default HEVC source format has a plane of 345600
bytes; the ring has 1384448 bytes, a multiple of 4096, and with every command
succeeding the state on return is `OPEN`. -/
theorem C16_ring_allocated_and_opened_witness :
    (1384448 = ALIGN (VpuInstance.opened.src_fmt.plane_fmt 0).sizeimage 1024 * 4 ∧
      1384448 % 4096 = 0 ∧ 4 * (VpuInstance.opened.src_fmt.plane_fmt 0).sizeimage ≤ 1384448) ∧
    (wave5_vpu_dec_queue_setup Defs.sample Hw.allocating QueueType.OUTPUT_MPLANE
      (QueueSetupArgs.request 4) (World.start VpuInstance.opened)).1.inst.state =
      VpuInstState.OPEN :=
  ⟨(C16_ring_allocated_and_opened Defs.sample Hw.allocating (QueueSetupArgs.request 4)
      (World.start VpuInstance.opened) 1384448 () 0 ⟨65536, 1384448⟩ rfl (by decide)
      (by decide) rfl).1 (by decide) (by decide),
    (C16_ring_allocated_and_opened Defs.sample Hw.allocating (QueueSetupArgs.request 4)
      (World.start VpuInstance.opened) 1384448 () 0 ⟨65536, 1384448⟩ rfl (by decide)
      (by decide) rfl).2.2.1.mpr ⟨rfl, by decide, rfl⟩⟩

/-- C17: `wave5_vpu_dec_queue_setup` on the OUTPUT queue in state `NONE` either
succeeds (returns 0 in state `OPEN`) or returns a non-zero value with the state
still `NONE`.  When the ring was allocated and the source pixel format is
neither H264 nor HEVC, it returns `-EINVAL`, and all it does is the allocation
and one release of the region the allocation left: no open command.  When the
open command fails, its error is returned and the region is released once,
right after the open command. -/
theorem C17_failed_open_keeps_state_and_frees_ring (K : Defs) (hw : Hw σ)
    (args : QueueSetupArgs) (w : World σ) (size : Nat) (s1 : σ) (ret : Int) (region : VpuBuf)
    (hst : w.inst.state = VpuInstState.NONE)
    (hsize : size = mul32 (ALIGN (w.inst.src_fmt.plane_fmt 0).sizeimage 1024) 4)
    (halloc : hw.allocate_dma_memory w.hw { w.inst.bitstream_vbuf with size := size } =
      (s1, ret, region)) :
    (((wave5_vpu_dec_queue_setup K hw QueueType.OUTPUT_MPLANE args w).2.1 = 0 ∧
        (wave5_vpu_dec_queue_setup K hw QueueType.OUTPUT_MPLANE args w).1.inst.state =
          VpuInstState.OPEN) ∨
      ((wave5_vpu_dec_queue_setup K hw QueueType.OUTPUT_MPLANE args w).2.1 ≠ 0 ∧
        (wave5_vpu_dec_queue_setup K hw QueueType.OUTPUT_MPLANE args w).1.inst.state =
          VpuInstState.NONE)) ∧
    (¬ (args.num_planes ≠ 0 ∧ queue_setup_rejects w.inst.src_fmt args = true) → ret = 0 →
      wave5_to_vpu_codstd w.inst.src_fmt.pixelformat = WaveStd.STD_UNKNOWN →
      (wave5_vpu_dec_queue_setup K hw QueueType.OUTPUT_MPLANE args w).2.1 = -EINVAL ∧
      (wave5_vpu_dec_queue_setup K hw QueueType.OUTPUT_MPLANE args w).1.trace =
        w.trace ++ [Event.allocate_dma_memory size, Event.free_dma_memory region]) ∧
    (¬ (args.num_planes ≠ 0 ∧ queue_setup_rejects w.inst.src_fmt args = true) → ret = 0 →
      wave5_to_vpu_codstd w.inst.src_fmt.pixelformat ≠ WaveStd.STD_UNKNOWN →
      (hw.dec_open s1 region.daddr region.size).2 ≠ 0 →
      (wave5_vpu_dec_queue_setup K hw QueueType.OUTPUT_MPLANE args w).2.1 =
        (hw.dec_open s1 region.daddr region.size).2 ∧
      (wave5_vpu_dec_queue_setup K hw QueueType.OUTPUT_MPLANE args w).1.trace =
        w.trace ++ [Event.allocate_dma_memory size,
          Event.dec_open region.daddr region.size, Event.free_dma_memory region]) := by
  have hE : (-EINVAL : Int) ≠ 0 := by decide
  refine ⟨?_, ?_, ?_⟩
  · by_cases hok : ¬ (args.num_planes ≠ 0 ∧ queue_setup_rejects w.inst.src_fmt args = true)
    · obtain ⟨h1, h2⟩ := queue_setup_output_none K hw args w hst hok
      rw [h1, h2]
      unfold queue_setup_open
      simp only [← hsize, halloc]
      by_cases hr : ret = 0
      · by_cases hstd : wave5_to_vpu_codstd w.inst.src_fmt.pixelformat = WaveStd.STD_UNKNOWN
        · simp [hr, hstd, free_bitstream_vbuf, hst, hE]
        · by_cases ho : (hw.dec_open s1 region.daddr region.size).2 = 0
          · by_cases ht : w.inst.thumbnail_mode = true
            · simp [hr, hstd, ho, ht]
            · simp [hr, hstd, ho, ht]
          · simp [hr, hstd, ho, free_bitstream_vbuf, hst]
      · simp [hr, hst]
    · have hrej : args.num_planes ≠ 0 ∧ queue_setup_rejects w.inst.src_fmt args = true :=
        not_not.mp hok
      unfold wave5_vpu_dec_queue_setup
      simp only [if_true]
      rw [if_pos hrej]
      exact Or.inr ⟨hE, hst⟩
  · intro hok hr hstd
    obtain ⟨h1, h2⟩ := queue_setup_output_none K hw args w hst hok
    rw [h1, h2]
    unfold queue_setup_open
    simp only [← hsize, halloc]
    simp [hr, hstd, free_bitstream_vbuf]
  · intro hok hr hstd ho
    obtain ⟨h1, h2⟩ := queue_setup_output_none K hw args w hst hok
    rw [h1, h2]
    unfold queue_setup_open
    simp only [← hsize, halloc]
    simp [hr, hstd, ho, free_bitstream_vbuf]

/-- Witness for C17: the open command fails with `-EIO`; that error is
returned and the ring is released once, after the open command. -/
theorem C17_failed_open_keeps_state_and_frees_ring_witness :
    (wave5_vpu_dec_queue_setup Defs.sample Hw.open_fails QueueType.OUTPUT_MPLANE
      (QueueSetupArgs.request 4) (World.start VpuInstance.opened)).2.1 = -5 ∧
    (wave5_vpu_dec_queue_setup Defs.sample Hw.open_fails QueueType.OUTPUT_MPLANE
      (QueueSetupArgs.request 4) (World.start VpuInstance.opened)).1.trace =
      [Event.allocate_dma_memory 1384448, Event.dec_open 65536 1384448,
        Event.free_dma_memory ⟨65536, 1384448⟩] :=
  (C17_failed_open_keeps_state_and_frees_ring Defs.sample Hw.open_fails
    (QueueSetupArgs.request 4) (World.start VpuInstance.opened) 1384448 () 0
    ⟨65536, 1384448⟩ rfl (by decide) rfl).2.2 (by decide) rfl (by decide) (by decide)

/-- The allocation loop changes nothing of the instance but the regions and
descriptors of the indices it visits. -/
theorem alloc_frame_bufs_keeps (hw : Hw σ) (l : List Nat) (w : World σ) :
    (alloc_frame_bufs hw l w).1.inst.dst_buf_count = w.inst.dst_buf_count ∧
    (alloc_frame_bufs hw l w).1.inst.min_dst_buf_count = w.inst.min_dst_buf_count ∧
    (alloc_frame_bufs hw l w).1.inst.dst_fmt = w.inst.dst_fmt ∧
    (alloc_frame_bufs hw l w).1.inst.src_fmt = w.inst.src_fmt ∧
    (alloc_frame_bufs hw l w).1.inst.state = w.inst.state ∧
    (alloc_frame_bufs hw l w).1.status = w.status ∧
    ∀ j, j ∉ l →
      (alloc_frame_bufs hw l w).1.inst.frame_buf j = w.inst.frame_buf j ∧
      (alloc_frame_bufs hw l w).1.inst.frame_vbuf j = w.inst.frame_vbuf j := by
  induction l generalizing w with
  | nil => exact ⟨rfl, rfl, rfl, rfl, rfl, rfl, fun _ _ => ⟨rfl, rfl⟩⟩
  | cons i rest ih =>
    simp only [alloc_frame_bufs]
    split
    · refine ⟨rfl, rfl, rfl, rfl, rfl, rfl, ?_⟩
      intro j hj
      have hji : j ≠ i := fun h => hj (by simp [h])
      simp [hji]
    · refine ⟨(ih _).1, (ih _).2.1, (ih _).2.2.1, (ih _).2.2.2.1, (ih _).2.2.2.2.1,
        (ih _).2.2.2.2.2.1, ?_⟩
      intro j hj
      have hji : j ≠ i := fun h => hj (by simp [h])
      have hjr : j ∉ rest := fun h => hj (by simp [h])
      constructor
      · refine ((ih _).2.2.2.2.2.2 j hjr).1.trans ?_
        simp [hji]
      · refine ((ih _).2.2.2.2.2.2 j hjr).2.trans ?_
        simp [hji]

theorem queue_setup_sizes_num_buffers (q : QueueType) (f : PixFmt) (args : QueueSetupArgs) :
    (queue_setup_sizes q f args).num_buffers = args.num_buffers := by
  unfold queue_setup_sizes
  simp only []
  split_ifs <;> rfl

/-- The body of `wave5_vpu_dec_queue_setup` for the CAPTURE queue in state
`INIT_SEQ`, when the caller's planes are not rejected: the count is negotiated,
reported back and the internal frame buffers are allocated. -/
theorem queue_setup_capture_init_seq (K : Defs) (hw : Hw σ) (args : QueueSetupArgs)
    (w : World σ) (hst : w.inst.state = VpuInstState.INIT_SEQ)
    (hok : ¬ (args.num_planes ≠ 0 ∧ queue_setup_rejects w.inst.display_fmt args = true)) :
    (wave5_vpu_dec_queue_setup K hw QueueType.CAPTURE_MPLANE args w).1 =
      (alloc_frame_bufs hw
        (List.range (negotiated_dst_buf_count K w.inst args.num_buffers))
        { w with inst := { w.inst with
            dst_buf_count := negotiated_dst_buf_count K w.inst args.num_buffers } }).1 ∧
    (wave5_vpu_dec_queue_setup K hw QueueType.CAPTURE_MPLANE args w).2.1 =
      (alloc_frame_bufs hw
        (List.range (negotiated_dst_buf_count K w.inst args.num_buffers))
        { w with inst := { w.inst with
            dst_buf_count := negotiated_dst_buf_count K w.inst args.num_buffers } }).2 ∧
    (wave5_vpu_dec_queue_setup K hw QueueType.CAPTURE_MPLANE args w).2.2.num_buffers =
      negotiated_dst_buf_count K w.inst args.num_buffers := by
  have hq : ¬ (QueueType.CAPTURE_MPLANE = QueueType.OUTPUT_MPLANE) := by decide
  have hn : (if args.num_planes ≠ 0 then args
      else queue_setup_sizes QueueType.CAPTURE_MPLANE w.inst.display_fmt args).num_buffers =
      args.num_buffers := by
    split_ifs
    · rfl
    · exact queue_setup_sizes_num_buffers _ _ _
  unfold wave5_vpu_dec_queue_setup
  simp only [hq, if_false]
  rw [if_neg hok]
  simp only [hn]
  unfold queue_setup_by_state
  simp [hst]

/-- C18 as stated fails: in state `INIT_SEQ` with a hardware minimum of 6 (and
`dst_buf_count` 6, as sequence initialisation leaves it) and a maximum of 32, a
request for 40 buffers leaves `dst_buf_count` and `*num_buffers` at 6, whereas
40 clamped to the range from 6 to 32 is 32. -/
theorem C18_counterexample_request_above_maximum :
    (wave5_vpu_dec_queue_setup Defs.sample Hw.allocating QueueType.CAPTURE_MPLANE
      (QueueSetupArgs.request 40) (World.start VpuInstance.sequenced)).1.inst.dst_buf_count
      = 6 ∧
    (wave5_vpu_dec_queue_setup Defs.sample Hw.allocating QueueType.CAPTURE_MPLANE
      (QueueSetupArgs.request 40) (World.start VpuInstance.sequenced)).2.2.num_buffers = 6 ∧
    clamp 40 VpuInstance.sequenced.min_dst_buf_count Defs.sample.WAVE5_MAX_FBS = 32 := by
  refine ⟨by decide, by decide, by decide⟩

/-- C18 amended: in `wave5_vpu_dec_queue_setup` on the CAPTURE queue in state
`INIT_SEQ` (the caller's planes not rejected), for every requested count `n`
the resulting `dst_buf_count`, also reported in `*num_buffers`, is `n` when
`min_dst_buf_count < n < WAVE5_MAX_FBS` and the previous `dst_buf_count`
otherwise. -/
theorem C18_count_taken_only_strictly_inside_range (K : Defs) (hw : Hw σ)
    (args : QueueSetupArgs) (w : World σ) (hst : w.inst.state = VpuInstState.INIT_SEQ)
    (hok : ¬ (args.num_planes ≠ 0 ∧ queue_setup_rejects w.inst.display_fmt args = true)) :
    (wave5_vpu_dec_queue_setup K hw QueueType.CAPTURE_MPLANE args w).1.inst.dst_buf_count =
      (if w.inst.min_dst_buf_count < args.num_buffers ∧ args.num_buffers < K.WAVE5_MAX_FBS
        then args.num_buffers else w.inst.dst_buf_count) ∧
    (wave5_vpu_dec_queue_setup K hw QueueType.CAPTURE_MPLANE args w).2.2.num_buffers =
      (if w.inst.min_dst_buf_count < args.num_buffers ∧ args.num_buffers < K.WAVE5_MAX_FBS
        then args.num_buffers else w.inst.dst_buf_count) := by
  obtain ⟨h1, _, h3⟩ := queue_setup_capture_init_seq K hw args w hst hok
  rw [h1, h3, (alloc_frame_bufs_keeps hw _ _).1]
  exact ⟨rfl, rfl⟩

/-- Witness for the amended C18: with a minimum of 6 and a maximum of 32, a
request for 8 buffers is taken. -/
theorem C18_count_taken_only_strictly_inside_range_witness :
    (wave5_vpu_dec_queue_setup Defs.sample Hw.allocating QueueType.CAPTURE_MPLANE
      (QueueSetupArgs.request 8) (World.start VpuInstance.sequenced)).1.inst.dst_buf_count
      = 8 ∧
    (wave5_vpu_dec_queue_setup Defs.sample Hw.allocating QueueType.CAPTURE_MPLANE
      (QueueSetupArgs.request 8) (World.start VpuInstance.sequenced)).2.2.num_buffers = 8 :=
  C18_count_taken_only_strictly_inside_range Defs.sample Hw.allocating
    (QueueSetupArgs.request 8) (World.start VpuInstance.sequenced) rfl (by decide)

/-- The loop of `alloc_frame_bufs` runs `alloc_frame_buf` for the first index
and goes on with the others unless the allocation failed. -/
theorem alloc_frame_bufs_cons (hw : Hw σ) (i : Nat) (rest : List Nat) (w : World σ) :
    alloc_frame_bufs hw (i :: rest) w =
      if (alloc_frame_buf hw i w).2 ≠ 0 then alloc_frame_buf hw i w
      else alloc_frame_bufs hw rest (alloc_frame_buf hw i w).1 := by
  simp only [alloc_frame_bufs, alloc_frame_buf, fbc_buf_size, fbc_luma_size, fbc_chroma_size,
    fbc_frame]
  split_ifs <;> rfl

theorem fbc_congr (i1 i2 : VpuInstance) (hd : i1.dst_fmt = i2.dst_fmt)
    (hs : i1.src_fmt = i2.src_fmt) :
    fbc_buf_size i1 = fbc_buf_size i2 ∧ fbc_frame i1 = fbc_frame i2 := by
  unfold fbc_buf_size fbc_frame fbc_luma_size fbc_chroma_size
  rw [hd, hs]
  exact ⟨rfl, rfl⟩

/-- One iteration of the allocation loop: the request, what it stores on
success, and what it leaves alone. -/
theorem alloc_frame_buf_spec (hw : Hw σ) (i : Nat) (w : World σ) :
    (alloc_frame_buf hw i w).1.trace =
      w.trace ++ [Event.allocate_dma_memory (fbc_buf_size w.inst)] ∧
    (alloc_frame_buf hw i w).1.inst.dst_fmt = w.inst.dst_fmt ∧
    (alloc_frame_buf hw i w).1.inst.src_fmt = w.inst.src_fmt ∧
    hw.allocate_dma_memory w.hw { w.inst.frame_vbuf i with size := fbc_buf_size w.inst } =
      ((alloc_frame_buf hw i w).1.hw, (alloc_frame_buf hw i w).2,
        (alloc_frame_buf hw i w).1.inst.frame_vbuf i) ∧
    ((alloc_frame_buf hw i w).2 = 0 →
      (alloc_frame_buf hw i w).1.inst.frame_buf i =
        fbc_frame w.inst ((alloc_frame_buf hw i w).1.inst.frame_vbuf i)) := by
  unfold alloc_frame_buf
  simp only []
  split_ifs with h <;> simp [h]

theorem alloc_frame_bufs_range (hw : Hw σ) (m : Nat) :
    ∀ (a : Nat) (w : World σ),
    ((alloc_frame_bufs hw (List.range' a m) w).2 = 0 ∧
      (alloc_frame_bufs hw (List.range' a m) w).1.trace =
        w.trace ++ List.replicate m (Event.allocate_dma_memory (fbc_buf_size w.inst)) ∧
      ∀ i, a ≤ i → i < a + m →
        (alloc_frame_bufs hw (List.range' a m) w).1.inst.frame_buf i =
          fbc_frame w.inst ((alloc_frame_bufs hw (List.range' a m) w).1.inst.frame_vbuf i)) ∨
    ((alloc_frame_bufs hw (List.range' a m) w).2 ≠ 0 ∧
      ∃ k s vb, k < m ∧
        (alloc_frame_bufs hw (List.range' a m) w).1.trace =
          w.trace ++
            List.replicate (k + 1) (Event.allocate_dma_memory (fbc_buf_size w.inst)) ∧
        (∀ i, a ≤ i → i < a + k →
          (alloc_frame_bufs hw (List.range' a m) w).1.inst.frame_buf i =
            fbc_frame w.inst
              ((alloc_frame_bufs hw (List.range' a m) w).1.inst.frame_vbuf i)) ∧
        vb.size = fbc_buf_size w.inst ∧
        hw.allocate_dma_memory s vb =
          ((alloc_frame_bufs hw (List.range' a m) w).1.hw,
            (alloc_frame_bufs hw (List.range' a m) w).2,
            (alloc_frame_bufs hw (List.range' a m) w).1.inst.frame_vbuf (a + k))) := by
  induction m with
  | zero =>
    intro a w
    exact Or.inl ⟨rfl, by simp [alloc_frame_bufs], fun i h1 h2 => absurd h2 (by omega)⟩
  | succ m ih =>
    intro a w
    obtain ⟨t1, d1, s1, e1, f1⟩ := alloc_frame_buf_spec hw a w
    obtain ⟨c1, c2⟩ := fbc_congr _ _ d1 s1
    rw [List.range'_succ, alloc_frame_bufs_cons]
    by_cases hf : (alloc_frame_buf hw a w).2 ≠ 0
    · rw [if_pos hf]
      refine Or.inr ⟨hf, 0, w.hw, _, by omega, by simpa using t1, ?_, ?_, e1⟩
      · intro i h1 h2
        omega
      · rfl
    · rw [if_neg hf]
      have hf0 : (alloc_frame_buf hw a w).2 = 0 := not_not.mp hf
      have hkeep := (alloc_frame_bufs_keeps hw (List.range' (a + 1) m)
        (alloc_frame_buf hw a w).1).2.2.2.2.2.2 a (by simp [List.mem_range'_1])
      rcases ih (a + 1) (alloc_frame_buf hw a w).1 with ⟨h0, htr, hall⟩ | ⟨hne, k, s, vb, hk, htr, hall, hsz, heq⟩
      · refine Or.inl ⟨h0, ?_, ?_⟩
        · rw [htr, t1, c1, List.replicate_succ]
          simp
        · intro i h1 h2
          by_cases hia : i = a
          · subst hia
            rw [hkeep.1, hkeep.2]
            exact f1 hf0
          · rw [hall i (by omega) (by omega), c2]
      · refine Or.inr ⟨hne, k + 1, s, vb, by omega, ?_, ?_, by rw [hsz, c1], ?_⟩
        · rw [htr, t1, c1, List.replicate_succ _ (k + 1)]
          simp
        · intro i h1 h2
          by_cases hia : i = a
          · subst hia
            rw [hkeep.1, hkeep.2]
            exact f1 hf0
          · rw [hall i (by omega) (by omega), c2]
        · rw [heq]
          have : a + 1 + k = a + (k + 1) := by omega
          rw [this]

/-- C20: `wave5_vpu_dec_queue_setup` on the CAPTURE queue in state `INIT_SEQ`
(the caller's planes not rejected) with `n` the negotiated count.  Every
allocation requests `fbc_buf_size`, which absent 32-bit overflow is
`stride * ALIGN(height, 32) + ALIGN(stride / 2, 16) * ALIGN(height, 32)` with
`stride = dst_fmt.width` and `height = dst_fmt.height`; the descriptor
`fbc_frame` of a region has the region's address as luma address, that address
plus `stride * ALIGN(height, 32)` as Cb address, the all-ones value as Cr
address, the region's size, `dst_fmt.width` as stride, the compressed map type
and the update flag set.  Either the call returns 0 after exactly `n`
allocations and every index below `n` has the descriptor of its region, or it
returns the non-zero value of the allocation for some index `k < n`, which is
the last thing done: `k + 1` allocations in all, and the indices below `k`
have the descriptors of their regions. -/
theorem C20_internal_frame_buffers (K : Defs) (hw : Hw σ) (args : QueueSetupArgs)
    (w : World σ) (n : Nat) (hst : w.inst.state = VpuInstState.INIT_SEQ)
    (hok : ¬ (args.num_planes ≠ 0 ∧ queue_setup_rejects w.inst.display_fmt args = true))
    (hn : n = negotiated_dst_buf_count K w.inst args.num_buffers) :
    (∀ vframe : VpuBuf, fbc_frame w.inst vframe =
      { buf_y := vframe.daddr, buf_cb := add64 vframe.daddr (fbc_luma_size w.inst),
        buf_cr := U64 - 1, size := vframe.size, width := w.inst.src_fmt.width,
        stride := w.inst.dst_fmt.width, map_type := MapType.COMPRESSED_FRAME_MAP,
        update_fb_info := true }) ∧
    (w.inst.dst_fmt.width * ALIGN w.inst.dst_fmt.height 32 +
        ALIGN (w.inst.dst_fmt.width / 2) 16 * ALIGN w.inst.dst_fmt.height 32 < U32 →
      fbc_luma_size w.inst = w.inst.dst_fmt.width * ALIGN w.inst.dst_fmt.height 32 ∧
      fbc_buf_size w.inst =
        w.inst.dst_fmt.width * ALIGN w.inst.dst_fmt.height 32 +
          ALIGN (w.inst.dst_fmt.width / 2) 16 * ALIGN w.inst.dst_fmt.height 32) ∧
    (((wave5_vpu_dec_queue_setup K hw QueueType.CAPTURE_MPLANE args w).2.1 = 0 ∧
        (wave5_vpu_dec_queue_setup K hw QueueType.CAPTURE_MPLANE args w).1.trace =
          w.trace ++ List.replicate n (Event.allocate_dma_memory (fbc_buf_size w.inst)) ∧
        ∀ i, i < n →
          (wave5_vpu_dec_queue_setup K hw QueueType.CAPTURE_MPLANE args w).1.inst.frame_buf i =
            fbc_frame w.inst
              ((wave5_vpu_dec_queue_setup K hw QueueType.CAPTURE_MPLANE
                args w).1.inst.frame_vbuf i)) ∨
      ((wave5_vpu_dec_queue_setup K hw QueueType.CAPTURE_MPLANE args w).2.1 ≠ 0 ∧
        ∃ k s vb, k < n ∧
          (wave5_vpu_dec_queue_setup K hw QueueType.CAPTURE_MPLANE args w).1.trace =
            w.trace ++
              List.replicate (k + 1) (Event.allocate_dma_memory (fbc_buf_size w.inst)) ∧
          (∀ i, i < k →
            (wave5_vpu_dec_queue_setup K hw QueueType.CAPTURE_MPLANE
                args w).1.inst.frame_buf i =
              fbc_frame w.inst
                ((wave5_vpu_dec_queue_setup K hw QueueType.CAPTURE_MPLANE
                  args w).1.inst.frame_vbuf i)) ∧
          vb.size = fbc_buf_size w.inst ∧
          hw.allocate_dma_memory s vb =
            ((wave5_vpu_dec_queue_setup K hw QueueType.CAPTURE_MPLANE args w).1.hw,
              (wave5_vpu_dec_queue_setup K hw QueueType.CAPTURE_MPLANE args w).2.1,
              (wave5_vpu_dec_queue_setup K hw QueueType.CAPTURE_MPLANE
                args w).1.inst.frame_vbuf k))) := by
  refine ⟨fun _ => rfl, ?_, ?_⟩
  · intro hlt
    have hl : w.inst.dst_fmt.width * ALIGN w.inst.dst_fmt.height 32 < U32 := by omega
    have hc : ALIGN (w.inst.dst_fmt.width / 2) 16 * ALIGN w.inst.dst_fmt.height 32 < U32 := by
      omega
    unfold fbc_buf_size fbc_luma_size fbc_chroma_size add32 mul32
    rw [Nat.mod_eq_of_lt hl, Nat.mod_eq_of_lt hc, Nat.mod_eq_of_lt hlt]
    exact ⟨rfl, rfl⟩
  · obtain ⟨h1, h2, _⟩ := queue_setup_capture_init_seq K hw args w hst hok
    rw [h1, h2, ← hn, List.range_eq_range']
    rcases alloc_frame_bufs_range hw n 0
        ({ w with inst := { w.inst with dst_buf_count := n } } : World σ)
      with ⟨h0, htr, hall⟩ | ⟨hne, k, s, vb, hk, htr, hall, hsz, heq⟩
    · exact Or.inl ⟨h0, htr, fun i hi => hall i (Nat.zero_le _) (by omega)⟩
    · refine Or.inr ⟨hne, k, s, vb, hk, htr, fun i hi => hall i (Nat.zero_le _) (by omega),
        hsz, ?_⟩
      rw [heq, Nat.zero_add]

/-- Witness for C20: a 736x480 destination format and a request for 8 buffers;
each of the 8 allocations asks for `736 * 480 + 368 * 480` bytes and the last
index gets the descriptor of its region; when the allocations fail, the first
one is the only one made. -/
theorem C20_internal_frame_buffers_witness :
    (fbc_luma_size VpuInstance.sequenced = 736 * 480 ∧
      fbc_buf_size VpuInstance.sequenced = 736 * 480 + 368 * 480) ∧
    (wave5_vpu_dec_queue_setup Defs.sample Hw.allocating QueueType.CAPTURE_MPLANE
      (QueueSetupArgs.request 8) (World.start VpuInstance.sequenced)).1.trace =
      List.replicate 8 (Event.allocate_dma_memory 529920) ∧
    (wave5_vpu_dec_queue_setup Defs.sample Hw.allocating QueueType.CAPTURE_MPLANE
      (QueueSetupArgs.request 8) (World.start VpuInstance.sequenced)).1.inst.frame_buf 7 =
      ⟨65536, 65536 + 736 * 480, 2 ^ 64 - 1, 529920, 720, 736,
        MapType.COMPRESSED_FRAME_MAP, true⟩ ∧
    (wave5_vpu_dec_queue_setup Defs.sample Hw.out_of_memory QueueType.CAPTURE_MPLANE
      (QueueSetupArgs.request 8) (World.start VpuInstance.sequenced)).1.trace =
      [Event.allocate_dma_memory 529920] :=
  ⟨(C20_internal_frame_buffers Defs.sample Hw.allocating (QueueSetupArgs.request 8)
      (World.start VpuInstance.sequenced) 8 rfl (by decide) (by decide)).2.1 (by decide),
    by decide, by decide, by decide⟩

/-! ## Theorems: size of the frame-buffer pool -/

theorem andThen_count (w : World σ) (f : World σ → World σ)
    (h : ∀ x, (f x).inst.dst_buf_count = x.inst.dst_buf_count) :
    (w.andThen f).inst.dst_buf_count = w.inst.dst_buf_count := by
  unfold World.andThen
  split
  · exact h w
  · rfl

theorem handle_src_buffer_count (w : World σ) :
    (wave5_handle_src_buffer w).inst.dst_buf_count = w.inst.dst_buf_count := by
  rcases handle_src_buffer_cases w with h | ⟨_, _, _, _, h⟩ <;> rw [h]

theorem start_decode_count (K : Defs) (hw : Hw σ) (w : World σ) :
    (wave5_vpu_dec_start_decode K hw w).inst.dst_buf_count = w.inst.dst_buf_count := by
  have h1 : (start_decode_register hw w).inst.dst_buf_count = w.inst.dst_buf_count := by
    unfold start_decode_register
    split <;> rfl
  unfold wave5_vpu_dec_start_decode
  simp only []
  split
  · split <;> exact h1
  · exact h1

theorem device_run_count (K : Defs) (hw : Hw σ) (w : World σ) :
    (wave5_vpu_dec_device_run K hw w).inst.dst_buf_count = w.inst.dst_buf_count := by
  unfold wave5_vpu_dec_device_run
  refine Eq.trans (andThen_count _ _ ?_) (start_decode_count K hw w)
  intro x
  rfl

theorem finish_decode_count (K : Defs) (hw : Hw σ) (w : World σ) :
    (wave5_vpu_dec_finish_decode K hw w).inst.dst_buf_count = w.inst.dst_buf_count := by
  have hack : (finish_decode_ack hw w).inst.dst_buf_count = w.inst.dst_buf_count := by
    unfold finish_decode_ack
    split <;> rfl
  have hdel : ∀ (out : DecOutputInfo) (x : World σ),
      (finish_decode_deliver K out x).inst.dst_buf_count = x.inst.dst_buf_count := by
    intro out x
    unfold finish_decode_deliver
    split
    · split <;> rfl
    · split
      · split <;> rfl
      · rfl
  unfold wave5_vpu_dec_finish_decode
  simp only []
  split
  · exact hack
  · split
    · exact hack
    · rw [hdel, handle_src_buffer_count]
      exact hack

theorem stop_streaming_count (K : Defs) (hw : Hw σ) (fuel : Nat) (q : QueueType)
    (w : World σ) :
    (wave5_vpu_dec_stop_streaming K hw fuel q w).inst.dst_buf_count =
      w.inst.dst_buf_count := by
  unfold wave5_vpu_dec_stop_streaming
  simp only []
  split
  · rfl
  · cases q with
    | OUTPUT_MPLANE => rfl
    | CAPTURE_MPLANE =>
      simp only []
      split
      · rfl
      · split
        · rfl
        · split <;> rfl

theorem buf_queue_src_count (K : Defs) (hw : Hw σ) (vb : SrcBuf) (w : World σ) :
    (wave5_vpu_dec_buf_queue_src K hw vb w).inst.dst_buf_count = w.inst.dst_buf_count := by
  unfold wave5_vpu_dec_buf_queue_src
  simp only []
  split
  · rw [start_decode_count]
    rfl
  · rfl

theorem buf_queue_dst_count (K : Defs) (hw : Hw σ) (streaming : Bool) (vb : DstBuf)
    (w : World σ) :
    (wave5_vpu_dec_buf_queue_dst K hw streaming vb w).inst.dst_buf_count =
      w.inst.dst_buf_count := by
  unfold wave5_vpu_dec_buf_queue_dst
  simp only []
  rw [andThen_count]
  · split
    · split <;> rfl
    · rfl
  · intro x
    split
    · rfl
    · split
      · exact start_decode_count K hw x
      · rfl

theorem decoder_cmd_count (hw : Hw σ) (try_ret : Int) (both_streaming : Bool) (cmd : Nat)
    (w : World σ) :
    (wave5_vpu_dec_decoder_cmd hw try_ret both_streaming cmd w).1.inst.dst_buf_count =
      w.inst.dst_buf_count := by
  unfold wave5_vpu_dec_decoder_cmd
  simp only []
  split_ifs <;> rfl

theorem s_fmt_cap_count (K : Defs) (inst : VpuInstance) (f : V4l2Format)
    (r : Int × VpuInstance × V4l2Format) (h : wave5_vpu_dec_s_fmt_cap K inst f = some r) :
    r.2.1.dst_buf_count = inst.dst_buf_count := by
  unfold wave5_vpu_dec_s_fmt_cap at h
  split at h
  · simp at h
  · split_ifs at h
    all_goals first
      | (cases h; rfl)
      | (simp only [] at h; split_ifs at h <;> (cases h; rfl))

theorem s_fmt_out_count (K : Defs) (inst : VpuInstance) (f : V4l2Format) :
    (wave5_vpu_dec_s_fmt_out K inst f).2.1.dst_buf_count = inst.dst_buf_count := by
  unfold wave5_vpu_dec_s_fmt_out
  simp only []
  split <;> rfl

theorem s_ctrl_count (id : Nat) (val : Int) (inst : VpuInstance) :
    (wave5_vpu_dec_s_ctrl id val inst).2.dst_buf_count = inst.dst_buf_count := by
  unfold wave5_vpu_dec_s_ctrl
  split_ifs <;> rfl

theorem queue_setup_open_count (hw : Hw σ) (w : World σ) :
    (queue_setup_open hw w).1.inst.dst_buf_count = w.inst.dst_buf_count := by
  unfold queue_setup_open free_bitstream_vbuf
  simp only []
  split_ifs <;> rfl

theorem queue_setup_output_count (K : Defs) (hw : Hw σ) (args : QueueSetupArgs)
    (w : World σ) :
    (wave5_vpu_dec_queue_setup K hw QueueType.OUTPUT_MPLANE args w).1.inst.dst_buf_count =
      w.inst.dst_buf_count := by
  have hq : ¬ (QueueType.OUTPUT_MPLANE = QueueType.CAPTURE_MPLANE) := by decide
  unfold wave5_vpu_dec_queue_setup
  simp only [if_true]
  by_cases hrej : args.num_planes ≠ 0 ∧ queue_setup_rejects w.inst.src_fmt args = true
  · rw [if_pos hrej]
  · rw [if_neg hrej]
    unfold queue_setup_by_state
    simp only [hq, and_false, if_false, and_true]
    split
    · exact queue_setup_open_count hw w
    · rfl

theorem PoolStep.after {w w1 : World σ} (w0 : World σ)
    (hc : w0.inst.dst_buf_count = w.inst.dst_buf_count)
    (ht : ∃ pre, w0.trace = w.trace ++ pre) (h : PoolStep w0 w1) : PoolStep w w1 := by
  obtain ⟨pre, hpre⟩ := ht
  rcases h with h | h | ⟨es, h1, h2⟩
  · exact Or.inl (h.trans hc)
  · exact Or.inr (Or.inl h)
  · exact Or.inr (Or.inr ⟨pre ++ es, by rw [h1, hpre, List.append_assoc],
      List.mem_append_right _ h2⟩)

theorem PoolStep.then_kept {w w1 : World σ} {f : World σ → World σ} (h : PoolStep w w1)
    (hf : ∀ x, (f x).inst.dst_buf_count = x.inst.dst_buf_count ∧
      ∃ post, (f x).trace = x.trace ++ post) : PoolStep w (w1.andThen f) := by
  unfold World.andThen
  split
  · obtain ⟨hc, post, hp⟩ := hf w1
    rcases h with h | h | ⟨es, h1, h2⟩
    · exact Or.inl (hc.trans h)
    · rename_i hs
      rw [hs] at h
      cases h
    · exact Or.inr (Or.inr ⟨es ++ post, by rw [hp, h1, List.append_assoc],
        List.mem_append_left _ h2⟩)
  · exact h

/-- Applying the sequence information announces the source change, unless a
division by zero stops the execution before that. -/
theorem apply_seq_info_change (info : DecInitialInfo) (w : World σ) :
    (apply_seq_info info w).status = Status.oops ∨
    ∃ es, (apply_seq_info info w).trace = w.trace ++ es ∧ source_change_event ∈ es := by
  unfold apply_seq_info
  simp only []
  split
  · exact Or.inl rfl
  · refine Or.inr ?_
    rcases handle_src_buffer_cases
        ({ w with
            inst := seq_info_display (seq_info_formats info (seq_info_counts info w.inst)),
            trace := w.trace ++ (seq_info_ctrl_events (seq_info_counts info w.inst) ++
              [Event.event_queue_fh V4l2Event.SOURCE_CHANGE]) } : World σ)
      with h | ⟨b, rest, _, _, h⟩
    · rw [h]
      exact ⟨_, rfl, by simp [source_change_event]⟩
    · rw [h]
      exact ⟨seq_info_ctrl_events (seq_info_counts info w.inst) ++
          [Event.event_queue_fh V4l2Event.SOURCE_CHANGE] ++
          [Event.src_buf_done b Vb2State.DONE],
        by simp, by simp [source_change_event]⟩

theorem start_streaming_open_pool (K : Defs) (hw : Hw σ) (w : World σ) :
    PoolStep w (wave5_vpu_dec_start_streaming_open K hw w).1 := by
  unfold wave5_vpu_dec_start_streaming_open
  simp only []
  split
  · exact Or.inl rfl
  · split
    · exact Or.inl rfl
    · rcases apply_seq_info_change
          (hw.complete_seq_init (hw.wait_interrupt (hw.issue_seq_init w.hw).1
            K.VPU_DEC_TIMEOUT).1).2.2
          ({ w with
              inst := { w.inst with state := VpuInstState.INIT_SEQ },
              hw := (hw.complete_seq_init (hw.wait_interrupt (hw.issue_seq_init w.hw).1
                K.VPU_DEC_TIMEOUT).1).1,
              trace := w.trace ++ [Event.issue_seq_init] ++
                [Event.wait_interrupt K.VPU_DEC_TIMEOUT, Event.complete_seq_init] } :
            World σ)
        with h | ⟨es, h1, h2⟩
      · exact Or.inr (Or.inl h)
      · exact Or.inr (Or.inr ⟨[Event.issue_seq_init] ++
            [Event.wait_interrupt K.VPU_DEC_TIMEOUT, Event.complete_seq_init] ++ es,
          by rw [h1]; simp, List.mem_append_right _ h2⟩)

theorem start_streaming_seek_pool (K : Defs) (hw : Hw σ) (w : World σ) :
    PoolStep w (wave5_vpu_dec_start_streaming_seek K hw w).1 := by
  unfold wave5_vpu_dec_start_streaming_seek
  simp only []
  split
  · split <;> exact Or.inl rfl
  · split
    · exact Or.inl rfl
    · split
      · rcases apply_seq_info_change
            (hw.get_seq_info (hw.reset_framebuf_info
              (hw.get_output_info (hw.wait_interrupt (hw.start_one_frame w.hw).1
                K.VPU_DEC_TIMEOUT).1).1)).2
            ({ w with
                hw := (hw.get_seq_info (hw.reset_framebuf_info
                  (hw.get_output_info (hw.wait_interrupt (hw.start_one_frame w.hw).1
                    K.VPU_DEC_TIMEOUT).1).1)).1,
                trace := w.trace ++ [Event.start_one_frame] ++
                  [Event.wait_interrupt K.VPU_DEC_TIMEOUT, Event.get_output_info] ++
                  [Event.give_command DecCmd.DEC_RESET_FRAMEBUF_INFO,
                    Event.give_command DecCmd.DEC_GET_SEQ_INFO] } : World σ)
          with h | ⟨es, h1, h2⟩
        · exact Or.inr (Or.inl h)
        · exact Or.inr (Or.inr ⟨[Event.start_one_frame] ++
              [Event.wait_interrupt K.VPU_DEC_TIMEOUT, Event.get_output_info] ++
              [Event.give_command DecCmd.DEC_RESET_FRAMEBUF_INFO,
                Event.give_command DecCmd.DEC_GET_SEQ_INFO] ++ es,
            by rw [h1]; simp, List.mem_append_right _ h2⟩)
      · exact Or.inl rfl

theorem start_streaming_pool (K : Defs) (hw : Hw σ) (q : QueueType) (w : World σ) :
    PoolStep w (wave5_vpu_dec_start_streaming K hw q w).1 := by
  unfold wave5_vpu_dec_start_streaming
  cases q with
  | CAPTURE_MPLANE => exact Or.inl rfl
  | OUTPUT_MPLANE =>
    have hb : PoolStep w
        (start_streaming_by_state K hw (wave5_handle_bitstream_buffer hw w)).1 := by
      refine PoolStep.after (wave5_handle_bitstream_buffer hw w) rfl ⟨_, rfl⟩ ?_
      unfold start_streaming_by_state
      split
      · exact start_streaming_open_pool K hw _
      · split
        · exact start_streaming_seek_pool K hw _
        · exact Or.inl rfl
    simp only []
    split
    · exact hb.then_kept (fun x => ⟨rfl, _, rfl⟩)
    · exact hb

/-- Every operation other than a `queue_setup` on the CAPTURE queue leaves
`dst_buf_count` as it was, unless it announces a source change or faults. -/
theorem step_pool (K : Defs) (hw : Hw σ) (op : Op) (w : World σ)
    (hop : op.is_capture_queue_setup = false) : PoolStep w (step K hw op w) := by
  unfold step World.andThen
  split
  · cases op with
    | s_fmt_cap f =>
      simp only [dispatch]
      split
      · exact Or.inl rfl
      · rename_i r hr
        exact Or.inl (s_fmt_cap_count K _ f r hr)
    | buf_queue_src vb => exact Or.inl (buf_queue_src_count K hw vb _)
    | buf_queue_dst vb streaming => exact Or.inl (buf_queue_dst_count K hw streaming vb _)
    | start_streaming q =>
      exact PoolStep.after (w.emit [Event.enter (Op.start_streaming q).entry]) rfl
        ⟨_, rfl⟩ (start_streaming_pool K hw q _)
    | stop_streaming q fuel => exact Or.inl (stop_streaming_count K hw fuel q _)
    | device_run => exact Or.inl (device_run_count K hw _)
    | job_abort => exact Or.inl rfl
    | finish_process => exact Or.inl (finish_decode_count K hw _)
    | decoder_cmd try_ret both_streaming cmd =>
      exact Or.inl (decoder_cmd_count hw try_ret both_streaming cmd _)
    | irq status =>
      simp only [dispatch]
      split <;> exact Or.inl rfl
    | s_fmt_out f => exact Or.inl (s_fmt_out_count K _ f)
    | s_ctrl id val => exact Or.inl (s_ctrl_count id val _)
    | queue_setup q args =>
      cases q with
      | OUTPUT_MPLANE => exact Or.inl (queue_setup_output_count K hw args _)
      | CAPTURE_MPLANE => simp [Op.is_capture_queue_setup] at hop
  · exact Or.inl rfl

theorem step_trace_extends (K : Defs) (hw : Hw σ) (op : Op) (w : World σ) :
    ∃ es, (step K hw op w).trace = w.trace ++ es := by
  rcases step_eos_cases K hw op w with ⟨_, es, ht, _⟩ | ⟨_, _, es, ht, _⟩ |
    ⟨_, _, _, pre, b, ht, _, _⟩
  · exact ⟨es, ht⟩
  · exact ⟨_, ht⟩
  · exact ⟨_, ht⟩

theorem run_trace_extends (K : Defs) (hw : Hw σ) (ops : List Op) (w : World σ) :
    ∃ es, (run K hw ops w).trace = w.trace ++ es := by
  induction ops generalizing w with
  | nil => exact ⟨[], by simp [run]⟩
  | cons op ops ih =>
    obtain ⟨e1, h1⟩ := step_trace_extends K hw op w
    obtain ⟨e2, h2⟩ := ih (Wave5.step K hw op w)
    refine ⟨e1 ++ e2, ?_⟩
    have : run K hw (op :: ops) w = run K hw ops (Wave5.step K hw op w) := rfl
    rw [this, h2, h1, List.append_assoc]

theorem run_stopped (K : Defs) (hw : Hw σ) (ops : List Op) (w : World σ)
    (h : w.status ≠ Status.running) : run K hw ops w = w := by
  induction ops with
  | nil => rfl
  | cons op ops ih =>
    have hs : Wave5.step K hw op w = w := by
      unfold Wave5.step World.andThen
      split
      · rename_i hr
        exact absurd hr h
      · rfl
    have : run K hw (op :: ops) w = run K hw ops (Wave5.step K hw op w) := rfl
    rw [this, hs, ih]

theorem run_pool (K : Defs) (hw : Hw σ) (ops : List Op) (w : World σ)
    (hops : ∀ op ∈ ops, op.is_capture_queue_setup = false) :
    PoolStep w (run K hw ops w) := by
  induction ops generalizing w with
  | nil => exact Or.inl rfl
  | cons op ops ih =>
    have h1 := step_pool K hw op w (hops op (by simp))
    have h2 := ih (Wave5.step K hw op w) (fun o ho => hops o (by simp [ho]))
    obtain ⟨e1, ht1⟩ := step_trace_extends K hw op w
    obtain ⟨e2, ht2⟩ := run_trace_extends K hw ops (Wave5.step K hw op w)
    have hr : run K hw (op :: ops) w = run K hw ops (Wave5.step K hw op w) := rfl
    rw [hr]
    rcases h2 with h2 | h2 | ⟨es, h3, h4⟩
    · rcases h1 with h1 | h1 | ⟨es, h3, h4⟩
      · exact Or.inl (h2.trans h1)
      · refine Or.inr (Or.inl ?_)
        rw [run_stopped K hw ops _ (by rw [h1]; decide)]
        exact h1
      · exact Or.inr (Or.inr ⟨es ++ e2, by rw [ht2, h3, List.append_assoc],
          List.mem_append_left _ h4⟩)
    · exact Or.inr (Or.inl h2)
    · exact Or.inr (Or.inr ⟨e1 ++ es, by rw [h3, ht1, List.append_assoc],
        List.mem_append_right _ h4⟩)

theorem linear_frame_buffer_congr (i1 i2 : VpuInstance) (v1 v2 : DstBuf)
    (hd : i1.display_fmt = i2.display_fmt) (hp : v1.planes = v2.planes) :
    linear_frame_buffer i1 v1 = linear_frame_buffer i2 v2 := by
  unfold linear_frame_buffer vb2_dma_contig_plane_dma_addr vb2_plane_size
  rw [hd, hp]

/-- In state `INIT_SEQ`, `wave5_vpu_dec_buf_queue_dst` stores the descriptor of
the client buffer at the buffer index plus `dst_buf_count` (in `u32`). -/
theorem buf_queue_dst_offset (K : Defs) (hw : Hw σ) (streaming : Bool) (vb : DstBuf)
    (w : World σ) (fb : FrameBuffer) (hst : w.inst.state = VpuInstState.INIT_SEQ)
    (hfb : linear_frame_buffer w.inst vb = some fb) :
    (wave5_vpu_dec_buf_queue_dst K hw streaming vb w).inst.frame_buf
      (add32 vb.index w.inst.dst_buf_count) = fb := by
  have hfb1 : linear_frame_buffer
      { w.inst with
        dst_queue := w.inst.dst_queue ++ [{ vb with sequence := w.inst.queued_dst_buf_num }],
        queued_dst_buf_num := add32 w.inst.queued_dst_buf_num 1 }
      { vb with sequence := w.inst.queued_dst_buf_num } = some fb :=
    (linear_frame_buffer_congr _ w.inst _ vb rfl rfl).trans hfb
  have hs : ¬ (w.inst.state = VpuInstState.STOP ∧ w.inst.eos = false) := by
    rw [hst]
    intro h
    cases h.1
  unfold wave5_vpu_dec_buf_queue_dst World.andThen
  simp only [hfb1]
  rw [if_pos hst]
  simp only []
  split
  · by_cases hstr : streaming = false
    · rw [if_pos hstr]
      simp
    · rw [if_neg hstr, if_neg hs]
      simp
  · simp

/-- C19 as stated fails: starting right after sequence initialisation (minimum
6), a buffer request for 8 on the CAPTURE queue creates the pool with
`dst_buf_count` 8 and a CAPTURE buffer is queued; a second request, for 10,
makes `dst_buf_count` 10, and the decode job then registers 10 buffers.  No
source-change event occurs in the run and nothing faults. -/
theorem C19_counterexample_second_request_changes_pool :
    (run Defs.sample Hw.allocating (renegotiating_ops.take 2)
      (World.start VpuInstance.sequenced)).inst.dst_buf_count = 8 ∧
    (run Defs.sample Hw.allocating renegotiating_ops
      (World.start VpuInstance.sequenced)).inst.dst_buf_count = 10 ∧
    Event.register_frame_buffer_ex 10 10 736 480 ∈
      (run Defs.sample Hw.allocating renegotiating_ops
        (World.start VpuInstance.sequenced)).trace ∧
    source_change_event ∉
      (run Defs.sample Hw.allocating renegotiating_ops
        (World.start VpuInstance.sequenced)).trace ∧
    (run Defs.sample Hw.allocating renegotiating_ops
      (World.start VpuInstance.sequenced)).status = Status.running := by
  refine ⟨by decide, by decide, by decide, by decide, by decide⟩

/-- C19 amended: over every sequence of driver operations that contains no
`queue_setup` on the CAPTURE queue, during which no source-change event is
queued and no fault stops the execution, `dst_buf_count` keeps its value; so
in state `INIT_SEQ` afterwards the frame buffers are registered with that count
(both as the number of internal and of client buffers) and the descriptor of a
client buffer is stored at its index plus that count. -/
theorem C19_pool_size_kept_without_renegotiation (K : Defs) (hw : Hw σ) (ops : List Op)
    (w : World σ) (hops : ∀ op ∈ ops, op.is_capture_queue_setup = false)
    (hsc : source_change_event ∉ (run K hw ops w).trace.drop w.trace.length)
    (hst : (run K hw ops w).status ≠ Status.oops) :
    (run K hw ops w).inst.dst_buf_count = w.inst.dst_buf_count ∧
    ((run K hw ops w).inst.state = VpuInstState.INIT_SEQ →
      (start_decode_register hw (run K hw ops w)).trace =
        (run K hw ops w).trace ++
          [Event.register_frame_buffer_ex w.inst.dst_buf_count w.inst.dst_buf_count
            (run K hw ops w).inst.dst_fmt.width (run K hw ops w).inst.dst_fmt.height]) ∧
    (∀ (streaming : Bool) (vb : DstBuf) (fb : FrameBuffer),
      (run K hw ops w).inst.state = VpuInstState.INIT_SEQ →
      linear_frame_buffer (run K hw ops w).inst vb = some fb →
      (wave5_vpu_dec_buf_queue_dst K hw streaming vb (run K hw ops w)).inst.frame_buf
        (add32 vb.index w.inst.dst_buf_count) = fb) := by
  have hc : (run K hw ops w).inst.dst_buf_count = w.inst.dst_buf_count := by
    rcases run_pool K hw ops w hops with h | h | ⟨es, h1, h2⟩
    · exact h
    · exact absurd h hst
    · rw [h1, List.drop_left] at hsc
      exact absurd h2 hsc
  refine ⟨hc, ?_, ?_⟩
  · intro hs
    unfold start_decode_register
    rw [if_pos hs, ← hc]
  · intro streaming vb fb hs hfb
    rw [← hc]
    exact buf_queue_dst_offset K hw streaming vb _ fb hs hfb

/-- Witness for the amended C19: a CAPTURE buffer is queued, a decode job is
run and its completion dispatched; `dst_buf_count` is 6 before and after. -/
theorem C19_pool_size_kept_without_renegotiation_witness :
    (run Defs.sample Hw.allocating decoding_ops
      (World.start VpuInstance.sequenced)).inst.dst_buf_count = 6 :=
  (C19_pool_size_kept_without_renegotiation Defs.sample Hw.allocating decoding_ops
    (World.start VpuInstance.sequenced) (by decide) (by decide) (by decide)).1

/-! ## Theorems: client frame-buffer descriptors -/

theorem start_decode_frame_buf (K : Defs) (hw : Hw σ) (w : World σ) :
    (wave5_vpu_dec_start_decode K hw w).inst.frame_buf = w.inst.frame_buf := by
  have h1 : (start_decode_register hw w).inst.frame_buf = w.inst.frame_buf := by
    unfold start_decode_register
    split <;> rfl
  unfold wave5_vpu_dec_start_decode
  simp only []
  split
  · split <;> exact h1
  · exact h1

/-- In state `INIT_SEQ`, `wave5_vpu_dec_buf_queue_dst` changes the frame-buffer
array at the buffer index plus `dst_buf_count` and nowhere else. -/
theorem buf_queue_dst_frame_buf (K : Defs) (hw : Hw σ) (streaming : Bool) (vb : DstBuf)
    (w : World σ) (fb : FrameBuffer) (hst : w.inst.state = VpuInstState.INIT_SEQ)
    (hfb : linear_frame_buffer w.inst vb = some fb) (j : Nat) :
    (wave5_vpu_dec_buf_queue_dst K hw streaming vb w).inst.frame_buf j =
      if j = add32 vb.index w.inst.dst_buf_count then fb else w.inst.frame_buf j := by
  have hfb1 : linear_frame_buffer
      { w.inst with
        dst_queue := w.inst.dst_queue ++ [{ vb with sequence := w.inst.queued_dst_buf_num }],
        queued_dst_buf_num := add32 w.inst.queued_dst_buf_num 1 }
      { vb with sequence := w.inst.queued_dst_buf_num } = some fb :=
    (linear_frame_buffer_congr _ w.inst _ vb rfl rfl).trans hfb
  have hs : ¬ (w.inst.state = VpuInstState.STOP ∧ w.inst.eos = false) := by
    rw [hst]
    intro h
    cases h.1
  unfold wave5_vpu_dec_buf_queue_dst World.andThen
  simp only [hfb1]
  rw [if_pos hst]
  simp only []
  split
  · by_cases hstr : streaming = false
    · rw [if_pos hstr]
    · rw [if_neg hstr, if_neg hs]
  · rfl

/-- Outside state `INIT_SEQ`, `wave5_vpu_dec_buf_queue_dst` leaves the
frame-buffer array alone. -/
theorem buf_queue_dst_frame_buf_other (K : Defs) (hw : Hw σ) (streaming : Bool)
    (vb : DstBuf) (w : World σ) (hst : w.inst.state ≠ VpuInstState.INIT_SEQ) :
    (wave5_vpu_dec_buf_queue_dst K hw streaming vb w).inst.frame_buf = w.inst.frame_buf := by
  unfold wave5_vpu_dec_buf_queue_dst World.andThen
  simp only []
  rw [if_neg hst]
  simp only []
  split
  · split
    · rfl
    · split
      · rw [start_decode_frame_buf]
      · rfl
  · rfl

theorem linear_frame_buffer_one (inst : VpuInstance) (vb : DstBuf) (p0 : Plane)
    (hn : inst.display_fmt.num_planes = 1) (hp : vb.planes = [p0]) (hl : p0.length < U32) :
    linear_frame_buffer inst vb =
      some { buf_y := p0.dma_addr,
             buf_cb := add64 p0.dma_addr
               (mul32 inst.display_fmt.width inst.display_fmt.height),
             buf_cr := add64
               (add64 p0.dma_addr (mul32 inst.display_fmt.width inst.display_fmt.height))
               (mul32 (inst.display_fmt.width / 2) (inst.display_fmt.height / 2)),
             size := p0.length, width := inst.display_fmt.width,
             stride := inst.display_fmt.width, map_type := MapType.LINEAR_FRAME_MAP,
             update_fb_info := true } := by
  unfold linear_frame_buffer vb2_dma_contig_plane_dma_addr vb2_plane_size
  simp [hn, hp, Nat.mod_eq_of_lt hl]

theorem linear_frame_buffer_two (inst : VpuInstance) (vb : DstBuf) (p0 p1 : Plane)
    (hn : inst.display_fmt.num_planes = 2) (hp : vb.planes = [p0, p1])
    (hl : p0.length + p1.length < U32) :
    linear_frame_buffer inst vb =
      some { buf_y := p0.dma_addr, buf_cb := p1.dma_addr,
             buf_cr := add64 p1.dma_addr
               (mul32 (inst.display_fmt.width / 2) (inst.display_fmt.height / 2)),
             size := p0.length + p1.length, width := inst.display_fmt.width,
             stride := inst.display_fmt.width, map_type := MapType.LINEAR_FRAME_MAP,
             update_fb_info := true } := by
  unfold linear_frame_buffer vb2_dma_contig_plane_dma_addr vb2_plane_size
  simp [hn, hp, Nat.mod_eq_of_lt hl]

theorem linear_frame_buffer_three (inst : VpuInstance) (vb : DstBuf) (p0 p1 p2 : Plane)
    (hn : inst.display_fmt.num_planes = 3) (hp : vb.planes = [p0, p1, p2])
    (hl : p0.length + p1.length + p2.length < U32) :
    linear_frame_buffer inst vb =
      some { buf_y := p0.dma_addr, buf_cb := p1.dma_addr, buf_cr := p2.dma_addr,
             size := p0.length + p1.length + p2.length, width := inst.display_fmt.width,
             stride := inst.display_fmt.width, map_type := MapType.LINEAR_FRAME_MAP,
             update_fb_info := true } := by
  unfold linear_frame_buffer vb2_dma_contig_plane_dma_addr vb2_plane_size
  simp [hn, hp, Nat.mod_eq_of_lt hl]

/-- C21: when `wave5_vpu_dec_buf_queue_dst` is called in state `INIT_SEQ` for a
CAPTURE buffer with index `k` whose planes are those of the display format (one,
two or three, their sizes adding up below 2^32), the frame-buffer array changes
at index `k + dst_buf_count` (in `u32`) and nowhere else, and the entry there
has map type linear, the update flag set, width and stride `display_fmt.width`
and size the sum of the plane sizes; with one plane Cb is Y plus `width *
height` and Cr is Cb plus `(width / 2) * (height / 2)`, with two planes Cb is
the address of plane 1 and Cr is Cb plus `(width / 2) * (height / 2)`, with
three planes the addresses are those of the three planes (products in `u32`,
sums in 64 bits).  In every other state the frame-buffer array is unchanged. -/
theorem C21_linear_descriptor_stored_at_offset (K : Defs) (hw : Hw σ) (streaming : Bool)
    (vb : DstBuf) (w : World σ) :
    (w.inst.state = VpuInstState.INIT_SEQ →
      (vb.index + w.inst.dst_buf_count < U32 →
        add32 vb.index w.inst.dst_buf_count = vb.index + w.inst.dst_buf_count) ∧
      (∀ p0, w.inst.display_fmt.num_planes = 1 → vb.planes = [p0] → p0.length < U32 →
        ∀ j, (wave5_vpu_dec_buf_queue_dst K hw streaming vb w).inst.frame_buf j =
          if j = add32 vb.index w.inst.dst_buf_count then
            { buf_y := p0.dma_addr,
              buf_cb := add64 p0.dma_addr
                (mul32 w.inst.display_fmt.width w.inst.display_fmt.height),
              buf_cr := add64
                (add64 p0.dma_addr
                  (mul32 w.inst.display_fmt.width w.inst.display_fmt.height))
                (mul32 (w.inst.display_fmt.width / 2) (w.inst.display_fmt.height / 2)),
              size := p0.length, width := w.inst.display_fmt.width,
              stride := w.inst.display_fmt.width, map_type := MapType.LINEAR_FRAME_MAP,
              update_fb_info := true }
          else w.inst.frame_buf j) ∧
      (∀ p0 p1, w.inst.display_fmt.num_planes = 2 → vb.planes = [p0, p1] →
        p0.length + p1.length < U32 →
        ∀ j, (wave5_vpu_dec_buf_queue_dst K hw streaming vb w).inst.frame_buf j =
          if j = add32 vb.index w.inst.dst_buf_count then
            { buf_y := p0.dma_addr, buf_cb := p1.dma_addr,
              buf_cr := add64 p1.dma_addr
                (mul32 (w.inst.display_fmt.width / 2) (w.inst.display_fmt.height / 2)),
              size := p0.length + p1.length, width := w.inst.display_fmt.width,
              stride := w.inst.display_fmt.width, map_type := MapType.LINEAR_FRAME_MAP,
              update_fb_info := true }
          else w.inst.frame_buf j) ∧
      (∀ p0 p1 p2, w.inst.display_fmt.num_planes = 3 → vb.planes = [p0, p1, p2] →
        p0.length + p1.length + p2.length < U32 →
        ∀ j, (wave5_vpu_dec_buf_queue_dst K hw streaming vb w).inst.frame_buf j =
          if j = add32 vb.index w.inst.dst_buf_count then
            { buf_y := p0.dma_addr, buf_cb := p1.dma_addr, buf_cr := p2.dma_addr,
              size := p0.length + p1.length + p2.length,
              width := w.inst.display_fmt.width, stride := w.inst.display_fmt.width,
              map_type := MapType.LINEAR_FRAME_MAP, update_fb_info := true }
          else w.inst.frame_buf j)) ∧
    (w.inst.state ≠ VpuInstState.INIT_SEQ →
      (wave5_vpu_dec_buf_queue_dst K hw streaming vb w).inst.frame_buf =
        w.inst.frame_buf) := by
  refine ⟨fun hst => ⟨?_, ?_, ?_, ?_⟩, buf_queue_dst_frame_buf_other K hw streaming vb w⟩
  · intro h
    unfold add32
    exact Nat.mod_eq_of_lt h
  · intro p0 hn hp hl j
    exact buf_queue_dst_frame_buf K hw streaming vb w _ hst
      (linear_frame_buffer_one w.inst vb p0 hn hp hl) j
  · intro p0 p1 hn hp hl j
    exact buf_queue_dst_frame_buf K hw streaming vb w _ hst
      (linear_frame_buffer_two w.inst vb p0 p1 hn hp hl) j
  · intro p0 p1 p2 hn hp hl j
    exact buf_queue_dst_frame_buf K hw streaming vb w _ hst
      (linear_frame_buffer_three w.inst vb p0 p1 p2 hn hp hl) j

/-- Witness for C21: buffer 2 with one plane at address 8192 is queued in state
`INIT_SEQ` with `dst_buf_count` 6 and a 736x480 display format; entry 8 gets Y
8192, Cb `8192 + 736 * 480` and Cr `8192 + 736 * 480 + 368 * 240`. -/
theorem C21_linear_descriptor_stored_at_offset_witness :
    (wave5_vpu_dec_buf_queue_dst Defs.sample Hw.allocating false (DstBuf.fresh 2)
      (World.start VpuInstance.sequenced)).inst.frame_buf 8 =
      ⟨8192, 8192 + 736 * 480, 8192 + 736 * 480 + 368 * 240, 518400, 736, 736,
        MapType.LINEAR_FRAME_MAP, true⟩ :=
  ((C21_linear_descriptor_stored_at_offset Defs.sample Hw.allocating false (DstBuf.fresh 2)
    (World.start VpuInstance.sequenced)).1 rfl).2.1 ⟨518400, 0, 8192⟩ rfl rfl (by decide) 8

/-! ## Theorems: sequence initialisation and sequence change -/

theorem seq_info_fields (info : DecInitialInfo) (inst : VpuInstance) :
    (seq_info_formats info (seq_info_counts info inst)).display_fmt = inst.display_fmt ∧
    (seq_info_display (seq_info_formats info (seq_info_counts info inst))).state =
      inst.state ∧
    (seq_info_display (seq_info_formats info (seq_info_counts info inst))).min_dst_buf_count =
      add32 info.min_frame_buffer_count 1 ∧
    (seq_info_display (seq_info_formats info (seq_info_counts info inst))).dst_buf_count =
      add32 info.min_frame_buffer_count 1 ∧
    (seq_info_display (seq_info_formats info (seq_info_counts info inst))).conf_win_width =
      sub32 info.pic_width info.pic_crop_right ∧
    (seq_info_display (seq_info_formats info (seq_info_counts info inst))).conf_win_height =
      sub32 info.pic_height info.pic_crop_bottom ∧
    (seq_info_display (seq_info_formats info (seq_info_counts info inst))).src_queue =
      inst.src_queue := by
  unfold seq_info_display seq_info_formats seq_info_counts
  simp only []
  refine ⟨?_, ?_, ?_, ?_, ?_, ?_, ?_⟩ <;> split_ifs <;> rfl

theorem seq_info_ctrl_events_count (inst : VpuInstance) :
    (seq_info_ctrl_events inst).count source_change_event = 0 := by
  unfold seq_info_ctrl_events source_change_event
  split_ifs <;> simp

/-- What applying the sequence information does when the display size is not
zero: the counts and the cropping window come from the information, one
source-change event is queued, and nothing else of the state, the status or
the hardware is touched. -/
theorem apply_seq_info_spec (info : DecInitialInfo) (w : World σ)
    (hw0 : w.inst.display_fmt.width ≠ 0) (hh0 : w.inst.display_fmt.height ≠ 0) :
    (apply_seq_info info w).inst.state = w.inst.state ∧
    (apply_seq_info info w).inst.min_dst_buf_count = add32 info.min_frame_buffer_count 1 ∧
    (apply_seq_info info w).inst.dst_buf_count = add32 info.min_frame_buffer_count 1 ∧
    (apply_seq_info info w).inst.conf_win_width =
      sub32 info.pic_width info.pic_crop_right ∧
    (apply_seq_info info w).inst.conf_win_height =
      sub32 info.pic_height info.pic_crop_bottom ∧
    (apply_seq_info info w).status = w.status ∧
    (apply_seq_info info w).hw = w.hw ∧
    ∃ es, (apply_seq_info info w).trace = w.trace ++ es ∧
      es.count source_change_event = 1 := by
  obtain ⟨hd, f1, f2, f3, f4, f5, _⟩ := seq_info_fields info w.inst
  have hnz : ¬ ((seq_info_formats info (seq_info_counts info w.inst)).display_fmt.width = 0 ∨
      (seq_info_formats info (seq_info_counts info w.inst)).display_fmt.height = 0) := by
    rw [hd]
    intro h
    rcases h with h | h
    · exact hw0 h
    · exact hh0 h
  unfold apply_seq_info
  simp only []
  rw [if_neg hnz]
  rcases handle_src_buffer_cases
      ({ w with
          inst := seq_info_display (seq_info_formats info (seq_info_counts info w.inst)),
          trace := w.trace ++ (seq_info_ctrl_events (seq_info_counts info w.inst) ++
            [Event.event_queue_fh V4l2Event.SOURCE_CHANGE]) } : World σ)
    with h | ⟨b, rest, _, _, h⟩
  · rw [h]
    refine ⟨f1, f2, f3, f4, f5, rfl, rfl, _, rfl, ?_⟩
    rw [List.count_append, seq_info_ctrl_events_count]
    simp [source_change_event]
  · rw [h]
    refine ⟨f1, f2, f3, f4, f5, rfl, rfl,
      seq_info_ctrl_events (seq_info_counts info w.inst) ++
        [Event.event_queue_fh V4l2Event.SOURCE_CHANGE] ++
        [Event.src_buf_done b Vb2State.DONE], by simp, ?_⟩
    rw [List.count_append, List.count_append, seq_info_ctrl_events_count]
    simp [source_change_event]

/-- C22: when in `wave5_vpu_dec_start_streaming_open` the issue command and the
complete command both return 0 (and the display size is not zero, so the scale
of lines 997-998 can be computed), the function returns 0, the state is
`INIT_SEQ`, `min_dst_buf_count` is the reported `min_frame_buffer_count + 1` and
`dst_buf_count` equals it, the cropping window is `pic_width -
pic_crop_rect.right` by `pic_height - pic_crop_rect.bottom` (all in `u32`, so
the plain values absent wrap-around), and after the three commands of the round
trip exactly one source-change event is queued. -/
theorem C22_sequence_init_sets_counts_and_window (K : Defs) (hw : Hw σ) (w : World σ)
    (s1 : σ) (info : DecInitialInfo)
    (hi : (hw.issue_seq_init w.hw).2 = 0)
    (hc : hw.complete_seq_init
      (hw.wait_interrupt (hw.issue_seq_init w.hw).1 K.VPU_DEC_TIMEOUT).1 = (s1, 0, info))
    (hw0 : w.inst.display_fmt.width ≠ 0) (hh0 : w.inst.display_fmt.height ≠ 0) :
    (wave5_vpu_dec_start_streaming_open K hw w).2 = 0 ∧
    (wave5_vpu_dec_start_streaming_open K hw w).1.inst.state = VpuInstState.INIT_SEQ ∧
    (wave5_vpu_dec_start_streaming_open K hw w).1.inst.min_dst_buf_count =
      add32 info.min_frame_buffer_count 1 ∧
    (wave5_vpu_dec_start_streaming_open K hw w).1.inst.dst_buf_count =
      (wave5_vpu_dec_start_streaming_open K hw w).1.inst.min_dst_buf_count ∧
    (wave5_vpu_dec_start_streaming_open K hw w).1.inst.conf_win_width =
      sub32 info.pic_width info.pic_crop_right ∧
    (wave5_vpu_dec_start_streaming_open K hw w).1.inst.conf_win_height =
      sub32 info.pic_height info.pic_crop_bottom ∧
    (info.min_frame_buffer_count + 1 < U32 →
      add32 info.min_frame_buffer_count 1 = info.min_frame_buffer_count + 1) ∧
    (info.pic_crop_right ≤ info.pic_width → info.pic_width < 2 ^ 32 →
      sub32 info.pic_width info.pic_crop_right = info.pic_width - info.pic_crop_right) ∧
    (info.pic_crop_bottom ≤ info.pic_height → info.pic_height < 2 ^ 32 →
      sub32 info.pic_height info.pic_crop_bottom =
        info.pic_height - info.pic_crop_bottom) ∧
    (wave5_vpu_dec_start_streaming_open K hw w).1.status = w.status ∧
    ∃ es, (wave5_vpu_dec_start_streaming_open K hw w).1.trace =
        w.trace ++ [Event.issue_seq_init, Event.wait_interrupt K.VPU_DEC_TIMEOUT,
          Event.complete_seq_init] ++ es ∧
      es.count source_change_event = 1 := by
  obtain ⟨a1, a2, a3, a4, a5, a6, _, es, a8, a9⟩ := apply_seq_info_spec info
    ({ w with
        inst := { w.inst with state := VpuInstState.INIT_SEQ },
        hw := s1,
        trace := w.trace ++ [Event.issue_seq_init] ++
          [Event.wait_interrupt K.VPU_DEC_TIMEOUT, Event.complete_seq_init] } : World σ)
    hw0 hh0
  unfold wave5_vpu_dec_start_streaming_open
  simp only [hi, hc, ne_eq, not_true_eq_false, if_false]
  refine ⟨trivial, a1, a2, a3.trans a2.symm, a4, a5, ?_, ?_, ?_, a6, es, ?_, a9⟩
  · intro h
    unfold add32
    exact Nat.mod_eq_of_lt h
  · intro h1 h2
    exact sub32_eq _ _ h1 h2
  · intro h1 h2
    exact sub32_eq _ _ h1 h2
  · rw [a8]
    simp

/-- Witness for C22: the hardware finds a 1920x1088 sequence cropped by 8 lines
that needs 5 frame buffers; the counts become 6 and the window 1920x1080. -/
theorem C22_sequence_init_sets_counts_and_window_witness :
    (wave5_vpu_dec_start_streaming_open Defs.sample Hw.sequence_found
      (World.start VpuInstance.ready)).1.inst.state = VpuInstState.INIT_SEQ ∧
    (wave5_vpu_dec_start_streaming_open Defs.sample Hw.sequence_found
      (World.start VpuInstance.ready)).1.inst.min_dst_buf_count = 6 ∧
    (wave5_vpu_dec_start_streaming_open Defs.sample Hw.sequence_found
      (World.start VpuInstance.ready)).1.inst.conf_win_height = 1080 :=
  ⟨(C22_sequence_init_sets_counts_and_window Defs.sample Hw.sequence_found
      (World.start VpuInstance.ready) () ⟨1920, 1088, 5, 0, 8, 0⟩ rfl rfl (by decide)
      (by decide)).2.1,
    (C22_sequence_init_sets_counts_and_window Defs.sample Hw.sequence_found
      (World.start VpuInstance.ready) () ⟨1920, 1088, 5, 0, 8, 0⟩ rfl rfl (by decide)
      (by decide)).2.2.1,
    (C22_sequence_init_sets_counts_and_window Defs.sample Hw.sequence_found
      (World.start VpuInstance.ready) () ⟨1920, 1088, 5, 0, 8, 0⟩ rfl rfl (by decide)
      (by decide)).2.2.2.2.2.1⟩

/-- C26: in `wave5_vpu_dec_start_streaming_seek`, once the frame start has not
failed fatally and the output info has been obtained: when it carries the
sequence-changed flag (and the display size is not zero), the reset command and
then the get-sequence-info command are issued right after the query,
`min_dst_buf_count` becomes the newly reported `min_frame_buffer_count + 1`
(in `u32`) and `dst_buf_count` equals it, the cropping window is recomputed as
`pic_width - pic_crop_rect.right` by `pic_height - pic_crop_rect.bottom`, and
exactly one source-change event is queued after the two commands; when the flag
is not set the instance is unchanged and nothing follows the query. -/
theorem C26_sequence_change_rederives_counts (K : Defs) (hw : Hw σ) (w : World σ)
    (s1 s2 : σ) (out : DecOutputInfo) (info : DecInitialInfo)
    (hstart : start_failed K (hw.start_one_frame w.hw).2 = false)
    (ho : hw.get_output_info
      (hw.wait_interrupt (hw.start_one_frame w.hw).1 K.VPU_DEC_TIMEOUT).1 = (s1, 0, out))
    (hinfo : hw.get_seq_info (hw.reset_framebuf_info s1) = (s2, info)) :
    (out.sequence_changed = true → w.inst.display_fmt.width ≠ 0 →
      w.inst.display_fmt.height ≠ 0 →
      (wave5_vpu_dec_start_streaming_seek K hw w).1.inst.min_dst_buf_count =
        add32 info.min_frame_buffer_count 1 ∧
      (wave5_vpu_dec_start_streaming_seek K hw w).1.inst.dst_buf_count =
        (wave5_vpu_dec_start_streaming_seek K hw w).1.inst.min_dst_buf_count ∧
      (wave5_vpu_dec_start_streaming_seek K hw w).1.inst.conf_win_width =
        sub32 info.pic_width info.pic_crop_right ∧
      (wave5_vpu_dec_start_streaming_seek K hw w).1.inst.conf_win_height =
        sub32 info.pic_height info.pic_crop_bottom ∧
      (wave5_vpu_dec_start_streaming_seek K hw w).1.inst.state = w.inst.state ∧
      ∃ es, (wave5_vpu_dec_start_streaming_seek K hw w).1.trace =
          w.trace ++ [Event.start_one_frame, Event.wait_interrupt K.VPU_DEC_TIMEOUT,
            Event.get_output_info, Event.give_command DecCmd.DEC_RESET_FRAMEBUF_INFO,
            Event.give_command DecCmd.DEC_GET_SEQ_INFO] ++ es ∧
        es.count source_change_event = 1) ∧
    (out.sequence_changed = false →
      (wave5_vpu_dec_start_streaming_seek K hw w).1.inst = w.inst ∧
      (wave5_vpu_dec_start_streaming_seek K hw w).1.trace =
        w.trace ++ [Event.start_one_frame, Event.wait_interrupt K.VPU_DEC_TIMEOUT,
          Event.get_output_info]) := by
  constructor
  · intro hflag hw0 hh0
    obtain ⟨a1, a2, a3, a4, a5, _, _, es, a8, a9⟩ := apply_seq_info_spec info
      ({ w with
          hw := s2,
          trace := w.trace ++ [Event.start_one_frame] ++
            [Event.wait_interrupt K.VPU_DEC_TIMEOUT, Event.get_output_info] ++
            [Event.give_command DecCmd.DEC_RESET_FRAMEBUF_INFO,
              Event.give_command DecCmd.DEC_GET_SEQ_INFO] } : World σ)
      hw0 hh0
    unfold wave5_vpu_dec_start_streaming_seek
    simp only [hstart, ho, hinfo, hflag, ne_eq, not_true_eq_false, if_false, if_true,
      Bool.false_eq_true]
    refine ⟨a2, a3.trans a2.symm, a4, a5, a1, es, ?_, a9⟩
    rw [a8]
    simp
  · intro hflag
    unfold wave5_vpu_dec_start_streaming_seek
    simp only [hstart, ho, hflag, ne_eq, not_true_eq_false, if_false, Bool.false_eq_true]
    exact ⟨trivial, by simp⟩

/-- Witness for C26: from a minimum of 6, the output info carries the
sequence-changed flag and the new sequence needs 9 frame buffers; the counts
become 10 and the window height 1080. -/
theorem C26_sequence_change_rederives_counts_witness :
    (wave5_vpu_dec_start_streaming_seek Defs.sample Hw.sequence_changes
      (World.start VpuInstance.sequenced)).1.inst.min_dst_buf_count = 10 ∧
    (wave5_vpu_dec_start_streaming_seek Defs.sample Hw.sequence_changes
      (World.start VpuInstance.sequenced)).1.inst.conf_win_height = 1080 :=
  ⟨((C26_sequence_change_rederives_counts Defs.sample Hw.sequence_changes
      (World.start VpuInstance.sequenced) () () ⟨0, 0, 0, 0, 0, true, 0⟩
      ⟨1920, 1088, 9, 0, 8, 0⟩ (by decide) rfl rfl).1 rfl (by decide) (by decide)).1,
    ((C26_sequence_change_rederives_counts Defs.sample Hw.sequence_changes
      (World.start VpuInstance.sequenced) () () ⟨0, 0, 0, 0, 0, true, 0⟩
      ⟨1920, 1088, 9, 0, 8, 0⟩ (by decide) rfl rfl).1 rfl (by decide)
      (by decide)).2.2.2.1⟩

/-! ## Theorems: stream start -/

theorem feed_one_commands (hw : Hw σ) (ring : VpuBuf) (s : σ) (b : SrcBuf) :
    ∀ e ∈ (feed_one hw ring s b).events, e.is_feed_command = true := by
  unfold feed_one
  simp only []
  split_ifs <;> simp [Event.is_feed_command]

theorem feed_loop_commands (hw : Hw σ) (ring : VpuBuf) (q : List SrcBuf) (s : σ) :
    ∀ e ∈ (feed_loop hw ring s q).events, e.is_feed_command = true := by
  induction q generalizing s with
  | nil => simp [feed_loop]
  | cons b rest ih =>
    simp only [feed_loop]
    split
    · intro e he
      rcases List.mem_append.mp he with h | h
      · exact feed_one_commands hw ring s b e h
      · exact ih _ e h
    · exact feed_one_commands hw ring s b

theorem apply_seq_info_state (info : DecInitialInfo) (w : World σ) :
    (apply_seq_info info w).inst.state = w.inst.state := by
  unfold apply_seq_info
  simp only []
  split
  · unfold seq_info_formats seq_info_counts
    split_ifs <;> rfl
  · rcases handle_src_buffer_cases
        ({ w with
            inst := seq_info_display (seq_info_formats info (seq_info_counts info w.inst)),
            trace := w.trace ++ (seq_info_ctrl_events (seq_info_counts info w.inst) ++
              [Event.event_queue_fh V4l2Event.SOURCE_CHANGE]) } : World σ)
      with h | ⟨b, rest, _, _, h⟩
    · rw [h]
      exact (seq_info_fields info w.inst).2.1
    · rw [h]
      exact (seq_info_fields info w.inst).2.1

/-- C23 as stated fails: with hardware on which every command succeeds, a
`start_streaming` call on the CAPTURE queue in state `OPEN` issues no command
at all and leaves the state `OPEN`; the same hardware takes the instance to
`INIT_SEQ` when the call is made on the OUTPUT queue. -/
theorem C23_counterexample_capture_start_does_nothing :
    (wave5_vpu_dec_start_streaming Defs.sample Hw.sequence_found QueueType.CAPTURE_MPLANE
      (World.start VpuInstance.ready)).1.inst.state = VpuInstState.OPEN ∧
    (wave5_vpu_dec_start_streaming Defs.sample Hw.sequence_found QueueType.CAPTURE_MPLANE
      (World.start VpuInstance.ready)).1.trace = [] ∧
    (wave5_vpu_dec_start_streaming Defs.sample Hw.sequence_found QueueType.CAPTURE_MPLANE
      (World.start VpuInstance.ready)).2 = 0 ∧
    (wave5_vpu_dec_start_streaming Defs.sample Hw.sequence_found QueueType.OUTPUT_MPLANE
      (World.start VpuInstance.ready)).1.inst.state = VpuInstState.INIT_SEQ := by
  refine ⟨by decide, by decide, by decide, by decide⟩

/-- C23 amended: the `OPEN` to `INIT_SEQ` transition is triggered when OUTPUT
streaming starts.  A `start_streaming` call on the CAPTURE queue returns 0 and
changes nothing.  A `start_streaming` call on the OUTPUT queue in state `OPEN`
feeds the ring and then performs the sequence-init round trip (issue, wait for
the interrupt, complete); when the issue and the complete command return 0 it
returns 0 and leaves the instance in `INIT_SEQ`. -/
theorem C23_output_start_initialises_sequence (K : Defs) (hw : Hw σ) (w : World σ)
    (hst : w.inst.state = VpuInstState.OPEN)
    (hi : (hw.issue_seq_init (wave5_handle_bitstream_buffer hw w).hw).2 = 0)
    (hc : (hw.complete_seq_init
      (hw.wait_interrupt (hw.issue_seq_init (wave5_handle_bitstream_buffer hw w).hw).1
        K.VPU_DEC_TIMEOUT).1).2.1 = 0) :
    wave5_vpu_dec_start_streaming K hw QueueType.CAPTURE_MPLANE w = (w, 0) ∧
    (wave5_vpu_dec_start_streaming K hw QueueType.OUTPUT_MPLANE w).2 = 0 ∧
    (wave5_vpu_dec_start_streaming K hw QueueType.OUTPUT_MPLANE w).1.inst.state =
      VpuInstState.INIT_SEQ ∧
    ∃ tail, (wave5_vpu_dec_start_streaming K hw QueueType.OUTPUT_MPLANE w).1.trace =
      (wave5_handle_bitstream_buffer hw w).trace ++
        [Event.issue_seq_init, Event.wait_interrupt K.VPU_DEC_TIMEOUT,
          Event.complete_seq_init] ++ tail := by
  have hst0 : (wave5_handle_bitstream_buffer hw w).inst.state = VpuInstState.OPEN := hst
  have hopen : (start_streaming_by_state K hw (wave5_handle_bitstream_buffer hw w)) =
      wave5_vpu_dec_start_streaming_open K hw (wave5_handle_bitstream_buffer hw w) := by
    unfold start_streaming_by_state
    rw [if_pos hst0]
  have hres : (wave5_vpu_dec_start_streaming_open K hw
        (wave5_handle_bitstream_buffer hw w)).2 = 0 ∧
      (wave5_vpu_dec_start_streaming_open K hw
        (wave5_handle_bitstream_buffer hw w)).1.inst.state = VpuInstState.INIT_SEQ ∧
      ∃ tail, (wave5_vpu_dec_start_streaming_open K hw
        (wave5_handle_bitstream_buffer hw w)).1.trace =
        (wave5_handle_bitstream_buffer hw w).trace ++
          [Event.issue_seq_init, Event.wait_interrupt K.VPU_DEC_TIMEOUT,
            Event.complete_seq_init] ++ tail := by
    unfold wave5_vpu_dec_start_streaming_open
    simp only [hi, hc, ne_eq, not_true_eq_false, if_false]
    refine ⟨trivial, ?_, ?_⟩
    · rw [apply_seq_info_state]
    · obtain ⟨_, es, hes, _⟩ := apply_seq_info_neutral
        (hw.complete_seq_init
          (hw.wait_interrupt (hw.issue_seq_init (wave5_handle_bitstream_buffer hw w).hw).1
            K.VPU_DEC_TIMEOUT).1).2.2
        ({ wave5_handle_bitstream_buffer hw w with
            inst := { (wave5_handle_bitstream_buffer hw w).inst with
              state := VpuInstState.INIT_SEQ },
            hw := (hw.complete_seq_init
              (hw.wait_interrupt
                (hw.issue_seq_init (wave5_handle_bitstream_buffer hw w).hw).1
                K.VPU_DEC_TIMEOUT).1).1,
            trace := (wave5_handle_bitstream_buffer hw w).trace ++ [Event.issue_seq_init] ++
              [Event.wait_interrupt K.VPU_DEC_TIMEOUT, Event.complete_seq_init] } :
          World σ)
      exact ⟨es, by rw [hes]; simp⟩
  refine ⟨rfl, ?_⟩
  unfold wave5_vpu_dec_start_streaming
  simp only [hopen]
  rw [if_neg (by simp [hres.1])]
  exact hres

/-- Witness for the amended C23: the OUTPUT queue is started in state `OPEN`
against hardware that finds a sequence. -/
theorem C23_output_start_initialises_sequence_witness :
    (wave5_vpu_dec_start_streaming Defs.sample Hw.sequence_found QueueType.OUTPUT_MPLANE
      (World.start VpuInstance.ready)).2 = 0 ∧
    (wave5_vpu_dec_start_streaming Defs.sample Hw.sequence_found QueueType.OUTPUT_MPLANE
      (World.start VpuInstance.ready)).1.inst.state = VpuInstState.INIT_SEQ :=
  ⟨(C23_output_start_initialises_sequence Defs.sample Hw.sequence_found
      (World.start VpuInstance.ready) rfl rfl rfl).2.1,
    (C23_output_start_initialises_sequence Defs.sample Hw.sequence_found
      (World.start VpuInstance.ready) rfl rfl rfl).2.2.1⟩

theorem not_source_change_of_feed (e : Event) (h : e.is_feed_command = true) :
    e ≠ source_change_event := by
  intro he
  rw [he] at h
  simp [source_change_event, Event.is_feed_command] at h

/-- C24: when `wave5_vpu_dec_start_streaming` is called on the OUTPUT queue in
state `OPEN` and, after the ring has been fed, the issue command or the
complete command of the sequence initialisation returns a non-zero value, that
value is returned, the state is still `OPEN`, every buffer still in the OUTPUT
queue is handed back in the `QUEUED` state (the last things done, in queue
order) and the OUTPUT queue is empty, and no source-change event is queued
during the call. -/
theorem C24_failed_sequence_init_unwinds_output_queue (K : Defs) (hw : Hw σ) (w : World σ)
    (hst : w.inst.state = VpuInstState.OPEN) (hrun : w.status = Status.running) :
    ((hw.issue_seq_init (wave5_handle_bitstream_buffer hw w).hw).2 ≠ 0 →
      (wave5_vpu_dec_start_streaming K hw QueueType.OUTPUT_MPLANE w).2 =
        (hw.issue_seq_init (wave5_handle_bitstream_buffer hw w).hw).2 ∧
      (wave5_vpu_dec_start_streaming K hw QueueType.OUTPUT_MPLANE w).1.inst.state =
        VpuInstState.OPEN ∧
      (wave5_vpu_dec_start_streaming K hw QueueType.OUTPUT_MPLANE w).1.inst.src_queue = [] ∧
      (wave5_vpu_dec_start_streaming K hw QueueType.OUTPUT_MPLANE w).1.trace =
        (wave5_handle_bitstream_buffer hw w).trace ++ [Event.issue_seq_init] ++
          (wave5_handle_bitstream_buffer hw w).inst.src_queue.map
            (fun buf => Event.src_buf_done buf Vb2State.QUEUED) ∧
      source_change_event ∉
        (wave5_vpu_dec_start_streaming K hw QueueType.OUTPUT_MPLANE w).1.trace.drop
          w.trace.length) ∧
    ((hw.issue_seq_init (wave5_handle_bitstream_buffer hw w).hw).2 = 0 →
      (hw.complete_seq_init
        (hw.wait_interrupt (hw.issue_seq_init (wave5_handle_bitstream_buffer hw w).hw).1
          K.VPU_DEC_TIMEOUT).1).2.1 ≠ 0 →
      (wave5_vpu_dec_start_streaming K hw QueueType.OUTPUT_MPLANE w).2 =
        (hw.complete_seq_init
          (hw.wait_interrupt (hw.issue_seq_init (wave5_handle_bitstream_buffer hw w).hw).1
            K.VPU_DEC_TIMEOUT).1).2.1 ∧
      (wave5_vpu_dec_start_streaming K hw QueueType.OUTPUT_MPLANE w).1.inst.state =
        VpuInstState.OPEN ∧
      (wave5_vpu_dec_start_streaming K hw QueueType.OUTPUT_MPLANE w).1.inst.src_queue = [] ∧
      (wave5_vpu_dec_start_streaming K hw QueueType.OUTPUT_MPLANE w).1.trace =
        (wave5_handle_bitstream_buffer hw w).trace ++
          [Event.issue_seq_init, Event.wait_interrupt K.VPU_DEC_TIMEOUT,
            Event.complete_seq_init] ++
          (wave5_handle_bitstream_buffer hw w).inst.src_queue.map
            (fun buf => Event.src_buf_done buf Vb2State.QUEUED) ∧
      source_change_event ∉
        (wave5_vpu_dec_start_streaming K hw QueueType.OUTPUT_MPLANE w).1.trace.drop
          w.trace.length) := by
  have hst0 : (wave5_handle_bitstream_buffer hw w).inst.state = VpuInstState.OPEN := hst
  have hrun0 : (wave5_handle_bitstream_buffer hw w).status = Status.running := hrun
  have htr0 : (wave5_handle_bitstream_buffer hw w).trace =
      w.trace ++ (feed_loop hw w.inst.bitstream_vbuf w.hw w.inst.src_queue).events := rfl
  have hfeed := feed_loop_commands hw w.inst.bitstream_vbuf w.inst.src_queue w.hw
  have hopen : (start_streaming_by_state K hw (wave5_handle_bitstream_buffer hw w)) =
      wave5_vpu_dec_start_streaming_open K hw (wave5_handle_bitstream_buffer hw w) := by
    unfold start_streaming_by_state
    rw [if_pos hst0]
  have hnsc : ∀ (cmds : List Event), source_change_event ∉ cmds →
      source_change_event ∉
        ((wave5_handle_bitstream_buffer hw w).trace ++ cmds ++
          (wave5_handle_bitstream_buffer hw w).inst.src_queue.map
            (fun buf => Event.src_buf_done buf Vb2State.QUEUED)).drop w.trace.length := by
    intro cmds hcmds
    rw [htr0, List.append_assoc, List.append_assoc, List.drop_left]
    intro hm
    rcases List.mem_append.mp hm with h | h
    · exact not_source_change_of_feed _ (hfeed _ h) rfl
    · rcases List.mem_append.mp h with h | h
      · exact hcmds h
      · obtain ⟨b, _, hb⟩ := List.mem_map.mp h
        simp [source_change_event] at hb
  constructor
  · intro hi
    have hres : wave5_vpu_dec_start_streaming_open K hw (wave5_handle_bitstream_buffer hw w) =
        ({ wave5_handle_bitstream_buffer hw w with
            hw := (hw.issue_seq_init (wave5_handle_bitstream_buffer hw w).hw).1,
            trace := (wave5_handle_bitstream_buffer hw w).trace ++ [Event.issue_seq_init] },
          (hw.issue_seq_init (wave5_handle_bitstream_buffer hw w).hw).2) := by
      unfold wave5_vpu_dec_start_streaming_open
      simp only []
      rw [if_pos hi]
    have hfin : wave5_vpu_dec_start_streaming K hw QueueType.OUTPUT_MPLANE w =
        (return_queued_src_bufs
          { wave5_handle_bitstream_buffer hw w with
            hw := (hw.issue_seq_init (wave5_handle_bitstream_buffer hw w).hw).1,
            trace := (wave5_handle_bitstream_buffer hw w).trace ++ [Event.issue_seq_init] },
          (hw.issue_seq_init (wave5_handle_bitstream_buffer hw w).hw).2) := by
      unfold wave5_vpu_dec_start_streaming
      simp only [hopen, hres]
      rw [if_pos hi]
      unfold World.andThen
      simp only [hrun0]
    rw [hfin]
    refine ⟨rfl, hst0, rfl, rfl, ?_⟩
    exact hnsc [Event.issue_seq_init] (by simp [source_change_event])
  · intro hi hc
    have hres : wave5_vpu_dec_start_streaming_open K hw (wave5_handle_bitstream_buffer hw w) =
        ({ wave5_handle_bitstream_buffer hw w with
            hw := (hw.complete_seq_init
              (hw.wait_interrupt
                (hw.issue_seq_init (wave5_handle_bitstream_buffer hw w).hw).1
                K.VPU_DEC_TIMEOUT).1).1,
            trace := (wave5_handle_bitstream_buffer hw w).trace ++ [Event.issue_seq_init] ++
              [Event.wait_interrupt K.VPU_DEC_TIMEOUT, Event.complete_seq_init] },
          (hw.complete_seq_init
            (hw.wait_interrupt (hw.issue_seq_init (wave5_handle_bitstream_buffer hw w).hw).1
              K.VPU_DEC_TIMEOUT).1).2.1) := by
      unfold wave5_vpu_dec_start_streaming_open
      simp only []
      rw [if_neg (by simp [hi]), if_pos hc]
    have hfin : wave5_vpu_dec_start_streaming K hw QueueType.OUTPUT_MPLANE w =
        (return_queued_src_bufs
          { wave5_handle_bitstream_buffer hw w with
            hw := (hw.complete_seq_init
              (hw.wait_interrupt
                (hw.issue_seq_init (wave5_handle_bitstream_buffer hw w).hw).1
                K.VPU_DEC_TIMEOUT).1).1,
            trace := (wave5_handle_bitstream_buffer hw w).trace ++ [Event.issue_seq_init] ++
              [Event.wait_interrupt K.VPU_DEC_TIMEOUT, Event.complete_seq_init] },
          (hw.complete_seq_init
            (hw.wait_interrupt (hw.issue_seq_init (wave5_handle_bitstream_buffer hw w).hw).1
              K.VPU_DEC_TIMEOUT).1).2.1) := by
      unfold wave5_vpu_dec_start_streaming
      simp only [hopen, hres]
      rw [if_pos hc]
      unfold World.andThen
      simp only [hrun0]
    rw [hfin]
    refine ⟨rfl, hst0, rfl, ?_, ?_⟩
    · simp [return_queued_src_bufs]
    · have := hnsc [Event.issue_seq_init, Event.wait_interrupt K.VPU_DEC_TIMEOUT,
        Event.complete_seq_init] (by simp [source_change_event])
      simpa [return_queued_src_bufs] using this

/-- Witness for C24: the issue command fails with `-EIO` while one OUTPUT
buffer is queued; the error is returned, the state is still `OPEN` and the
queue is empty. -/
theorem C24_failed_sequence_init_unwinds_output_queue_witness :
    (wave5_vpu_dec_start_streaming Defs.sample Hw.seq_init_fails QueueType.OUTPUT_MPLANE
      World.ready_with_input).2 = -5 ∧
    (wave5_vpu_dec_start_streaming Defs.sample Hw.seq_init_fails QueueType.OUTPUT_MPLANE
      World.ready_with_input).1.inst.state = VpuInstState.OPEN ∧
    (wave5_vpu_dec_start_streaming Defs.sample Hw.seq_init_fails QueueType.OUTPUT_MPLANE
      World.ready_with_input).1.inst.src_queue = [] ∧
    (wave5_vpu_dec_start_streaming Defs.sample Hw.seq_init_fails QueueType.OUTPUT_MPLANE
      World.ready_with_input).1.trace =
      [Event.get_bitstream_buffer, Event.issue_seq_init,
        Event.src_buf_done (SrcBuf.fresh 0 100 4096 42) Vb2State.QUEUED] :=
  ⟨((C24_failed_sequence_init_unwinds_output_queue Defs.sample Hw.seq_init_fails
      World.ready_with_input rfl rfl).1 (by decide)).1,
    ((C24_failed_sequence_init_unwinds_output_queue Defs.sample Hw.seq_init_fails
      World.ready_with_input rfl rfl).1 (by decide)).2.1,
    ((C24_failed_sequence_init_unwinds_output_queue Defs.sample Hw.seq_init_fails
      World.ready_with_input rfl rfl).1 (by decide)).2.2.1,
    ((C24_failed_sequence_init_unwinds_output_queue Defs.sample Hw.seq_init_fails
      World.ready_with_input rfl rfl).1 (by decide)).2.2.2.1⟩

/-! ## Theorems: stream stop on the CAPTURE queue -/

/-- C25: in `wave5_vpu_dec_stop_streaming` on the CAPTURE queue, once the drain
loop has been left: when reading the ring pointers and setting the read
pointer both succeed, the set command is the last thing done and its argument
is the write pointer just reported, `eos` is false afterwards, and the state is
`INIT_SEQ` if `eos` was set and unchanged if it was not; when reading the
pointers fails, it is the last thing done and `eos` and the state are as
before; when setting the read pointer fails, it is the last thing done and
`eos` and the state are as before. -/
theorem C25_capture_stop_rewinds_read_pointer (K : Defs) (hw : Hw σ) (fuel : Nat)
    (w : World σ) (s1 : σ) (bs : BsInfo)
    (hexit : (drain_loop hw fuel w.hw).exited = true)
    (hbs : hw.get_bitstream_buffer
      (flag_loop hw.set_disp_flag Event.set_disp_flag (List.range w.inst.dst_buf_count)
        (drain_loop hw fuel w.hw).hw).1 = (s1, bs)) :
    (bs.ret = 0 → (hw.set_rd_ptr s1 bs.wr_ptr true).2 = 0 →
      (wave5_vpu_dec_stop_streaming K hw fuel QueueType.CAPTURE_MPLANE w).inst.eos = false ∧
      (wave5_vpu_dec_stop_streaming K hw fuel QueueType.CAPTURE_MPLANE w).inst.state =
        (if w.inst.eos = true then VpuInstState.INIT_SEQ else w.inst.state) ∧
      ∃ pre, (wave5_vpu_dec_stop_streaming K hw fuel QueueType.CAPTURE_MPLANE w).trace =
        w.trace ++ pre ++ [Event.get_bitstream_buffer, Event.set_rd_ptr bs.wr_ptr true]) ∧
    (bs.ret ≠ 0 →
      (wave5_vpu_dec_stop_streaming K hw fuel QueueType.CAPTURE_MPLANE w).inst.eos =
        w.inst.eos ∧
      (wave5_vpu_dec_stop_streaming K hw fuel QueueType.CAPTURE_MPLANE w).inst.state =
        w.inst.state ∧
      ∃ pre, (wave5_vpu_dec_stop_streaming K hw fuel QueueType.CAPTURE_MPLANE w).trace =
        w.trace ++ pre ++ [Event.get_bitstream_buffer]) ∧
    (bs.ret = 0 → (hw.set_rd_ptr s1 bs.wr_ptr true).2 ≠ 0 →
      (wave5_vpu_dec_stop_streaming K hw fuel QueueType.CAPTURE_MPLANE w).inst.eos =
        w.inst.eos ∧
      (wave5_vpu_dec_stop_streaming K hw fuel QueueType.CAPTURE_MPLANE w).inst.state =
        w.inst.state ∧
      ∃ pre, (wave5_vpu_dec_stop_streaming K hw fuel QueueType.CAPTURE_MPLANE w).trace =
        w.trace ++ pre ++ [Event.get_bitstream_buffer, Event.set_rd_ptr bs.wr_ptr true]) := by
  have hne : ¬ ((drain_loop hw fuel w.hw).exited = false) := by simp [hexit]
  refine ⟨?_, ?_, ?_⟩
  · intro hr hs
    unfold wave5_vpu_dec_stop_streaming
    simp only []
    rw [if_neg hne]
    simp only [hbs]
    rw [if_neg (by simp [hr]), if_neg (by simp [hs])]
    by_cases he : w.inst.eos = true
    · simp only [he, if_true]
      exact ⟨trivial, trivial,
        (drain_loop hw fuel w.hw).events ++
        return_dst_bufs K w.inst.dst_fmt.num_planes w.inst.dst_queue ++
        (flag_loop hw.set_disp_flag Event.set_disp_flag (List.range w.inst.dst_buf_count)
          (drain_loop hw fuel w.hw).hw).2, by simp⟩
    · have he2 : w.inst.eos = false := by simpa using he
      simp only [he2, Bool.false_eq_true, if_false]
      exact ⟨trivial, trivial,
        (drain_loop hw fuel w.hw).events ++
        return_dst_bufs K w.inst.dst_fmt.num_planes w.inst.dst_queue ++
        (flag_loop hw.set_disp_flag Event.set_disp_flag (List.range w.inst.dst_buf_count)
          (drain_loop hw fuel w.hw).hw).2, by simp⟩
  · intro hr
    unfold wave5_vpu_dec_stop_streaming
    simp only []
    rw [if_neg hne]
    simp only [hbs]
    rw [if_pos hr]
    exact ⟨rfl, rfl,
      (drain_loop hw fuel w.hw).events ++
        return_dst_bufs K w.inst.dst_fmt.num_planes w.inst.dst_queue ++
        (flag_loop hw.set_disp_flag Event.set_disp_flag (List.range w.inst.dst_buf_count)
          (drain_loop hw fuel w.hw).hw).2, by simp⟩
  · intro hr hs
    unfold wave5_vpu_dec_stop_streaming
    simp only []
    rw [if_neg hne]
    simp only [hbs]
    rw [if_neg (by simp [hr]), if_pos hs]
    exact ⟨rfl, rfl,
      (drain_loop hw fuel w.hw).events ++
        return_dst_bufs K w.inst.dst_fmt.num_planes w.inst.dst_queue ++
        (flag_loop hw.set_disp_flag Event.set_disp_flag (List.range w.inst.dst_buf_count)
          (drain_loop hw fuel w.hw).hw).2, by simp⟩

/-- Witness for C25: the stream ended (`eos` set, state `STOP`), nothing is
outstanding and the ring reports its write pointer at 4660; the read pointer
is set to 4660, `eos` is cleared and the state is `INIT_SEQ`. -/
theorem C25_capture_stop_rewinds_read_pointer_witness :
    (wave5_vpu_dec_stop_streaming Defs.sample Hw.idle 1 QueueType.CAPTURE_MPLANE
      (World.start VpuInstance.ended)).inst.eos = false ∧
    (wave5_vpu_dec_stop_streaming Defs.sample Hw.idle 1 QueueType.CAPTURE_MPLANE
      (World.start VpuInstance.ended)).inst.state = VpuInstState.INIT_SEQ ∧
    Event.set_rd_ptr 4660 true ∈
      (wave5_vpu_dec_stop_streaming Defs.sample Hw.idle 1 QueueType.CAPTURE_MPLANE
        (World.start VpuInstance.ended)).trace :=
  ⟨((C25_capture_stop_rewinds_read_pointer Defs.sample Hw.idle 1
      (World.start VpuInstance.ended) () ⟨0, 256, 4660, 100⟩ rfl rfl).1 rfl rfl).1,
    ((C25_capture_stop_rewinds_read_pointer Defs.sample Hw.idle 1
      (World.start VpuInstance.ended) () ⟨0, 256, 4660, 100⟩ rfl rfl).1 rfl rfl).2.1,
    by decide⟩

/-! ## Theorems: order of the OUTPUT queue -/

theorem consumed_leading_of_all (q : List SrcBuf)
    (h : q.all (fun x => !x.consumed) = true) : consumed_leading q = true := by
  induction q with
  | nil => rfl
  | cons b rest ih =>
    simp only [List.all_cons, Bool.and_eq_true, Bool.not_eq_true'] at h
    simp only [consumed_leading, h.1, Bool.false_eq_true, if_false]
    exact h.2

theorem consumed_leading_tail (b : SrcBuf) (rest : List SrcBuf)
    (h : consumed_leading (b :: rest) = true) : consumed_leading rest = true := by
  simp only [consumed_leading] at h
  split_ifs at h
  · exact h
  · exact consumed_leading_of_all rest h

theorem consumed_leading_append (q : List SrcBuf) (x : SrcBuf) (hx : x.consumed = false)
    (h : consumed_leading q = true) : consumed_leading (q ++ [x]) = true := by
  induction q with
  | nil => simp [consumed_leading, hx]
  | cons b rest ih =>
    simp only [consumed_leading] at h
    simp only [List.cons_append, consumed_leading]
    split_ifs with hb
    · rw [if_pos hb] at h
      exact ih h
    · rw [if_neg hb] at h
      show ((rest ++ [x]).all fun x => !x.consumed) = true
      rw [List.all_append, h]
      simp [hx]

/-- The computed test agrees with the description: a run of consumed buffers
followed by a run of unconsumed ones. -/
theorem consumed_leading_iff (q : List SrcBuf) :
    consumed_leading q = true ↔ ConsumedPrefix q := by
  unfold ConsumedPrefix
  induction q with
  | nil => exact ⟨fun _ => ⟨[], [], rfl, by simp, by simp⟩, fun _ => rfl⟩
  | cons b rest ih =>
    constructor
    · intro h
      simp only [consumed_leading] at h
      by_cases hb : b.consumed = true
      · rw [if_pos hb] at h
        obtain ⟨done, todo, hq, hd, ht⟩ := ih.mp h
        refine ⟨b :: done, todo, by rw [hq]; rfl, ?_, ht⟩
        intro x hx
        rcases List.mem_cons.mp hx with hx | hx
        · rw [hx]
          exact hb
        · exact hd x hx
      · rw [if_neg hb] at h
        refine ⟨[], b :: rest, rfl, by simp, ?_⟩
        intro x hx
        rcases List.mem_cons.mp hx with hx | hx
        · rw [hx]
          simpa using hb
        · have := List.all_eq_true.mp h x hx
          simpa using this
    · rintro ⟨done, todo, hq, hd, ht⟩
      cases done with
      | nil =>
        simp only [List.nil_append] at hq
        apply consumed_leading_of_all
        rw [hq]
        apply List.all_eq_true.mpr
        intro x hx
        simp [ht x hx]
      | cons d done =>
        simp only [List.cons_append, List.cons.injEq] at hq
        obtain ⟨hbd, hrest⟩ := hq
        have hb : b.consumed = true := by
          rw [hbd]
          exact hd d (by simp)
        simp only [consumed_leading, hb, if_true]
        exact ih.mpr ⟨done, todo, hrest, fun x hx => hd x (by simp [hx]), ht⟩

/-- What one iteration of the feeder does to the buffer: a consumed buffer is
skipped; an unconsumed one is either left as it is, ending the loop, or marked
consumed, the loop going on. -/
theorem feed_one_outcome (hw : Hw σ) (ring : VpuBuf) (s : σ) (b : SrcBuf) :
    (b.consumed = true →
      (feed_one hw ring s b).buf = b ∧ (feed_one hw ring s b).ctl = Ctl.next) ∧
    (b.consumed = false →
      ((feed_one hw ring s b).buf = b ∧ (feed_one hw ring s b).ctl ≠ Ctl.next) ∨
      ((feed_one hw ring s b).buf = { b with consumed := true } ∧
        (feed_one hw ring s b).ctl = Ctl.next)) := by
  constructor
  · intro hc
    unfold feed_one
    simp [hc]
  · intro hc
    unfold feed_one
    simp only [hc, Bool.false_eq_true, if_false]
    split_ifs <;> simp

theorem feed_loop_consumed_leading (hw : Hw σ) (ring : VpuBuf) (q : List SrcBuf) (s : σ)
    (h : consumed_leading q = true) : consumed_leading (feed_loop hw ring s q).queue = true := by
  induction q generalizing s with
  | nil => rfl
  | cons b rest ih =>
    obtain ⟨o1, o2⟩ := feed_one_outcome hw ring s b
    have htail := consumed_leading_tail b rest h
    by_cases hb : b.consumed = true
    · obtain ⟨h1, h2⟩ := o1 hb
      simp only [feed_loop, h2, h1]
      simp only [consumed_leading, hb, if_true]
      exact ih _ htail
    · have hb2 : b.consumed = false := by simpa using hb
      rcases o2 hb2 with ⟨h1, h2⟩ | ⟨h1, h2⟩
      · simp only [feed_loop]
        rw [h1]
        exact h
      · simp only [feed_loop, h2, h1]
        simp only [consumed_leading, if_true]
        exact ih _ htail

theorem start_decode_src_queue (K : Defs) (hw : Hw σ) (w : World σ) :
    (wave5_vpu_dec_start_decode K hw w).inst.src_queue = w.inst.src_queue ∨
    ∃ b, w.inst.src_queue = b :: (wave5_vpu_dec_start_decode K hw w).inst.src_queue := by
  have h1 : (start_decode_register hw w).inst.src_queue = w.inst.src_queue := by
    unfold start_decode_register
    split <;> rfl
  unfold wave5_vpu_dec_start_decode
  simp only []
  split
  · split
    · exact Or.inl h1
    · rename_i b rest hq
      exact Or.inr ⟨b, by rw [← h1, hq]⟩
  · exact Or.inl h1

/-- C27: if the OUTPUT queue is a run of consumed buffers followed by a run of
unconsumed ones, the same holds after `wave5_handle_bitstream_buffer`, after
`wave5_vpu_dec_buf_queue_src` for any buffer (the buffer is appended
unconsumed; in state `PIC_RUN` the ring is fed and a decode job started), and
after `wave5_handle_src_buffer`, which leaves the queue as it is or removes
its front buffer, and removes it only if it is consumed. -/
theorem C27_consumed_buffers_lead_queue (K : Defs) (hw : Hw σ) (w : World σ)
    (h : ConsumedPrefix w.inst.src_queue) :
    ConsumedPrefix (wave5_handle_bitstream_buffer hw w).inst.src_queue ∧
    (∀ vb, ConsumedPrefix (wave5_vpu_dec_buf_queue_src K hw vb w).inst.src_queue) ∧
    ConsumedPrefix (wave5_handle_src_buffer w).inst.src_queue ∧
    ((wave5_handle_src_buffer w).inst.src_queue = w.inst.src_queue ∨
      ∃ b, b.consumed = true ∧
        w.inst.src_queue = b :: (wave5_handle_src_buffer w).inst.src_queue) := by
  have hc := (consumed_leading_iff _).mpr h
  have hsrc : (wave5_handle_src_buffer w).inst.src_queue = w.inst.src_queue ∨
      ∃ b, b.consumed = true ∧
        w.inst.src_queue = b :: (wave5_handle_src_buffer w).inst.src_queue := by
    rcases handle_src_buffer_cases w with h1 | ⟨b, rest, hq, hb, h1⟩
    · rw [h1]
      exact Or.inl rfl
    · rw [h1]
      exact Or.inr ⟨b, hb, hq⟩
  refine ⟨?_, ?_, ?_, hsrc⟩
  · exact (consumed_leading_iff _).mp
      (feed_loop_consumed_leading hw w.inst.bitstream_vbuf w.inst.src_queue w.hw hc)
  · intro vb
    apply (consumed_leading_iff _).mp
    have happ : consumed_leading
        (w.inst.src_queue ++
          [{ vb with consumed := false, sequence := w.inst.queued_src_buf_num }]) = true :=
      consumed_leading_append _ _ rfl hc
    unfold wave5_vpu_dec_buf_queue_src
    simp only []
    split
    · have hfed := feed_loop_consumed_leading hw w.inst.bitstream_vbuf
        (w.inst.src_queue ++
          [{ vb with consumed := false, sequence := w.inst.queued_src_buf_num }]) w.hw happ
      rcases start_decode_src_queue K hw
          (wave5_handle_bitstream_buffer hw
            ({ w with inst := { w.inst with
                src_queue := w.inst.src_queue ++
                  [{ vb with consumed := false, sequence := w.inst.queued_src_buf_num }],
                queued_src_buf_num := add32 w.inst.queued_src_buf_num 1 } } : World σ))
        with h1 | ⟨b, h1⟩
      · rw [h1]
        exact hfed
      · have h2 : consumed_leading
            (wave5_handle_bitstream_buffer hw
              ({ w with inst := { w.inst with
                  src_queue := w.inst.src_queue ++
                    [{ vb with consumed := false, sequence := w.inst.queued_src_buf_num }],
                  queued_src_buf_num := add32 w.inst.queued_src_buf_num 1 } } :
                World σ)).inst.src_queue = true := hfed
        rw [h1] at h2
        exact consumed_leading_tail _ _ h2
    · exact happ
  · apply (consumed_leading_iff _).mp
    rcases hsrc with h1 | ⟨b, _, h1⟩
    · rw [h1]
      exact hc
    · rw [h1] at hc
      exact consumed_leading_tail _ _ hc

/-- Witness for C27: a consumed buffer followed by two unconsumed ones; after
the feeder has run the queue is still a consumed run followed by an unconsumed
run. -/
theorem C27_consumed_buffers_lead_queue_witness :
    ConsumedPrefix (wave5_handle_bitstream_buffer Hw.nearly_full
      (World.feeding (SrcBuf.fresh 1 50 100 7))).inst.src_queue :=
  (C27_consumed_buffers_lead_queue Defs.sample Hw.nearly_full
    (World.feeding (SrcBuf.fresh 1 50 100 7))
    ⟨[{ SrcBuf.fresh 0 5 100 6 with consumed := true }],
      [SrcBuf.fresh 1 50 100 7, SrcBuf.fresh 2 3 100 8], rfl, by decide, by decide⟩).1

/-! ## Theorems: DMA writes and the ring -/

/-- C28 as stated fails: the ring has 400 bytes at address 0, the hardware
reports the write pointer at 400 (within `base <= wr <= base + size`) and 100
bytes free (at most the ring size), and a chunk of 50 bytes is accepted.  The
copy is split, its first part has length 0 and its second part the whole 50
bytes, so neither length is strictly between 0 and the chunk size. -/
theorem C28_counterexample_pointer_at_ring_end :
    passes_ring_end ⟨0, 400⟩ 400 (src_size (SrcBuf.fresh 1 50 100 7)) = true ∧
    (feed_one Hw.at_ring_end ⟨0, 400⟩ () (SrcBuf.fresh 1 50 100 7)).events =
      [Event.get_bitstream_buffer, Event.write_memory 400 0 0, Event.write_memory 0 0 50,
        Event.update_bitstream_buffer 50] ∧
    (feed_one Hw.at_ring_end ⟨0, 400⟩ () (SrcBuf.fresh 1 50 100 7)).buf.consumed = true := by
  refine ⟨by decide, by decide, by decide⟩

/-- The DMA writes of one iteration of the feeder when the chunk passes the end
of the ring: the part up to the end of the ring and the rest at offset 0; a
write is only issued for a chunk that fits the reported remaining size. -/
theorem feed_one_writes_split (hw : Hw σ) (ring : VpuBuf) (s s1 : σ) (buf : SrcBuf)
    (bs : BsInfo) (hbs : hw.get_bitstream_buffer s = (s1, bs))
    (hsplit : add64 bs.wr_ptr (src_size buf) > add64 ring.daddr ring.size)
    (off so len : Nat)
    (hm : Event.write_memory off so len ∈ (feed_one hw ring s buf).events) :
    src_size buf ≤ bs.remain_size ∧
    ((off = sub64 bs.wr_ptr ring.daddr ∧ so = 0 ∧
        len = sub64 (add64 ring.daddr ring.size) bs.wr_ptr) ∨
      (off = 0 ∧ so = sub64 (add64 ring.daddr ring.size) bs.wr_ptr ∧
        len = sub64 (src_size buf) (sub64 (add64 ring.daddr ring.size) bs.wr_ptr))) := by
  unfold feed_one at hm
  simp only [hbs, hsplit, if_true] at hm
  by_cases h1 : buf.consumed = true
  · simp [h1] at hm
  · by_cases h2 : (!buf.vaddr) = true
    · simp [h1, h2] at hm
    · by_cases h3 : bs.ret ≠ 0
      · simp [h1, h2, h3] at hm
      · by_cases h4 : bs.remain_size < src_size buf
        · simp [h1, h2, h3, h4] at hm
        · simp only [h1, h2, h3, h4, if_false] at hm
          refine ⟨by omega, ?_⟩
          split_ifs at hm <;> simp at hm <;> tauto

/-- The DMA write of one iteration of the feeder when the chunk does not pass
the end of the ring: the whole chunk at the offset of the write pointer. -/
theorem feed_one_writes_single (hw : Hw σ) (ring : VpuBuf) (s s1 : σ) (buf : SrcBuf)
    (bs : BsInfo) (hbs : hw.get_bitstream_buffer s = (s1, bs))
    (hsplit : ¬ add64 bs.wr_ptr (src_size buf) > add64 ring.daddr ring.size)
    (off so len : Nat)
    (hm : Event.write_memory off so len ∈ (feed_one hw ring s buf).events) :
    off = sub64 bs.wr_ptr ring.daddr ∧ so = 0 ∧ len = src_size buf := by
  unfold feed_one at hm
  simp only [hbs, hsplit, if_false] at hm
  by_cases h1 : buf.consumed = true
  · simp [h1] at hm
  · by_cases h2 : (!buf.vaddr) = true
    · simp [h1, h2] at hm
    · by_cases h3 : bs.ret ≠ 0
      · simp [h1, h2, h3] at hm
      · by_cases h4 : bs.remain_size < src_size buf
        · simp [h1, h2, h3, h4] at hm
        · simp only [h1, h2, h3, h4, if_false] at hm
          split_ifs at hm <;> simp at hm <;> tauto

/-- C28 amended: when the hardware reports a write pointer `wr` with `base <=
wr <= base + size` and a remaining size of at most the ring size (no wrap of
the 64-bit address space), every DMA write (offset, length) that the loop body
of `wave5_handle_bitstream_buffer` issues for a buffer satisfies `offset +
length <= size`; and when the copy is split, each write is either the first
part, at offset `wr - base` with length `base + size - wr`, which is less than
the chunk size, or the second part, at offset 0 with the rest of the chunk,
which is more than 0; both lengths are strictly between 0 and the chunk size
when `wr < base + size`. -/
theorem C28_writes_stay_inside_ring (hw : Hw σ) (ring : VpuBuf) (s s1 : σ) (buf : SrcBuf)
    (bs : BsInfo) (hbs : hw.get_bitstream_buffer s = (s1, bs))
    (hlo : ring.daddr ≤ bs.wr_ptr) (hhi : bs.wr_ptr ≤ ring.daddr + ring.size)
    (hrem : bs.remain_size ≤ ring.size) (hring : ring.daddr + ring.size < U64)
    (hn : bs.wr_ptr + src_size buf < U64) :
    (∀ off so len, Event.write_memory off so len ∈ (feed_one hw ring s buf).events →
      off + len ≤ ring.size) ∧
    (passes_ring_end ring bs.wr_ptr (src_size buf) = true →
      ∀ off so len, Event.write_memory off so len ∈ (feed_one hw ring s buf).events →
        (off = bs.wr_ptr - ring.daddr ∧ so = 0 ∧
          len = ring.daddr + ring.size - bs.wr_ptr ∧ len < src_size buf ∧
          (bs.wr_ptr < ring.daddr + ring.size → 0 < len)) ∨
        (off = 0 ∧ so = ring.daddr + ring.size - bs.wr_ptr ∧
          len = src_size buf - (ring.daddr + ring.size - bs.wr_ptr) ∧ 0 < len ∧
          (bs.wr_ptr < ring.daddr + ring.size → len < src_size buf))) := by
  have hwr : bs.wr_ptr < U64 := by omega
  have hnn : src_size buf < U64 := by omega
  have e1 : add64 bs.wr_ptr (src_size buf) = bs.wr_ptr + src_size buf := add64_eq _ _ hn
  have e2 : add64 ring.daddr ring.size = ring.daddr + ring.size := add64_eq _ _ hring
  have e3 : sub64 bs.wr_ptr ring.daddr = bs.wr_ptr - ring.daddr := sub64_eq _ _ hlo hwr
  have e4 : sub64 (ring.daddr + ring.size) bs.wr_ptr = ring.daddr + ring.size - bs.wr_ptr :=
    sub64_eq _ _ hhi hring
  by_cases hsplit : bs.wr_ptr + src_size buf > ring.daddr + ring.size
  · have e5 : sub64 (src_size buf) (ring.daddr + ring.size - bs.wr_ptr) =
        src_size buf - (ring.daddr + ring.size - bs.wr_ptr) :=
      sub64_eq _ _ (by omega) hnn
    have hshape : ∀ off so len,
        Event.write_memory off so len ∈ (feed_one hw ring s buf).events →
        src_size buf ≤ bs.remain_size ∧
        ((off = bs.wr_ptr - ring.daddr ∧ so = 0 ∧
            len = ring.daddr + ring.size - bs.wr_ptr) ∨
          (off = 0 ∧ so = ring.daddr + ring.size - bs.wr_ptr ∧
            len = src_size buf - (ring.daddr + ring.size - bs.wr_ptr))) := by
      intro off so len hm
      have h := feed_one_writes_split hw ring s s1 buf bs hbs (by rw [e1, e2]; exact hsplit)
        off so len hm
      rw [e2, e3, e4, e5] at h
      exact h
    constructor
    · intro off so len hm
      obtain ⟨hfit, hD⟩ := hshape off so len hm
      rcases hD with ⟨h1, _, h3⟩ | ⟨h1, _, h3⟩
      · rw [h1, h3]
        omega
      · rw [h1, h3]
        omega
    · intro _ off so len hm
      obtain ⟨_, hD⟩ := hshape off so len hm
      rcases hD with ⟨h1, h2, h3⟩ | ⟨h1, h2, h3⟩
      · refine Or.inl ⟨h1, h2, h3, ?_, ?_⟩
        · rw [h3]
          omega
        · intro hlt
          rw [h3]
          omega
      · refine Or.inr ⟨h1, h2, h3, ?_, ?_⟩
        · rw [h3]
          omega
        · intro hlt
          rw [h3]
          omega
  · constructor
    · intro off so len hm
      obtain ⟨h1, _, h3⟩ := feed_one_writes_single hw ring s s1 buf bs hbs
        (by rw [e1, e2]; exact hsplit) off so len hm
      rw [h1, h3, e3]
      omega
    · intro hp
      unfold passes_ring_end at hp
      rw [e1, e2] at hp
      exact absurd (of_decide_eq_true hp) hsplit

/-- Witness for C28: the ring has 400 bytes at address 0, the write pointer is
at 390 and a chunk of 50 bytes is accepted; the copy is split into 10 bytes at
offset 390 and 40 bytes at offset 0. -/
theorem C28_writes_stay_inside_ring_witness :
    ((∀ off so len, Event.write_memory off so len ∈
        (feed_one Hw.near_ring_end ⟨0, 400⟩ () (SrcBuf.fresh 1 50 100 7)).events →
      off + len ≤ (⟨0, 400⟩ : VpuBuf).size) ∧
    (passes_ring_end ⟨0, 400⟩ 390 (src_size (SrcBuf.fresh 1 50 100 7)) = true →
      ∀ off so len, Event.write_memory off so len ∈
          (feed_one Hw.near_ring_end ⟨0, 400⟩ () (SrcBuf.fresh 1 50 100 7)).events →
        (off = 390 - 0 ∧ so = 0 ∧
          len = 0 + 400 - 390 ∧ len < src_size (SrcBuf.fresh 1 50 100 7) ∧
          (390 < 0 + 400 → 0 < len)) ∨
        (off = 0 ∧ so = 0 + 400 - 390 ∧
          len = src_size (SrcBuf.fresh 1 50 100 7) - (0 + 400 - 390) ∧ 0 < len ∧
          (390 < 0 + 400 → len < src_size (SrcBuf.fresh 1 50 100 7))))) ∧
    passes_ring_end ⟨0, 400⟩ 390 (src_size (SrcBuf.fresh 1 50 100 7)) = true ∧
    (feed_one Hw.near_ring_end ⟨0, 400⟩ () (SrcBuf.fresh 1 50 100 7)).events =
      [Event.get_bitstream_buffer, Event.write_memory 390 0 10, Event.write_memory 0 10 40,
        Event.update_bitstream_buffer 50] :=
  ⟨C28_writes_stay_inside_ring Hw.near_ring_end ⟨0, 400⟩ () () (SrcBuf.fresh 1 50 100 7)
      ⟨0, 0, 390, 100⟩ rfl (by decide) (by decide) (by decide) (by decide) (by decide),
    by decide, by decide⟩

/-! ## Theorems: payloads against the sizes of `queue_setup` -/

theorem queue_setup_sizes_capture (f : PixFmt) (args : QueueSetupArgs)
    (hp : f.width * f.height < 2 ^ 31) :
    (f.num_planes = 1 → f.width * f.height * 3 < 2 ^ 31 →
      (queue_setup_sizes QueueType.CAPTURE_MPLANE f args).sizes 0 =
        f.width * f.height * 3 / 2) ∧
    (f.num_planes = 2 →
      (queue_setup_sizes QueueType.CAPTURE_MPLANE f args).sizes 0 = f.width * f.height ∧
      (queue_setup_sizes QueueType.CAPTURE_MPLANE f args).sizes 1 =
        f.width * f.height / 2) ∧
    (f.num_planes = 3 →
      (queue_setup_sizes QueueType.CAPTURE_MPLANE f args).sizes 0 = f.width * f.height ∧
      (queue_setup_sizes QueueType.CAPTURE_MPLANE f args).sizes 1 =
        f.width * f.height / 4 ∧
      (queue_setup_sizes QueueType.CAPTURE_MPLANE f args).sizes 2 =
        f.width * f.height / 4) := by
  have e1 : mul32 f.width f.height = f.width * f.height := by
    unfold mul32 U32
    exact Nat.mod_eq_of_lt (by omega)
  refine ⟨?_, ?_, ?_⟩
  · intro hn h3
    have e2 : mul32 (f.width * f.height) 3 = f.width * f.height * 3 := by
      unfold mul32 U32
      exact Nat.mod_eq_of_lt (by omega)
    unfold queue_setup_sizes
    simp [hn, e1, e2]
  · intro hn
    unfold queue_setup_sizes
    simp [hn, e1]
  · intro hn
    unfold queue_setup_sizes
    simp [hn, e1]

theorem half_mul_le (a b : Nat) : a / 2 * b ≤ a * b / 2 := by
  rw [Nat.le_div_iff_mul_le (by decide)]
  calc a / 2 * b * 2 = a / 2 * 2 * b := by ring
    _ ≤ a * b := Nat.mul_le_mul_right _ (Nat.div_mul_le_self a 2)

theorem half_mul_half_le (a b : Nat) : a / 2 * (b / 2) ≤ a * b / 4 := by
  rw [Nat.le_div_iff_mul_le (by decide)]
  calc a / 2 * (b / 2) * 4 = (a / 2 * 2) * (b / 2 * 2) := by ring
    _ ≤ a * b := Nat.mul_le_mul (Nat.div_mul_le_self a 2) (Nat.div_mul_le_self b 2)

/-- C29: when `wave5_vpu_dec_finish_decode` completes a displayed frame whose
reported stride equals `display_fmt.width` and whose height used equals
`display_fmt.height`, the CAPTURE and display formats have the same number of
planes, and the products fit the signed 32-bit `int` in which the payloads are
computed, then for 1, 2 and 3 planes each payload passed to
`vb2_set_plane_payload` is at most the `sizes[i]` that lines 833-851 of
`wave5_vpu_dec_queue_setup` compute for the CAPTURE queue, and the payload of
plane 0 is equal to `sizes[0]`. -/
theorem C29_displayed_payloads_within_queue_sizes (K : Defs) (hw : Hw σ) (w : World σ)
    (out : DecOutputInfo) (dst_buf : DstBuf) (rest : List DstBuf) (args : QueueSetupArgs)
    (hneg : K.DISPLAY_IDX_FLAG_NO_FB < 0)
    (hret : (hw.get_output_info (finish_decode_ack hw w).hw).2.1 = 0)
    (hout : (hw.get_output_info (finish_decode_ack hw w).hw).2.2 = out)
    (hdisp : 0 ≤ out.index_frame_display)
    (hfind : v4l2_m2m_dst_buf_remove_by_idx w.inst.dst_queue out.index_frame_display.toNat =
      (some dst_buf, rest))
    (hplanes : w.inst.dst_fmt.num_planes = w.inst.display_fmt.num_planes)
    (hs : out.stride = w.inst.display_fmt.width)
    (hh : (if out.disp_pic_height = w.inst.display_fmt.height
      then out.disp_pic_height - out.rc_display_bottom else w.inst.display_fmt.height) =
        w.inst.display_fmt.height)
    (hbot : out.disp_pic_height = w.inst.display_fmt.height →
      out.rc_display_bottom ≤ out.disp_pic_height)
    (hdph : out.disp_pic_height < 2 ^ 32)
    (hs31 : w.inst.display_fmt.width < 2 ^ 31) (hh31 : w.inst.display_fmt.height < 2 ^ 31)
    (hprod : w.inst.display_fmt.width * w.inst.display_fmt.height < 2 ^ 31) :
    ∃ pre b, (wave5_vpu_dec_finish_decode K hw w).trace =
        w.trace ++ pre ++ [Event.dst_buf_done b Vb2State.DONE] ∧
      (∀ b1 st, Event.dst_buf_done b1 st ∉ pre) ∧
      b.index = dst_buf.index ∧
      (w.inst.display_fmt.num_planes = 1 →
        w.inst.display_fmt.width * w.inst.display_fmt.height * 3 < 2 ^ 31 →
        ∃ p0, b.planes = (vb2_set_plane_payload K dst_buf 0 p0).planes ∧
          p0 = (queue_setup_sizes QueueType.CAPTURE_MPLANE w.inst.display_fmt args).sizes 0) ∧
      (w.inst.display_fmt.num_planes = 2 →
        ∃ p0 p1, b.planes =
            (vb2_set_plane_payload K (vb2_set_plane_payload K dst_buf 0 p0) 1 p1).planes ∧
          p0 = (queue_setup_sizes QueueType.CAPTURE_MPLANE w.inst.display_fmt args).sizes 0 ∧
          p1 ≤ (queue_setup_sizes QueueType.CAPTURE_MPLANE w.inst.display_fmt args).sizes 1) ∧
      (w.inst.display_fmt.num_planes = 3 →
        ∃ p0 p1 p2, b.planes =
            (vb2_set_plane_payload K
              (vb2_set_plane_payload K (vb2_set_plane_payload K dst_buf 0 p0) 1 p1)
              2 p2).planes ∧
          p0 = (queue_setup_sizes QueueType.CAPTURE_MPLANE w.inst.display_fmt args).sizes 0 ∧
          p1 ≤ (queue_setup_sizes QueueType.CAPTURE_MPLANE w.inst.display_fmt args).sizes 1 ∧
          p2 ≤
            (queue_setup_sizes QueueType.CAPTURE_MPLANE w.inst.display_fmt args).sizes 2) := by
  obtain ⟨hq, hf, hdf, _, _, pre, htr, hpre, _, _⟩ := finish_decode_before_deliver hw w
  have hrep : ¬ no_frame_reported K out = true := by
    unfold no_frame_reported
    simp only [decide_eq_true_eq, not_and]
    intro _ h2
    omega
  have hpay := fill_displayed_payloads K
    (wave5_handle_src_buffer
      ({ finish_decode_ack hw w with
          hw := (hw.get_output_info (finish_decode_ack hw w).hw).1,
          trace := (finish_decode_ack hw w).trace ++ [Event.get_output_info] } :
        World σ)).inst out dst_buf w.inst.display_fmt.width w.inst.display_fmt.height
    hs hs31 (by rw [hdf]; exact hh.symm) (by rw [hdf]; exact hbot) hdph hh31
  rw [hf, hplanes] at hpay
  obtain ⟨p1, _, _, _, p5, p6, p7⟩ := hpay
  obtain ⟨q1, q2, q3⟩ := queue_setup_sizes_capture w.inst.display_fmt args hprod
  have hdone : (wave5_vpu_dec_finish_decode K hw w).trace =
      w.trace ++ pre ++ [Event.dst_buf_done (fill_displayed K
        (wave5_handle_src_buffer
          ({ finish_decode_ack hw w with
              hw := (hw.get_output_info (finish_decode_ack hw w).hw).1,
              trace := (finish_decode_ack hw w).trace ++ [Event.get_output_info] } :
            World σ)).inst out dst_buf) Vb2State.DONE] := by
    unfold wave5_vpu_dec_finish_decode
    simp only []
    rw [if_neg (by simp [hret]), hout, if_neg hrep,
      finish_decode_deliver_displayed K out _ dst_buf rest hdisp (by rw [hq]; exact hfind)]
    simp only [htr]
  refine ⟨pre, _, hdone, hpre, p1, ?_, ?_, ?_⟩
  · intro hn h3
    exact ⟨_, p5 hn h3, (q1 hn h3).symm⟩
  · intro hn
    obtain ⟨s0, s1⟩ := q2 hn
    refine ⟨_, _, p6 hn hprod, s0.symm, ?_⟩
    rw [s1]
    exact half_mul_le _ _
  · intro hn
    obtain ⟨s0, s1, s2⟩ := q3 hn
    refine ⟨_, _, _, p7 hn hprod, s0.symm, ?_, ?_⟩
    · rw [s1]
      exact half_mul_half_le _ _
    · rw [s2]
      exact half_mul_half_le _ _

/-- Witness for C29: the two-plane 736x480 format; `queue_setup` computes the
sizes 353280 and 176640, and the payloads of the completed buffer are 353280
and at most 176640. -/
theorem C29_displayed_payloads_within_queue_sizes_witness :
    (queue_setup_sizes QueueType.CAPTURE_MPLANE World.displaying_two_planes.inst.display_fmt
      (QueueSetupArgs.request 4)).sizes 0 = 353280 ∧
    (queue_setup_sizes QueueType.CAPTURE_MPLANE World.displaying_two_planes.inst.display_fmt
      (QueueSetupArgs.request 4)).sizes 1 = 176640 ∧
    ∃ pre b p0 p1, (wave5_vpu_dec_finish_decode Defs.sample Hw.displays
          World.displaying_two_planes).trace =
        [] ++ pre ++ [Event.dst_buf_done b Vb2State.DONE] ∧
      b.planes =
        (vb2_set_plane_payload Defs.sample
          (vb2_set_plane_payload Defs.sample (DstBuf.two_planes 1) 0 p0) 1 p1).planes ∧
      p0 = 353280 ∧ p1 ≤ 176640 := by
  obtain ⟨pre, b, htr, _, _, _, h2, _⟩ :=
    C29_displayed_payloads_within_queue_sizes Defs.sample Hw.displays
      World.displaying_two_planes ⟨1, 1, 736, 480, 0, false, 0⟩ (DstBuf.two_planes 1)
      [DstBuf.two_planes 0] (QueueSetupArgs.request 4)
      (by decide) rfl rfl (by decide) (by decide) (by decide) (by decide) (by decide)
      (fun _ => Nat.zero_le _) (by decide) (by decide) (by decide) (by decide)
  obtain ⟨p0, p1, hb, h0, h1⟩ := h2 (by decide)
  have e0 : (queue_setup_sizes QueueType.CAPTURE_MPLANE
      World.displaying_two_planes.inst.display_fmt (QueueSetupArgs.request 4)).sizes 0 =
      353280 := by decide
  have e1 : (queue_setup_sizes QueueType.CAPTURE_MPLANE
      World.displaying_two_planes.inst.display_fmt (QueueSetupArgs.request 4)).sizes 1 =
      176640 := by decide
  exact ⟨e0, e1, pre, b, p0, p1, htr, hb, h0.trans e0, h1.trans (le_of_eq e1)⟩

/-- The buffer completed for the two-plane 736x480 frame carries the payloads
353280 and 176640. -/
theorem displaying_two_planes_trace :
    (wave5_vpu_dec_finish_decode Defs.sample Hw.displays World.displaying_two_planes).trace =
      [Event.get_output_info,
        Event.dst_buf_done
          { index := 1, planes := [⟨353280, 353280, 8192⟩, ⟨176640, 176640, 12288⟩],
            timestamp := 77, flag_last := false, field_none := true, sequence := 0 }
          Vb2State.DONE] := by
  decide

/-! ## Theorems: end of the sequence with no CAPTURE buffer -/

theorem finish_decode_deliver_seq_end_empty (K : Defs) (out : DecOutputInfo) (w : World σ)
    (hneg : K.DISPLAY_IDX_FLAG_SEQ_END < 0)
    (hdisp : out.index_frame_display = K.DISPLAY_IDX_FLAG_SEQ_END)
    (heos : w.inst.eos = false) (hq : w.inst.dst_queue = []) :
    finish_decode_deliver K out w = w := by
  unfold finish_decode_deliver
  have h1 : ¬ out.index_frame_display ≥ 0 := by omega
  rw [if_neg h1, if_pos ⟨hdisp, heos⟩, hq]

/-- C30: when `wave5_vpu_dec_finish_decode` obtains a record whose display
index is the end-of-sequence sentinel (a negative value different from the "no
frame buffer" sentinel), `eos` is false and the CAPTURE queue is empty, the
call returns with `eos` still false and the CAPTURE queue still empty, and it
completes no CAPTURE buffer, queues no end-of-stream event and does not finish
the job; a later call that finds `eos` as this call left it, a CAPTURE buffer
queued and the end of the sequence reported again sets `eos` and queues the
end-of-stream event. -/
theorem C30_sequence_end_without_capture_buffer (K : Defs) (hw : Hw σ) (w : World σ)
    (hneg : K.DISPLAY_IDX_FLAG_SEQ_END < 0)
    (hne : K.DISPLAY_IDX_FLAG_SEQ_END ≠ K.DISPLAY_IDX_FLAG_NO_FB)
    (hret : (hw.get_output_info (finish_decode_ack hw w).hw).2.1 = 0)
    (hdisp : (hw.get_output_info (finish_decode_ack hw w).hw).2.2.index_frame_display =
      K.DISPLAY_IDX_FLAG_SEQ_END)
    (heos : w.inst.eos = false) (hq : w.inst.dst_queue = []) :
    (wave5_vpu_dec_finish_decode K hw w).inst.eos = false ∧
    (wave5_vpu_dec_finish_decode K hw w).inst.dst_queue = [] ∧
    (wave5_vpu_dec_finish_decode K hw w).status = w.status ∧
    (∃ pre, (wave5_vpu_dec_finish_decode K hw w).trace = w.trace ++ pre ∧
      (∀ b st, Event.dst_buf_done b st ∉ pre) ∧ eos_event ∉ pre ∧
      Event.job_finish ∉ pre) ∧
    ∀ (w2 : World σ) (dst_buf : DstBuf) (rest : List DstBuf),
      w2.inst.eos = (wave5_vpu_dec_finish_decode K hw w).inst.eos →
      w2.inst.dst_queue = dst_buf :: rest →
      (hw.get_output_info (finish_decode_ack hw w2).hw).2.1 = 0 →
      (hw.get_output_info (finish_decode_ack hw w2).hw).2.2.index_frame_display =
        K.DISPLAY_IDX_FLAG_SEQ_END →
      (wave5_vpu_dec_finish_decode K hw w2).inst.eos = true ∧
      (wave5_vpu_dec_finish_decode K hw w2).inst.dst_queue = rest ∧
      eos_event ∈ (wave5_vpu_dec_finish_decode K hw w2).trace := by
  have hrep : ∀ w1 : World σ,
      (hw.get_output_info (finish_decode_ack hw w1).hw).2.2.index_frame_display =
        K.DISPLAY_IDX_FLAG_SEQ_END →
      ¬ no_frame_reported K (hw.get_output_info (finish_decode_ack hw w1).hw).2.2 = true := by
    intro w1 hd
    unfold no_frame_reported
    simp only [decide_eq_true_eq, not_and]
    intro _ h2
    exact hne (hd ▸ h2)
  obtain ⟨hdq, _, _, he, hst, pre, htr, hpre, hpe, hpj⟩ := finish_decode_before_deliver hw w
  have hfd : wave5_vpu_dec_finish_decode K hw w =
      wave5_handle_src_buffer
        ({ finish_decode_ack hw w with
            hw := (hw.get_output_info (finish_decode_ack hw w).hw).1,
            trace := (finish_decode_ack hw w).trace ++ [Event.get_output_info] } :
          World σ) := by
    unfold wave5_vpu_dec_finish_decode
    simp only []
    rw [if_neg (by simp [hret]), if_neg (hrep w hdisp),
      finish_decode_deliver_seq_end_empty K _ _ hneg hdisp (by rw [he]; exact heos)
        (by rw [hdq]; exact hq)]
  have hres : (wave5_vpu_dec_finish_decode K hw w).inst.eos = false := by
    rw [hfd, he]
    exact heos
  refine ⟨hres, ?_, ?_, ⟨pre, ?_, hpre, hpe, hpj⟩, ?_⟩
  · rw [hfd, hdq]
    exact hq
  · rw [hfd]
    exact hst
  · rw [hfd]
    exact htr
  · intro w2 dst_buf rest heos2 hq2 hret2 hdisp2
    obtain ⟨hdq2, _, _, he2, _, _, _, _, _, _⟩ := finish_decode_before_deliver hw w2
    have hfd2 := finish_decode_deliver_seq_end K
      (hw.get_output_info (finish_decode_ack hw w2).hw).2.2
      (wave5_handle_src_buffer
        ({ finish_decode_ack hw w2 with
            hw := (hw.get_output_info (finish_decode_ack hw w2).hw).1,
            trace := (finish_decode_ack hw w2).trace ++ [Event.get_output_info] } :
          World σ)) dst_buf rest hneg hdisp2 (by rw [he2, heos2]; exact hres)
      (by rw [hdq2]; exact hq2)
    unfold wave5_vpu_dec_finish_decode
    simp only []
    rw [if_neg (by simp [hret2]), if_neg (hrep w2 hdisp2), hfd2]
    refine ⟨rfl, rfl, ?_⟩
    simp [eos_event]

/-- Witness for C30: the hardware reports the end of the sequence while no
CAPTURE buffer is queued; `eos` stays false and only the query is issued.  When
a CAPTURE buffer is queued afterwards and the end of the sequence is reported
again, that buffer is completed and the end-of-stream event is queued. -/
theorem C30_sequence_end_without_capture_buffer_witness :
    (wave5_vpu_dec_finish_decode Defs.sample Hw.at_end World.starved).inst.eos = false ∧
    (wave5_vpu_dec_finish_decode Defs.sample Hw.at_end World.starved).trace =
      [Event.get_output_info] ∧
    (wave5_vpu_dec_finish_decode Defs.sample Hw.at_end
      { wave5_vpu_dec_finish_decode Defs.sample Hw.at_end World.starved with
        inst := { (wave5_vpu_dec_finish_decode Defs.sample Hw.at_end World.starved).inst with
          dst_queue := [DstBuf.fresh 0] } }).inst.eos = true ∧
    eos_event ∈ (wave5_vpu_dec_finish_decode Defs.sample Hw.at_end
      { wave5_vpu_dec_finish_decode Defs.sample Hw.at_end World.starved with
        inst := { (wave5_vpu_dec_finish_decode Defs.sample Hw.at_end World.starved).inst with
          dst_queue := [DstBuf.fresh 0] } }).trace := by
  have h := C30_sequence_end_without_capture_buffer Defs.sample Hw.at_end World.starved
    (by decide) (by decide) rfl rfl rfl rfl
  have h2 := h.2.2.2.2
    { wave5_vpu_dec_finish_decode Defs.sample Hw.at_end World.starved with
      inst := { (wave5_vpu_dec_finish_decode Defs.sample Hw.at_end World.starved).inst with
        dst_queue := [DstBuf.fresh 0] } }
    (DstBuf.fresh 0) [] rfl rfl rfl rfl
  exact ⟨h.1, by decide, h2.1, h2.2.2⟩

end Wave5
